import Mathlib

/-!
# Resource lookup layer of the EC2 service (`internal/service/ec2/find.go`)

A shallow embedding of the `Find*` helpers.  Go pointers are `Option`s, Go slices are
`List`s (a nil slice and an empty slice are both `[]`), a Go result pair `(*T, error)` is a
pair `Option T × Option error`, and a closure that appends to a captured variable is a
function on that variable's value.  The AWS SDK client is a record holding, for each API
operation, the response the remote service gives to a request.
-/

set_option autoImplicit false

namespace Ec2Find

/-! ## SDK helpers and error values -/

/-- The SDK helper `aws.StringValue`: the pointed-to string, or the empty string for nil. -/
def StringValue : Option String → String
  | some s => s
  | none => ""

/-- The SDK helper `aws.StringSlice`: a slice of pointers to the given strings. -/
def StringSlice (xs : List String) : List (Option String) :=
  xs.map some

/-- An `error` value that does not originate in the lookup layer: an SDK `awserr.Error`
with its code and message, or any other error known only by its text (a network failure,
a `fmt.Errorf` value). -/
inductive BaseError where
  | awsErr (Code : String) (Message : String)
  | errorString (text : String)
  deriving DecidableEq, Repr

/-- The helper `tfawserr.ErrCodeEquals` for one code: true when the error is an
`awserr.Error` with that code; false for nil and for every other error. -/
def ErrCodeEquals (err : Option BaseError) (code : String) : Bool :=
  match err with
  | some (.awsErr c _) => c == code
  | _ => false

/-- The plugin SDK's `resource.NotFoundError`, with the fields the finders set. -/
structure NotFoundError (Req : Type) where
  LastError : Option BaseError := none
  LastRequest : Option Req := none
  Message : String := ""
  deriving DecidableEq, Repr

/-- The `error` values a finder over requests of type `Req` can return: an error passed
through as it was received, a `*resource.NotFoundError`, and the two results of the
`tfresource` constructors.  `nilDereference` is not an error value: it stands for the
run-time panic of reading a field through a nil pointer, so that a finder that reads
through a pointer without testing it is still a total function. -/
inductive FindError (Req : Type) where
  | base (e : BaseError)
  | notFound (e : NotFoundError Req)
  | emptyResult (LastRequest : Req)
  | tooManyResults (Count : Nat) (LastRequest : Req)
  | nilDereference
  deriving DecidableEq, Repr

/-- Modelled from the spec: `tfresource.NewEmptyResultError` (package `internal/tfresource`)
is the `NotFound` returned for zero results, carrying the original query. -/
def NewEmptyResultError {Req : Type} (lastRequest : Req) : FindError Req :=
  .emptyResult lastRequest

/-- Modelled from the spec: `tfresource.NewTooManyResultsError` (package
`internal/tfresource`) is the `TooManyResults` error carrying the count and the query. -/
def NewTooManyResultsError {Req : Type} (count : Nat) (lastRequest : Req) : FindError Req :=
  .tooManyResults count lastRequest

/-- Modelled from the spec: `tfresource.NotFound` (package `internal/tfresource`) classifies
an error as `NotFound`; zero results are a sub-case of `NotFound`, while `TooManyResults`
and transport errors are not. -/
def NotFound {Req : Type} : Option (FindError Req) → Bool
  | some (.notFound _) => true
  | some (.emptyResult _) => true
  | _ => false

/-- The query a `NotFound` or `TooManyResults` error carries, when it carries one. -/
def FindError.lastRequest {Req : Type} : FindError Req → Option Req
  | .base _ => none
  | .notFound e => e.LastRequest
  | .emptyResult r => some r
  | .tooManyResults _ r => some r
  | .nilDereference => none

/-- A `resource.NotFoundError` carries the message `m` when its `Message` is `m` and is
not empty (its `Error()` method treats the empty `Message` as no message). -/
def NotFoundError.hasMessage {Req : Type} (e : NotFoundError Req) (m : String) : Prop :=
  e.Message = m ∧ e.Message ≠ ""

/-- What the remote service answers to a paginated request: the pages it delivers, in
order, and the error that ends the pagination (nil when every page was delivered). -/
structure Pages (P : Type) where
  pages : List (Option P) := []
  err : Option BaseError := none
  deriving DecidableEq, Repr

/-- The SDK's page iteration behind every `Describe…Pages(input, fn)`: `fn(page, lastPage)`
is called for each delivered page in order, `lastPage` being true on the final page of a
pagination that did not fail; the iteration stops as soon as `fn` returns false, and the
call returns the pagination's error.  `s` is the value of the variables `fn` captures. -/
def eachPage {P σ : Type} (fn : σ → Option P → Bool → σ × Bool) (err : Option BaseError) :
    List (Option P) → σ → σ × Option BaseError
  | [], s => (s, err)
  | p :: rest, s =>
    let r := fn s p (rest.isEmpty && err.isNone)
    if r.2 then eachPage fn err rest r.1 else (r.1, none)

/-! ## API shapes (`github.com/aws/aws-sdk-go/service/ec2`) -/

/-- The SDK type `ec2.Filter`. -/
structure Filter where
  Name : Option String := none
  Values : List (Option String) := []
  deriving DecidableEq, Repr

/-- The SDK type `ec2.Vpc` (scalar fields). -/
structure Vpc where
  CidrBlock : Option String := none
  DhcpOptionsId : Option String := none
  InstanceTenancy : Option String := none
  IsDefault : Option Bool := none
  OwnerId : Option String := none
  State : Option String := none
  VpcId : Option String := none
  deriving DecidableEq, Repr

/-- The SDK type `ec2.DescribeVpcsInput`. -/
structure DescribeVpcsInput where
  Filters : List (Option Filter) := []
  VpcIds : List (Option String) := []
  deriving DecidableEq, Repr

/-- The SDK type `ec2.DescribeVpcsOutput`, one page of a `DescribeVpcs` listing. -/
structure DescribeVpcsOutput where
  Vpcs : List (Option Vpc) := []
  deriving DecidableEq, Repr

/-- The SDK type `ec2.VpcEndpoint`. -/
structure VpcEndpoint where
  RouteTableIds : List (Option String) := []
  ServiceName : Option String := none
  State : Option String := none
  SubnetIds : List (Option String) := []
  VpcEndpointId : Option String := none
  VpcEndpointType : Option String := none
  VpcId : Option String := none
  deriving DecidableEq, Repr

/-- The SDK type `ec2.DescribeVpcEndpointsInput`. -/
structure DescribeVpcEndpointsInput where
  Filters : List (Option Filter) := []
  VpcEndpointIds : List (Option String) := []
  deriving DecidableEq, Repr

/-- The SDK type `ec2.DescribeVpcEndpointsOutput`. -/
structure DescribeVpcEndpointsOutput where
  VpcEndpoints : List (Option VpcEndpoint) := []
  deriving DecidableEq, Repr

/-- The SDK type `ec2.Route`. -/
structure Route where
  DestinationCidrBlock : Option String := none
  DestinationIpv6CidrBlock : Option String := none
  DestinationPrefixListId : Option String := none
  GatewayId : Option String := none
  Origin : Option String := none
  State : Option String := none
  deriving DecidableEq, Repr

/-- The SDK type `ec2.RouteTableAssociationState`. -/
structure RouteTableAssociationState where
  State : Option String := none
  StatusMessage : Option String := none
  deriving DecidableEq, Repr

/-- The SDK type `ec2.RouteTableAssociation`. -/
structure RouteTableAssociation where
  AssociationState : Option RouteTableAssociationState := none
  GatewayId : Option String := none
  Main : Option Bool := none
  RouteTableAssociationId : Option String := none
  RouteTableId : Option String := none
  SubnetId : Option String := none
  deriving DecidableEq, Repr

/-- The SDK type `ec2.PropagatingVgw`. -/
structure PropagatingVgw where
  GatewayId : Option String := none
  deriving DecidableEq, Repr

/-- The SDK type `ec2.RouteTable`. -/
structure RouteTable where
  Associations : List (Option RouteTableAssociation) := []
  OwnerId : Option String := none
  PropagatingVgws : List (Option PropagatingVgw) := []
  RouteTableId : Option String := none
  Routes : List (Option Route) := []
  VpcId : Option String := none
  deriving DecidableEq, Repr

/-- The SDK type `ec2.DescribeRouteTablesInput`. -/
structure DescribeRouteTablesInput where
  Filters : List (Option Filter) := []
  RouteTableIds : List (Option String) := []
  deriving DecidableEq, Repr

/-- The SDK type `ec2.DescribeRouteTablesOutput`, one page of a `DescribeRouteTables`
listing. -/
structure DescribeRouteTablesOutput where
  RouteTables : List (Option RouteTable) := []
  deriving DecidableEq, Repr

/-- The SDK type `ec2.VpcAttachment`. -/
structure VpcAttachment where
  State : Option String := none
  VpcId : Option String := none
  deriving DecidableEq, Repr

/-- The SDK type `ec2.VpnGateway`. -/
structure VpnGateway where
  AmazonSideAsn : Option Int := none
  AvailabilityZone : Option String := none
  State : Option String := none
  Type_ : Option String := none
  VpcAttachments : List (Option VpcAttachment) := []
  VpnGatewayId : Option String := none
  deriving DecidableEq, Repr

/-- The SDK type `ec2.DescribeVpnGatewaysInput`. -/
structure DescribeVpnGatewaysInput where
  Filters : List (Option Filter) := []
  VpnGatewayIds : List (Option String) := []
  deriving DecidableEq, Repr

/-- The SDK type `ec2.DescribeVpnGatewaysOutput`. -/
structure DescribeVpnGatewaysOutput where
  VpnGateways : List (Option VpnGateway) := []
  deriving DecidableEq, Repr

/-- The SDK type `ec2.VpcPeeringConnectionStateReason`. -/
structure VpcPeeringConnectionStateReason where
  Code : Option String := none
  Message : Option String := none
  deriving DecidableEq, Repr

/-- The SDK type `ec2.VpcPeeringConnectionVpcInfo` (scalar fields). -/
structure VpcPeeringConnectionVpcInfo where
  CidrBlock : Option String := none
  OwnerId : Option String := none
  Region : Option String := none
  VpcId : Option String := none
  deriving DecidableEq, Repr

/-- The SDK type `ec2.VpcPeeringConnection`. -/
structure VpcPeeringConnection where
  AccepterVpcInfo : Option VpcPeeringConnectionVpcInfo := none
  RequesterVpcInfo : Option VpcPeeringConnectionVpcInfo := none
  Status : Option VpcPeeringConnectionStateReason := none
  VpcPeeringConnectionId : Option String := none
  deriving DecidableEq, Repr

/-- The SDK type `ec2.DescribeVpcPeeringConnectionsInput`. -/
structure DescribeVpcPeeringConnectionsInput where
  Filters : List (Option Filter) := []
  VpcPeeringConnectionIds : List (Option String) := []
  deriving DecidableEq, Repr

/-- The SDK type `ec2.DescribeVpcPeeringConnectionsOutput`, one page of a
`DescribeVpcPeeringConnections` listing. -/
structure DescribeVpcPeeringConnectionsOutput where
  VpcPeeringConnections : List (Option VpcPeeringConnection) := []
  deriving DecidableEq, Repr

/-- The SDK type `ec2.NetworkAclAssociation`. -/
structure NetworkAclAssociation where
  NetworkAclAssociationId : Option String := none
  NetworkAclId : Option String := none
  SubnetId : Option String := none
  deriving DecidableEq, Repr

/-- The SDK type `ec2.NetworkAcl` (without its entries and tags). -/
structure NetworkAcl where
  Associations : List (Option NetworkAclAssociation) := []
  IsDefault : Option Bool := none
  NetworkAclId : Option String := none
  OwnerId : Option String := none
  VpcId : Option String := none
  deriving DecidableEq, Repr

/-- The SDK type `ec2.DescribeNetworkAclsInput`. -/
structure DescribeNetworkAclsInput where
  Filters : List (Option Filter) := []
  NetworkAclIds : List (Option String) := []
  deriving DecidableEq, Repr

/-- The SDK type `ec2.DescribeNetworkAclsOutput`, one page of a `DescribeNetworkAcls`
listing. -/
structure DescribeNetworkAclsOutput where
  NetworkAcls : List (Option NetworkAcl) := []
  deriving DecidableEq, Repr

/-- The SDK type `ec2.PrefixListEntry`. -/
structure PrefixListEntry where
  Cidr : Option String := none
  Description : Option String := none
  deriving DecidableEq, Repr

/-- The SDK type `ec2.GetManagedPrefixListEntriesInput`. -/
structure GetManagedPrefixListEntriesInput where
  PrefixListId : Option String := none
  deriving DecidableEq, Repr

/-- The SDK type `ec2.GetManagedPrefixListEntriesOutput`, one page of the entries of a
managed prefix list. -/
structure GetManagedPrefixListEntriesOutput where
  Entries : List (Option PrefixListEntry) := []
  deriving DecidableEq, Repr

/-- The SDK type `ec2.TransitGatewayRouteAttachment`. -/
structure TransitGatewayRouteAttachment where
  ResourceId : Option String := none
  ResourceType : Option String := none
  TransitGatewayAttachmentId : Option String := none
  deriving DecidableEq, Repr

/-- The SDK type `ec2.TransitGatewayRoute`. -/
structure TransitGatewayRoute where
  DestinationCidrBlock : Option String := none
  PrefixListId : Option String := none
  State : Option String := none
  TransitGatewayAttachments : List (Option TransitGatewayRouteAttachment) := []
  Type_ : Option String := none
  deriving DecidableEq, Repr

/-- The SDK type `ec2.SearchTransitGatewayRoutesInput`. -/
structure SearchTransitGatewayRoutesInput where
  Filters : List (Option Filter) := []
  TransitGatewayRouteTableId : Option String := none
  deriving DecidableEq, Repr

/-- The SDK type `ec2.SearchTransitGatewayRoutesOutput`. -/
structure SearchTransitGatewayRoutesOutput where
  AdditionalRoutesAvailable : Option Bool := none
  Routes : List (Option TransitGatewayRoute) := []
  deriving DecidableEq, Repr

/-- The SDK type `ec2.AttributeBooleanValue`. -/
structure AttributeBooleanValue where
  Value : Option Bool := none
  deriving DecidableEq, Repr

/-- The SDK type `ec2.DescribeVpcAttributeInput`. -/
structure DescribeVpcAttributeInput where
  Attribute : Option String := none
  VpcId : Option String := none
  deriving DecidableEq, Repr

/-- The SDK type `ec2.DescribeVpcAttributeOutput`. -/
structure DescribeVpcAttributeOutput where
  EnableDnsHostnames : Option AttributeBooleanValue := none
  EnableDnsSupport : Option AttributeBooleanValue := none
  VpcId : Option String := none
  deriving DecidableEq, Repr

/-- The SDK type `ec2.CarrierGateway`. -/
structure CarrierGateway where
  CarrierGatewayId : Option String := none
  OwnerId : Option String := none
  State : Option String := none
  VpcId : Option String := none
  deriving DecidableEq, Repr

/-- The SDK type `ec2.DescribeCarrierGatewaysInput`. -/
structure DescribeCarrierGatewaysInput where
  CarrierGatewayIds : List (Option String) := []
  Filters : List (Option Filter) := []
  deriving DecidableEq, Repr

/-- The SDK type `ec2.DescribeCarrierGatewaysOutput`. -/
structure DescribeCarrierGatewaysOutput where
  CarrierGateways : List (Option CarrierGateway) := []
  deriving DecidableEq, Repr

/-- The SDK type `ec2.ClientVpnEndpointStatus`. -/
structure ClientVpnEndpointStatus where
  Code : Option String := none
  Message : Option String := none
  deriving DecidableEq, Repr

/-- The SDK type `ec2.ClientVpnEndpoint` (scalar fields and status). -/
structure ClientVpnEndpoint where
  ClientCidrBlock : Option String := none
  ClientVpnEndpointId : Option String := none
  Description : Option String := none
  Status : Option ClientVpnEndpointStatus := none
  VpcId : Option String := none
  deriving DecidableEq, Repr

/-- The SDK type `ec2.DescribeClientVpnEndpointsInput`. -/
structure DescribeClientVpnEndpointsInput where
  ClientVpnEndpointIds : List (Option String) := []
  Filters : List (Option Filter) := []
  deriving DecidableEq, Repr

/-- The SDK type `ec2.DescribeClientVpnEndpointsOutput`, one page of a
`DescribeClientVpnEndpoints` listing. -/
structure DescribeClientVpnEndpointsOutput where
  ClientVpnEndpoints : List (Option ClientVpnEndpoint) := []
  deriving DecidableEq, Repr

/-- The SDK type `ec2.InstanceState`. -/
structure InstanceState where
  Code : Option Int := none
  Name : Option String := none
  deriving DecidableEq, Repr

/-- The SDK type `ec2.Instance` (scalar fields and state). -/
structure Instance where
  InstanceId : Option String := none
  InstanceType : Option String := none
  State : Option InstanceState := none
  SubnetId : Option String := none
  VpcId : Option String := none
  deriving DecidableEq, Repr

/-- The SDK type `ec2.Reservation`. -/
structure Reservation where
  Instances : List (Option Instance) := []
  OwnerId : Option String := none
  ReservationId : Option String := none
  deriving DecidableEq, Repr

/-- The SDK type `ec2.DescribeInstancesInput`. -/
structure DescribeInstancesInput where
  Filters : List (Option Filter) := []
  InstanceIds : List (Option String) := []
  deriving DecidableEq, Repr

/-- The SDK type `ec2.DescribeInstancesOutput`, one page of a `DescribeInstances`
listing. -/
structure DescribeInstancesOutput where
  Reservations : List (Option Reservation) := []
  deriving DecidableEq, Repr

/-! ## SDK constants and provider error codes -/

/-- The SDK constant `ec2.VpnStateDeleted`. -/
def VpnStateDeleted : String := "deleted"

/-- The SDK constant `ec2.VpcPeeringConnectionStateReasonCodeDeleted`. -/
def VpcPeeringConnectionStateReasonCodeDeleted : String := "deleted"

/-- The SDK constant `ec2.VpcPeeringConnectionStateReasonCodeExpired`. -/
def VpcPeeringConnectionStateReasonCodeExpired : String := "expired"

/-- The SDK constant `ec2.VpcPeeringConnectionStateReasonCodeFailed`. -/
def VpcPeeringConnectionStateReasonCodeFailed : String := "failed"

/-- The SDK constant `ec2.VpcPeeringConnectionStateReasonCodeRejected`. -/
def VpcPeeringConnectionStateReasonCodeRejected : String := "rejected"

/-- Modelled from the spec: the constant `ErrCodeInvalidVpcIDNotFound` of
`internal/service/ec2/errors.go`, the provider error code `InvalidVpcID.NotFound`. -/
def ErrCodeInvalidVpcIDNotFound : String := "InvalidVpcID.NotFound"

/-- Modelled from the spec: the constant `ErrCodeInvalidVpcEndpointIdNotFound` of
`internal/service/ec2/errors.go`, the provider error code for an unknown VPC endpoint. -/
def ErrCodeInvalidVpcEndpointIdNotFound : String := "InvalidVpcEndpointId.NotFound"

/-- Modelled from the spec: the constant `ErrCodeInvalidRouteTableIDNotFound` of
`internal/service/ec2/errors.go`, the provider error code for an unknown route table. -/
def ErrCodeInvalidRouteTableIDNotFound : String := "InvalidRouteTableID.NotFound"

/-- Modelled from the spec: the constant `ErrCodeInvalidVpnGatewayIDNotFound` of
`internal/service/ec2/errors.go`, the provider error code for an unknown VPN gateway. -/
def ErrCodeInvalidVpnGatewayIDNotFound : String := "InvalidVpnGatewayID.NotFound"

/-- Modelled from the spec: the constant `ErrCodeInvalidVpcPeeringConnectionIDNotFound` of
`internal/service/ec2/errors.go`, the provider error code for an unknown VPC peering
connection. -/
def ErrCodeInvalidVpcPeeringConnectionIDNotFound : String :=
  "InvalidVpcPeeringConnectionID.NotFound"

/-- Modelled from the spec: the constant `ErrCodeInvalidNetworkAclIDNotFound` of
`internal/service/ec2/errors.go`, the provider error code for an unknown network ACL. -/
def ErrCodeInvalidNetworkAclIDNotFound : String := "InvalidNetworkAclID.NotFound"

/-- Modelled from the spec: the constant `ErrCodeInvalidPrefixListIDNotFound` of
`internal/service/ec2/errors.go`, the provider error code for an unknown prefix list. -/
def ErrCodeInvalidPrefixListIDNotFound : String := "InvalidPrefixListID.NotFound"

/-- The SDK constant `ec2.TransitGatewayRouteStateDeleted`. -/
def TransitGatewayRouteStateDeleted : String := "deleted"

/-- The SDK constant `ec2.TransitGatewayRouteTypeStatic`. -/
def TransitGatewayRouteTypeStatic : String := "static"

/-- The SDK constant `ec2.VpcAttributeNameEnableDnsHostnames`. -/
def VpcAttributeNameEnableDnsHostnames : String := "enableDnsHostnames"

/-- The SDK constant `ec2.VpcAttributeNameEnableDnsSupport`. -/
def VpcAttributeNameEnableDnsSupport : String := "enableDnsSupport"

/-- The SDK helper `aws.BoolValue`: the pointed-to boolean, or false for nil. -/
def BoolValue : Option Bool → Bool
  | some b => b
  | none => false

/-- Modelled from the spec: the constant `ErrCodeInvalidClientVpnEndpointIdNotFound` of
`internal/service/ec2/errors.go`, the provider error code for an unknown Client VPN
endpoint. -/
def ErrCodeInvalidClientVpnEndpointIdNotFound : String := "InvalidClientVpnEndpointId.NotFound"

/-- Modelled from the spec: the constant `ErrCodeInvalidInstanceIDNotFound` of
`internal/service/ec2/errors.go`, the provider error code for an unknown instance. -/
def ErrCodeInvalidInstanceIDNotFound : String := "InvalidInstanceID.NotFound"

/-- The SDK constant `ec2.ClientVpnEndpointStatusCodeDeleted`. -/
def ClientVpnEndpointStatusCodeDeleted : String := "deleted"

/-- The SDK constant `ec2.InstanceStateNameTerminated`. -/
def InstanceStateNameTerminated : String := "terminated"

/-- The SDK constant `ec2.RouteTableAssociationStateCodeDisassociated`. -/
def RouteTableAssociationStateCodeDisassociated : String := "disassociated"

/-! ## Helpers of this repository that the finders take as given -/

/-- The two CIDR helpers of package `internal/verify` that the finders call:
`CIDRBlocksEqual` decides whether two CIDR texts denote the same block, and
`CanonicalCIDRBlock` gives the canonical text of a block. -/
structure Verify where
  CIDRBlocksEqual : String → String → Bool
  CanonicalCIDRBlock : String → String

/-- The helper `BuildAttributeFilterList` of package `internal/service/ec2`: the filter
list built from the name/value pairs of a Go map literal. -/
abbrev AttributeFilterBuilder : Type := List (String × String) → List (Option Filter)

/-! ## The client -/

/-- The client handle `*ec2.EC2` as the finders see it: for each operation, the answer of
the remote service to a request.  An operation that is not given answers with no pages, or
with a nil output, and no error. -/
structure EC2 where
  describeVpcs : DescribeVpcsInput → Pages DescribeVpcsOutput := fun _ => {}
  describeRouteTables : DescribeRouteTablesInput → Pages DescribeRouteTablesOutput :=
    fun _ => {}
  describeVpcPeeringConnections :
    DescribeVpcPeeringConnectionsInput → Pages DescribeVpcPeeringConnectionsOutput :=
    fun _ => {}
  DescribeVpcEndpoints :
    DescribeVpcEndpointsInput → Option DescribeVpcEndpointsOutput × Option BaseError :=
    fun _ => (none, none)
  DescribeVpnGateways :
    DescribeVpnGatewaysInput → Option DescribeVpnGatewaysOutput × Option BaseError :=
    fun _ => (none, none)
  describeNetworkAcls : DescribeNetworkAclsInput → Pages DescribeNetworkAclsOutput :=
    fun _ => {}
  getManagedPrefixListEntries :
    GetManagedPrefixListEntriesInput → Pages GetManagedPrefixListEntriesOutput :=
    fun _ => {}
  SearchTransitGatewayRoutes :
    SearchTransitGatewayRoutesInput →
      Option SearchTransitGatewayRoutesOutput × Option BaseError :=
    fun _ => (none, none)
  DescribeVpcAttribute :
    DescribeVpcAttributeInput → Option DescribeVpcAttributeOutput × Option BaseError :=
    fun _ => (none, none)
  DescribeCarrierGateways :
    DescribeCarrierGatewaysInput → Option DescribeCarrierGatewaysOutput × Option BaseError :=
    fun _ => (none, none)
  describeClientVpnEndpoints :
    DescribeClientVpnEndpointsInput → Pages DescribeClientVpnEndpointsOutput :=
    fun _ => {}
  describeInstances : DescribeInstancesInput → Pages DescribeInstancesOutput := fun _ => {}

/-- The SDK method `DescribeVpcsPages`. -/
def EC2.DescribeVpcsPages {σ : Type} (conn : EC2) (input : DescribeVpcsInput)
    (fn : σ → Option DescribeVpcsOutput → Bool → σ × Bool) (s : σ) : σ × Option BaseError :=
  eachPage fn (conn.describeVpcs input).err (conn.describeVpcs input).pages s

/-- The SDK method `DescribeRouteTablesPages`. -/
def EC2.DescribeRouteTablesPages {σ : Type} (conn : EC2) (input : DescribeRouteTablesInput)
    (fn : σ → Option DescribeRouteTablesOutput → Bool → σ × Bool) (s : σ) :
    σ × Option BaseError :=
  eachPage fn (conn.describeRouteTables input).err (conn.describeRouteTables input).pages s

/-- The SDK method `DescribeVpcPeeringConnectionsPages`. -/
def EC2.DescribeVpcPeeringConnectionsPages {σ : Type} (conn : EC2)
    (input : DescribeVpcPeeringConnectionsInput)
    (fn : σ → Option DescribeVpcPeeringConnectionsOutput → Bool → σ × Bool) (s : σ) :
    σ × Option BaseError :=
  eachPage fn (conn.describeVpcPeeringConnections input).err
    (conn.describeVpcPeeringConnections input).pages s

/-- The SDK method `DescribeNetworkAclsPages`. -/
def EC2.DescribeNetworkAclsPages {σ : Type} (conn : EC2) (input : DescribeNetworkAclsInput)
    (fn : σ → Option DescribeNetworkAclsOutput → Bool → σ × Bool) (s : σ) :
    σ × Option BaseError :=
  eachPage fn (conn.describeNetworkAcls input).err (conn.describeNetworkAcls input).pages s

/-- The SDK method `GetManagedPrefixListEntriesPages`. -/
def EC2.GetManagedPrefixListEntriesPages {σ : Type} (conn : EC2)
    (input : GetManagedPrefixListEntriesInput)
    (fn : σ → Option GetManagedPrefixListEntriesOutput → Bool → σ × Bool) (s : σ) :
    σ × Option BaseError :=
  eachPage fn (conn.getManagedPrefixListEntries input).err
    (conn.getManagedPrefixListEntries input).pages s

/-- The SDK method `DescribeClientVpnEndpointsPages`. -/
def EC2.DescribeClientVpnEndpointsPages {σ : Type} (conn : EC2)
    (input : DescribeClientVpnEndpointsInput)
    (fn : σ → Option DescribeClientVpnEndpointsOutput → Bool → σ × Bool) (s : σ) :
    σ × Option BaseError :=
  eachPage fn (conn.describeClientVpnEndpoints input).err
    (conn.describeClientVpnEndpoints input).pages s

/-- The SDK method `DescribeInstancesPages`. -/
def EC2.DescribeInstancesPages {σ : Type} (conn : EC2) (input : DescribeInstancesInput)
    (fn : σ → Option DescribeInstancesOutput → Bool → σ × Bool) (s : σ) :
    σ × Option BaseError :=
  eachPage fn (conn.describeInstances input).err (conn.describeInstances input).pages s

/-! ## The finders -/

/-- The finder `FindVPCs` (find.go, 1576–1605). -/
def FindVPCs (conn : EC2) (input : DescribeVpcsInput) :
    List (Option Vpc) × Option (FindError DescribeVpcsInput) :=
  let r := conn.DescribeVpcsPages input
    (fun (output : List (Option Vpc)) page lastPage =>
      match page with
      | none => (output, !lastPage)
      | some page =>
        (page.Vpcs.foldl
          (fun output v =>
            match v with
            | some _ => output ++ [v]
            | none => output)
          output, !lastPage))
    []
  let output := r.1
  let err := r.2
  if ErrCodeEquals err ErrCodeInvalidVpcIDNotFound then
    ([], some (.notFound { LastError := err, LastRequest := some input }))
  else
    match err with
    | some e => ([], some (.base e))
    | none => (output, none)

/-- The finder `FindVPC` (find.go, 1558–1574). -/
def FindVPC (conn : EC2) (input : DescribeVpcsInput) :
    Option Vpc × Option (FindError DescribeVpcsInput) :=
  let r := FindVPCs conn input
  let output := r.1
  match r.2 with
  | some err => (none, some err)
  | none =>
    match output with
    | [] => (none, some (NewEmptyResultError input))
    | none :: _ => (none, some (NewEmptyResultError input))
    | some v :: _ =>
      if output.length > 1 then
        (none, some (NewTooManyResultsError output.length input))
      else
        (some v, none)

/-- The finder `FindVPCByID` (find.go, 1607–1626). -/
def FindVPCByID (conn : EC2) (id : String) :
    Option Vpc × Option (FindError DescribeVpcsInput) :=
  let input : DescribeVpcsInput := { VpcIds := StringSlice [id] }
  match FindVPC conn input with
  | (_, some err) => (none, some err)
  | (none, none) => (none, some .nilDereference)
  | (some output, none) =>
    if StringValue output.VpcId ≠ id then
      (none, some (.notFound { LastRequest := some input }))
    else
      (some output, none)

/-- The finder `FindVPCEndpoint` (find.go, 1759–1778). -/
def FindVPCEndpoint (conn : EC2) (input : DescribeVpcEndpointsInput) :
    Option VpcEndpoint × Option (FindError DescribeVpcEndpointsInput) :=
  let r := conn.DescribeVpcEndpoints input
  let err := r.2
  if ErrCodeEquals err ErrCodeInvalidVpcEndpointIdNotFound then
    (none, some (.notFound { LastError := err, LastRequest := some input }))
  else
    match err with
    | some e => (none, some (.base e))
    | none =>
      match r.1 with
      | none => (none, some (NewEmptyResultError input))
      | some output =>
        match output.VpcEndpoints with
        | [] => (none, some (NewEmptyResultError input))
        | none :: _ => (none, some (NewEmptyResultError input))
        | some v :: _ => (some v, none)

/-- The finder `FindRouteTables` (find.go, 1094–1125). -/
def FindRouteTables (conn : EC2) (input : DescribeRouteTablesInput) :
    List (Option RouteTable) × Option (FindError DescribeRouteTablesInput) :=
  let r := conn.DescribeRouteTablesPages input
    (fun (output : List (Option RouteTable)) page lastPage =>
      match page with
      | none => (output, !lastPage)
      | some page =>
        (page.RouteTables.foldl
          (fun output table =>
            match table with
            | none => output
            | some _ => output ++ [table])
          output, !lastPage))
    []
  let output := r.1
  let err := r.2
  if ErrCodeEquals err ErrCodeInvalidRouteTableIDNotFound then
    ([], some (.notFound { LastError := err, LastRequest := some input }))
  else
    match err with
    | some e => ([], some (.base e))
    | none => (output, none)

/-- The finder `FindRouteTable` (find.go, 1076–1092). -/
def FindRouteTable (conn : EC2) (input : DescribeRouteTablesInput) :
    Option RouteTable × Option (FindError DescribeRouteTablesInput) :=
  let r := FindRouteTables conn input
  let output := r.1
  match r.2 with
  | some err => (none, some err)
  | none =>
    match output with
    | [] => (none, some (NewEmptyResultError input))
    | none :: _ => (none, some (NewEmptyResultError input))
    | some v :: _ =>
      if output.length > 1 then
        (none, some (NewTooManyResultsError output.length input))
      else
        (some v, none)

/-- The finder `FindRouteTableByID` (find.go, 1068–1074). -/
def FindRouteTableByID (conn : EC2) (routeTableID : String) :
    Option RouteTable × Option (FindError DescribeRouteTablesInput) :=
  let input : DescribeRouteTablesInput := { RouteTableIds := StringSlice [routeTableID] }
  FindRouteTable conn input

/-- The finder `FindVPNGateway` (find.go, 1970–1993). -/
def FindVPNGateway (conn : EC2) (input : DescribeVpnGatewaysInput) :
    Option VpnGateway × Option (FindError DescribeVpnGatewaysInput) :=
  let r := conn.DescribeVpnGateways input
  let err := r.2
  if ErrCodeEquals err ErrCodeInvalidVpnGatewayIDNotFound then
    (none, some (.notFound { LastError := err, LastRequest := some input }))
  else
    match err with
    | some e => (none, some (.base e))
    | none =>
      match r.1 with
      | none => (none, some (NewEmptyResultError input))
      | some output =>
        match output.VpnGateways with
        | [] => (none, some (NewEmptyResultError input))
        | none :: _ => (none, some (NewEmptyResultError input))
        | some v :: _ =>
          if output.VpnGateways.length > 1 then
            (none, some (NewTooManyResultsError output.VpnGateways.length input))
          else
            (some v, none)

/-- The finder `FindVPNGatewayByID` (find.go, 1942–1968). -/
def FindVPNGatewayByID (conn : EC2) (id : String) :
    Option VpnGateway × Option (FindError DescribeVpnGatewaysInput) :=
  let input : DescribeVpnGatewaysInput := { VpnGatewayIds := StringSlice [id] }
  match FindVPNGateway conn input with
  | (_, some err) => (none, some err)
  | (none, none) => (none, some .nilDereference)
  | (some output, none) =>
    let state := StringValue output.State
    if state = VpnStateDeleted then
      (none, some (.notFound { Message := state, LastRequest := some input }))
    else if StringValue output.VpnGatewayId ≠ id then
      (none, some (.notFound { LastRequest := some input }))
    else
      (some output, none)

/-- The finder `FindVPCPeeringConnections` (find.go, 1836–1865). -/
def FindVPCPeeringConnections (conn : EC2) (input : DescribeVpcPeeringConnectionsInput) :
    List (Option VpcPeeringConnection) ×
      Option (FindError DescribeVpcPeeringConnectionsInput) :=
  let r := conn.DescribeVpcPeeringConnectionsPages input
    (fun (output : List (Option VpcPeeringConnection)) page lastPage =>
      match page with
      | none => (output, !lastPage)
      | some page =>
        (page.VpcPeeringConnections.foldl
          (fun output v =>
            match v with
            | some _ => output ++ [v]
            | none => output)
          output, !lastPage))
    []
  let output := r.1
  let err := r.2
  if ErrCodeEquals err ErrCodeInvalidVpcPeeringConnectionIDNotFound then
    ([], some (.notFound { LastError := err, LastRequest := some input }))
  else
    match err with
    | some e => ([], some (.base e))
    | none => (output, none)

/-- The finder `FindVPCPeeringConnection` (find.go, 1818–1834). -/
def FindVPCPeeringConnection (conn : EC2) (input : DescribeVpcPeeringConnectionsInput) :
    Option VpcPeeringConnection × Option (FindError DescribeVpcPeeringConnectionsInput) :=
  let r := FindVPCPeeringConnections conn input
  let output := r.1
  match r.2 with
  | some err => (none, some err)
  | none =>
    match output with
    | [] => (none, some (NewEmptyResultError input))
    | none :: _ => (none, some (NewEmptyResultError input))
    | some v :: _ =>
      match v.Status with
      | none => (none, some (NewEmptyResultError input))
      | some _ =>
        if output.length > 1 then
          (none, some (NewTooManyResultsError output.length input))
        else
          (some v, none)

/-- The finder `FindVPCPeeringConnectionByID` (find.go, 1867–1898). -/
def FindVPCPeeringConnectionByID (conn : EC2) (id : String) :
    Option VpcPeeringConnection × Option (FindError DescribeVpcPeeringConnectionsInput) :=
  let input : DescribeVpcPeeringConnectionsInput :=
    { VpcPeeringConnectionIds := StringSlice [id] }
  match FindVPCPeeringConnection conn input with
  | (_, some err) => (none, some err)
  | (none, none) => (none, some .nilDereference)
  | (some output, none) =>
    match output.Status with
    | none => (none, some .nilDereference)
    | some status =>
      let statusCode := StringValue status.Code
      if statusCode = VpcPeeringConnectionStateReasonCodeDeleted
          ∨ statusCode = VpcPeeringConnectionStateReasonCodeExpired
          ∨ statusCode = VpcPeeringConnectionStateReasonCodeFailed
          ∨ statusCode = VpcPeeringConnectionStateReasonCodeRejected then
        (none, some (.notFound { Message := statusCode, LastRequest := some input }))
      else if StringValue output.VpcPeeringConnectionId ≠ id then
        (none, some (.notFound { LastRequest := some input }))
      else
        (some output, none)

/-- The finder `FindCarrierGatewayByID` (find.go, 15–32). -/
def FindCarrierGatewayByID (conn : EC2) (id : String) :
    Option CarrierGateway × Option (FindError DescribeCarrierGatewaysInput) :=
  let input : DescribeCarrierGatewaysInput := { CarrierGatewayIds := StringSlice [id] }
  let r := conn.DescribeCarrierGateways input
  match r.2 with
  | some err => (none, some (.base err))
  | none =>
    match r.1 with
    | none => (none, none)
    | some output =>
      match output.CarrierGateways with
      | [] => (none, none)
      | first :: _ => (first, none)

/-- The finder `FindNetworkACLs` (find.go, 740–771). -/
def FindNetworkACLs (conn : EC2) (input : DescribeNetworkAclsInput) :
    List (Option NetworkAcl) × Option (FindError DescribeNetworkAclsInput) :=
  let r := conn.DescribeNetworkAclsPages input
    (fun (output : List (Option NetworkAcl)) page lastPage =>
      match page with
      | none => (output, !lastPage)
      | some page =>
        (page.NetworkAcls.foldl
          (fun output v =>
            match v with
            | none => output
            | some _ => output ++ [v])
          output, !lastPage))
    []
  let output := r.1
  let err := r.2
  if ErrCodeEquals err ErrCodeInvalidNetworkAclIDNotFound then
    ([], some (.notFound { LastError := err, LastRequest := some input }))
  else
    match err with
    | some e => ([], some (.base e))
    | none => (output, none)

/-- The finder `FindNetworkACL` (find.go, 722–738). -/
def FindNetworkACL (conn : EC2) (input : DescribeNetworkAclsInput) :
    Option NetworkAcl × Option (FindError DescribeNetworkAclsInput) :=
  let r := FindNetworkACLs conn input
  let output := r.1
  match r.2 with
  | some err => (none, some err)
  | none =>
    match output with
    | [] => (none, some (NewEmptyResultError input))
    | none :: _ => (none, some (NewEmptyResultError input))
    | some v :: _ =>
      if output.length > 1 then
        (none, some (NewTooManyResultsError output.length input))
      else
        (some v, none)

/-- The loop of `FindNetworkACLAssociationByID` over `output.Associations`: the result of
the `return` inside the loop, or `none` when the loop runs to its end.  Reading the
identifier of a nil element is the nil dereference. -/
def FindNetworkACLAssociationByID.loop (associationID : String) :
    List (Option NetworkAclAssociation) →
      Option (Option NetworkAclAssociation × Option (FindError DescribeNetworkAclsInput))
  | [] => none
  | none :: _ => some (none, some .nilDereference)
  | some v :: rest =>
    if StringValue v.NetworkAclAssociationId = associationID then
      some (some v, none)
    else
      FindNetworkACLAssociationByID.loop associationID rest

/-- The finder `FindNetworkACLAssociationByID` (find.go, 794–814). -/
def FindNetworkACLAssociationByID (BuildAttributeFilterList : AttributeFilterBuilder)
    (conn : EC2) (associationID : String) :
    Option NetworkAclAssociation × Option (FindError DescribeNetworkAclsInput) :=
  let input : DescribeNetworkAclsInput :=
    { Filters := BuildAttributeFilterList [("association.association-id", associationID)] }
  match FindNetworkACL conn input with
  | (_, some err) => (none, some err)
  | (none, none) => (none, some .nilDereference)
  | (some output, none) =>
    match FindNetworkACLAssociationByID.loop associationID output.Associations with
    | some result => result
    | none => (none, some (.notFound {}))

/-- The loop of `FindRouteByIPv4Destination` over `routeTable.Routes`: the result of the
`return` inside the loop, or `none` when the loop runs to its end.  Reading the
destination of a nil element is the nil dereference. -/
def FindRouteByIPv4Destination.loop (verify : Verify) (destinationCidr : String) :
    List (Option Route) →
      Option (Option Route × Option (FindError DescribeRouteTablesInput))
  | [] => none
  | none :: _ => some (none, some .nilDereference)
  | some route :: rest =>
    if verify.CIDRBlocksEqual (StringValue route.DestinationCidrBlock) destinationCidr then
      some (some route, none)
    else
      FindRouteByIPv4Destination.loop verify destinationCidr rest

/-- The finder `FindRouteByIPv4Destination` (find.go, 1133–1149). -/
def FindRouteByIPv4Destination (verify : Verify) (conn : EC2)
    (routeTableID destinationCidr : String) :
    Option Route × Option (FindError DescribeRouteTablesInput) :=
  match FindRouteTableByID conn routeTableID with
  | (_, some err) => (none, some err)
  | (none, none) => (none, some .nilDereference)
  | (some routeTable, none) =>
    match FindRouteByIPv4Destination.loop verify destinationCidr routeTable.Routes with
    | some result => result
    | none =>
      (none, some (.notFound
        { LastError := some (.errorString
            ("Route in Route Table (" ++ routeTableID ++ ") with IPv4 destination ("
              ++ destinationCidr ++ ") not found")) }))

/-- The finder `FindVPCAttribute` (find.go, 1441–1479); its parameter `attribute` is
`attributeName` here. -/
def FindVPCAttribute (conn : EC2) (vpcID : String) (attributeName : String) :
    Bool × Option (FindError DescribeVpcAttributeInput) :=
  let input : DescribeVpcAttributeInput :=
    { Attribute := some attributeName, VpcId := some vpcID }
  let r := conn.DescribeVpcAttribute input
  let err := r.2
  if ErrCodeEquals err ErrCodeInvalidVpcIDNotFound then
    (false, some (.notFound { LastError := err, LastRequest := some input }))
  else
    match err with
    | some e => (false, some (.base e))
    | none =>
      match r.1 with
      | none => (false, some (NewEmptyResultError input))
      | some output =>
        let selected : Option (Option AttributeBooleanValue) :=
          if attributeName = VpcAttributeNameEnableDnsHostnames then
            some output.EnableDnsHostnames
          else if attributeName = VpcAttributeNameEnableDnsSupport then
            some output.EnableDnsSupport
          else
            none
        match selected with
        | none =>
          (false, some (.base (.errorString ("unsupported VPC attribute: " ++ attributeName))))
        | some none => (false, some (NewEmptyResultError input))
        | some (some v) => (BoolValue v.Value, none)

/-- The loop of `FindTransitGatewayRoute` over `output.Routes`: the result of the `return`
inside the loop, or `none` when the loop runs to its end. -/
def FindTransitGatewayRoute.loop (verify : Verify) (input : SearchTransitGatewayRoutesInput)
    (destination : String) :
    List (Option TransitGatewayRoute) →
      Option (Option TransitGatewayRoute × Option (FindError SearchTransitGatewayRoutesInput))
  | [] => none
  | none :: rest => FindTransitGatewayRoute.loop verify input destination rest
  | some route :: rest =>
    let v := StringValue route.DestinationCidrBlock
    if verify.CIDRBlocksEqual v destination then
      let state := StringValue route.State
      if state = TransitGatewayRouteStateDeleted then
        some (none, some (.notFound { Message := state, LastRequest := some input }))
      else
        some (some { route with DestinationCidrBlock := some (verify.CanonicalCIDRBlock v) },
          none)
    else
      FindTransitGatewayRoute.loop verify input destination rest

/-- The finder `FindTransitGatewayRoute` (find.go, 2762–2807). -/
def FindTransitGatewayRoute (verify : Verify)
    (BuildAttributeFilterList : AttributeFilterBuilder) (conn : EC2)
    (transitGatewayRouteTableID destination : String) :
    Option TransitGatewayRoute × Option (FindError SearchTransitGatewayRoutesInput) :=
  let input : SearchTransitGatewayRoutesInput :=
    { Filters := BuildAttributeFilterList [("type", TransitGatewayRouteTypeStatic)],
      TransitGatewayRouteTableId := some transitGatewayRouteTableID }
  let r := conn.SearchTransitGatewayRoutes input
  let err := r.2
  if ErrCodeEquals err ErrCodeInvalidRouteTableIDNotFound then
    (none, some (.notFound { LastError := err, LastRequest := some input }))
  else
    match err with
    | some e => (none, some (.base e))
    | none =>
      match r.1 with
      | none => (none, some (NewEmptyResultError input))
      | some output =>
        if output.Routes.length = 0 then
          (none, some (NewEmptyResultError input))
        else
          match FindTransitGatewayRoute.loop verify input destination output.Routes with
          | some result => result
          | none => (none, some (.notFound {}))

/-- The finder `FindManagedPrefixListEntriesByID` (find.go, 3308–3343). -/
def FindManagedPrefixListEntriesByID (conn : EC2) (id : String) :
    List (Option PrefixListEntry) × Option (FindError GetManagedPrefixListEntriesInput) :=
  let input : GetManagedPrefixListEntriesInput := { PrefixListId := some id }
  let r := conn.GetManagedPrefixListEntriesPages input
    (fun (prefixListEntries : List (Option PrefixListEntry)) page lastPage =>
      match page with
      | none => (prefixListEntries, !lastPage)
      | some page =>
        (page.Entries.foldl
          (fun prefixListEntries entry =>
            match entry with
            | none => prefixListEntries
            | some _ => prefixListEntries ++ [entry])
          prefixListEntries, !lastPage))
    []
  let prefixListEntries := r.1
  let err := r.2
  if ErrCodeEquals err ErrCodeInvalidPrefixListIDNotFound then
    ([], some (.notFound { LastError := err, LastRequest := some input }))
  else
    match err with
    | some e => ([], some (.base e))
    | none => (prefixListEntries, none)

/-- The loop of `FindManagedPrefixListEntryByIDAndCIDR` over the entries: the result of
the `return` inside the loop, or `none` when the loop runs to its end. -/
def FindManagedPrefixListEntryByIDAndCIDR.loop (cidr : String) :
    List (Option PrefixListEntry) →
      Option (Option PrefixListEntry × Option (FindError GetManagedPrefixListEntriesInput))
  | [] => none
  | none :: _ => some (none, some .nilDereference)
  | some entry :: rest =>
    if StringValue entry.Cidr = cidr then
      some (some entry, none)
    else
      FindManagedPrefixListEntryByIDAndCIDR.loop cidr rest

/-- The finder `FindManagedPrefixListEntryByIDAndCIDR` (find.go, 3345–3359). -/
def FindManagedPrefixListEntryByIDAndCIDR (conn : EC2) (id cidr : String) :
    Option PrefixListEntry × Option (FindError GetManagedPrefixListEntriesInput) :=
  let r := FindManagedPrefixListEntriesByID conn id
  match r.2 with
  | some err => (none, some err)
  | none =>
    match FindManagedPrefixListEntryByIDAndCIDR.loop cidr r.1 with
    | some result => result
    | none => (none, some (.notFound {}))

/-- The finder `FindClientVPNEndpoints` (find.go, 52–83). -/
def FindClientVPNEndpoints (conn : EC2) (input : DescribeClientVpnEndpointsInput) :
    List (Option ClientVpnEndpoint) × Option (FindError DescribeClientVpnEndpointsInput) :=
  let r := conn.DescribeClientVpnEndpointsPages input
    (fun (output : List (Option ClientVpnEndpoint)) page lastPage =>
      match page with
      | none => (output, !lastPage)
      | some page =>
        (page.ClientVpnEndpoints.foldl
          (fun output v =>
            match v with
            | none => output
            | some _ => output ++ [v])
          output, !lastPage))
    []
  let output := r.1
  let err := r.2
  if ErrCodeEquals err ErrCodeInvalidClientVpnEndpointIdNotFound then
    ([], some (.notFound { LastError := err, LastRequest := some input }))
  else
    match err with
    | some e => ([], some (.base e))
    | none => (output, none)

/-- The finder `FindClientVPNEndpoint` (find.go, 34–50). -/
def FindClientVPNEndpoint (conn : EC2) (input : DescribeClientVpnEndpointsInput) :
    Option ClientVpnEndpoint × Option (FindError DescribeClientVpnEndpointsInput) :=
  let r := FindClientVPNEndpoints conn input
  let output := r.1
  match r.2 with
  | some err => (none, some err)
  | none =>
    match output with
    | [] => (none, some (NewEmptyResultError input))
    | none :: _ => (none, some (NewEmptyResultError input))
    | some v :: _ =>
      match v.Status with
      | none => (none, some (NewEmptyResultError input))
      | some _ =>
        if output.length > 1 then
          (none, some (NewTooManyResultsError output.length input))
        else
          (some v, none)

/-- The finder `FindClientVPNEndpointByID` (find.go, 85–111). -/
def FindClientVPNEndpointByID (conn : EC2) (id : String) :
    Option ClientVpnEndpoint × Option (FindError DescribeClientVpnEndpointsInput) :=
  let input : DescribeClientVpnEndpointsInput := { ClientVpnEndpointIds := StringSlice [id] }
  match FindClientVPNEndpoint conn input with
  | (_, some err) => (none, some err)
  | (none, none) => (none, some .nilDereference)
  | (some output, none) =>
    match output.Status with
    | none => (none, some .nilDereference)
    | some status =>
      let state := StringValue status.Code
      if state = ClientVpnEndpointStatusCodeDeleted then
        (none, some (.notFound { Message := state, LastRequest := some input }))
      else if StringValue output.ClientVpnEndpointId ≠ id then
        (none, some (.notFound { LastRequest := some input }))
      else
        (some output, none)

/-- The finder `FindInstances` (find.go, 515–548). -/
def FindInstances (conn : EC2) (input : DescribeInstancesInput) :
    List (Option Instance) × Option (FindError DescribeInstancesInput) :=
  let r := conn.DescribeInstancesPages input
    (fun (output : List (Option Instance)) page lastPage =>
      match page with
      | none => (output, !lastPage)
      | some page =>
        (page.Reservations.foldl
          (fun output v =>
            match v with
            | some reservation =>
              reservation.Instances.foldl
                (fun output v =>
                  match v with
                  | some _ => output ++ [v]
                  | none => output)
                output
            | none => output)
          output, !lastPage))
    []
  let output := r.1
  let err := r.2
  if ErrCodeEquals err ErrCodeInvalidInstanceIDNotFound then
    ([], some (.notFound { LastError := err, LastRequest := some input }))
  else
    match err with
    | some e => ([], some (.base e))
    | none => (output, none)

/-- The finder `FindInstance` (find.go, 550–566). -/
def FindInstance (conn : EC2) (input : DescribeInstancesInput) :
    Option Instance × Option (FindError DescribeInstancesInput) :=
  let r := FindInstances conn input
  let output := r.1
  match r.2 with
  | some err => (none, some err)
  | none =>
    match output with
    | [] => (none, some (NewEmptyResultError input))
    | none :: _ => (none, some (NewEmptyResultError input))
    | some v :: _ =>
      if output.length > 1 then
        (none, some (NewTooManyResultsError output.length input))
      else
        (some v, none)

/-- The finder `FindInstanceByID` (find.go, 568–594). -/
def FindInstanceByID (conn : EC2) (id : String) :
    Option Instance × Option (FindError DescribeInstancesInput) :=
  let input : DescribeInstancesInput := { InstanceIds := StringSlice [id] }
  match FindInstance conn input with
  | (_, some err) => (none, some err)
  | (none, none) => (none, some .nilDereference)
  | (some output, none) =>
    match output.State with
    | none => (none, some .nilDereference)
    | some instanceState =>
      let state := StringValue instanceState.Name
      if state = InstanceStateNameTerminated then
        (none, some (.notFound { Message := state, LastRequest := some input }))
      else if StringValue output.InstanceId ≠ id then
        (none, some (.notFound { LastRequest := some input }))
      else
        (some output, none)

/-- The loop of `FindRouteTableAssociationByID` over `routeTable.Associations`: the result
of the `return` inside the loop, or `none` when the loop runs to its end.  Reading the
identifier of a nil element is the nil dereference. -/
def FindRouteTableAssociationByID.loop (associationID : String) :
    List (Option RouteTableAssociation) →
      Option (Option RouteTableAssociation × Option (FindError DescribeRouteTablesInput))
  | [] => none
  | none :: _ => some (none, some .nilDereference)
  | some association :: rest =>
    if StringValue association.RouteTableAssociationId = associationID then
      match association.AssociationState with
      | some associationState =>
        let state := StringValue associationState.State
        if state = RouteTableAssociationStateCodeDisassociated then
          some (none, some (.notFound { Message := state }))
        else
          some (some association, none)
      | none => some (some association, none)
    else
      FindRouteTableAssociationByID.loop associationID rest

/-- The finder `FindRouteTableAssociationByID` (find.go, 1023–1051). -/
def FindRouteTableAssociationByID (BuildAttributeFilterList : AttributeFilterBuilder)
    (conn : EC2) (associationID : String) :
    Option RouteTableAssociation × Option (FindError DescribeRouteTablesInput) :=
  let input : DescribeRouteTablesInput :=
    { Filters :=
        BuildAttributeFilterList [("association.route-table-association-id", associationID)] }
  match FindRouteTable conn input with
  | (_, some err) => (none, some err)
  | (none, none) => (none, some .nilDereference)
  | (some routeTable, none) =>
    match FindRouteTableAssociationByID.loop associationID routeTable.Associations with
    | some result => result
    | none => (none, some (.notFound {}))

/-- The finder `FindMainRouteTableAssociationByID` (find.go, 981–997). -/
def FindMainRouteTableAssociationByID (BuildAttributeFilterList : AttributeFilterBuilder)
    (conn : EC2) (associationID : String) :
    Option RouteTableAssociation × Option (FindError DescribeRouteTablesInput) :=
  match FindRouteTableAssociationByID BuildAttributeFilterList conn associationID with
  | (_, some err) => (none, some err)
  | (none, none) => (none, some .nilDereference)
  | (some association, none) =>
    if !BoolValue association.Main then
      (none, some (.notFound
        { Message := associationID ++ " is not the association with the main route table" }))
    else
      (some association, none)

/-! ## Specification vocabulary -/

/-- The elements one delivered `DescribeVpcs` page holds (none for a nil page). -/
def pageVpcs : Option DescribeVpcsOutput → List (Option Vpc)
  | none => []
  | some page => page.Vpcs

/-- Every element of every page the service delivers for a `DescribeVpcs` request, in page
order and, within a page, in the order of the page. -/
def deliveredVpcs (conn : EC2) (input : DescribeVpcsInput) : List (Option Vpc) :=
  (conn.describeVpcs input).pages.flatMap pageVpcs

/-! ## Example service behaviours -/

/-- An available VPC with the given identifier. -/
def vpcWithId (id : String) : Vpc :=
  { VpcId := some id, State := some "available", CidrBlock := some "10.0.0.0/16" }

/-- A service that answers every `DescribeVpcs` request with three pages of two, two and
one VPCs. -/
def threePageService : EC2 :=
  { describeVpcs := fun _ =>
      { pages :=
          [some { Vpcs := [some (vpcWithId "vpc-1"), some (vpcWithId "vpc-2")] },
           some { Vpcs := [some (vpcWithId "vpc-3"), some (vpcWithId "vpc-4")] },
           some { Vpcs := [some (vpcWithId "vpc-5")] }] } }

/-- A service whose `DescribeVpcs` answer holds no VPC: a nil page, an empty page and a
page of nil elements. -/
def noVpcService : EC2 :=
  { describeVpcs := fun _ =>
      { pages := [none, some { Vpcs := [] }, some { Vpcs := [none, none] }] } }

/-- A service that answers every `DescribeVpcs` request with the single VPC `vpc-1`. -/
def oneVpcService : EC2 :=
  { describeVpcs := fun _ => { pages := [some { Vpcs := [some (vpcWithId "vpc-1")] }] } }

/-- A service whose `DescribeVpcs` pagination delivers one page and then fails with the
given error. -/
def failingVpcService (e : BaseError) : EC2 :=
  { describeVpcs := fun _ =>
      { pages := [some { Vpcs := [some (vpcWithId "vpc-1")] }], err := some e } }

/-- A VPC endpoint in state `available` with the given identifier. -/
def endpointWithId (id : String) : VpcEndpoint :=
  { VpcEndpointId := some id, State := some "available", VpcId := some "vpc-1" }

/-- A service that answers every `DescribeVpcEndpoints` request with two endpoints. -/
def twoEndpointService : EC2 :=
  { DescribeVpcEndpoints := fun _ =>
      (some { VpcEndpoints := [some (endpointWithId "vpce-1"), some (endpointWithId "vpce-2")] },
        none) }

/-- A route table with the given identifier. -/
def routeTableWithId (id : String) : RouteTable :=
  { RouteTableId := some id, VpcId := some "vpc-1" }

/-- A service that answers every `DescribeRouteTables` request with the single route table
`rtb-2`, whatever identifier was asked for. -/
def staleRouteTableService : EC2 :=
  { describeRouteTables := fun _ =>
      { pages := [some { RouteTables := [some (routeTableWithId "rtb-2")] }] } }

/-- A VPN gateway with the given identifier and state. -/
def gatewayWithIdAndState (id state : String) : VpnGateway :=
  { VpnGatewayId := some id, State := some state, Type_ := some "ipsec.1" }

/-- A service that answers every `DescribeVpnGateways` request with the single gateway
`vgw-1` in state `deleted`. -/
def deletedGatewayService : EC2 :=
  { DescribeVpnGateways := fun _ =>
      (some { VpnGateways := [some (gatewayWithIdAndState "vgw-1" "deleted")] }, none) }

/-- A service that answers every `DescribeVpnGateways` request with two gateways. -/
def twoGatewayService : EC2 :=
  { DescribeVpnGateways := fun _ =>
      (some { VpnGateways := [some (gatewayWithIdAndState "vgw-1" "available"),
                              some (gatewayWithIdAndState "vgw-2" "available")] }, none) }

/-- A VPC peering connection `pcx-1` with the given status code. -/
def peeringWithStatus (code : String) : VpcPeeringConnection :=
  { VpcPeeringConnectionId := some "pcx-1", Status := some { Code := some code } }

/-- A service that answers every `DescribeVpcPeeringConnections` request with the single
connection `pcx-1` in the given status. -/
def onePeeringService (code : String) : EC2 :=
  { describeVpcPeeringConnections := fun _ =>
      { pages := [some { VpcPeeringConnections := [some (peeringWithStatus code)] }] } }

/-- An instance of the CIDR helpers for the examples: it knows the two notations
`2001:0db8::/32` and `2001:db8::/32` of one IPv6 block, the second being canonical, and
takes every other text as canonical. -/
def exampleVerify : Verify where
  CanonicalCIDRBlock := fun cidr => if cidr = "2001:0db8::/32" then "2001:db8::/32" else cidr
  CIDRBlocksEqual := fun cidr1 cidr2 =>
    (if cidr1 = "2001:0db8::/32" then "2001:db8::/32" else cidr1)
      == (if cidr2 = "2001:0db8::/32" then "2001:db8::/32" else cidr2)

/-- An instance of the filter builder for the examples: one filter per name/value pair. -/
def exampleFilterList : AttributeFilterBuilder :=
  fun m => m.map (fun kv => some { Name := some kv.1, Values := [some kv.2] })

/-- The routes of the example route table: the local route and a default route. -/
def exampleRoutes : List Route :=
  [{ DestinationCidrBlock := some "10.0.0.0/16", GatewayId := some "local",
     State := some "active" },
   { DestinationCidrBlock := some "0.0.0.0/0", GatewayId := some "igw-1",
     State := some "active" }]

/-- The example route table `rtb-1`. -/
def exampleRouteTable : RouteTable :=
  { RouteTableId := some "rtb-1", VpcId := some "vpc-1", Routes := exampleRoutes.map some }

/-- A service that answers every `DescribeRouteTables` request with the example route
table. -/
def routedService : EC2 :=
  { describeRouteTables := fun _ =>
      { pages := [some { RouteTables := [some exampleRouteTable] }] } }

/-- The associations of the example network ACL; two of them carry the same identifier. -/
def exampleAssociations : List NetworkAclAssociation :=
  [{ NetworkAclAssociationId := some "aclassoc-1", NetworkAclId := some "acl-1",
     SubnetId := some "subnet-1" },
   { NetworkAclAssociationId := some "aclassoc-2", NetworkAclId := some "acl-1",
     SubnetId := some "subnet-2" },
   { NetworkAclAssociationId := some "aclassoc-2", NetworkAclId := some "acl-1",
     SubnetId := some "subnet-3" }]

/-- The example network ACL `acl-1`. -/
def exampleNetworkAcl : NetworkAcl :=
  { NetworkAclId := some "acl-1", VpcId := some "vpc-1",
    Associations := exampleAssociations.map some }

/-- A service that answers every `DescribeNetworkAcls` request with the example network
ACL. -/
def aclService : EC2 :=
  { describeNetworkAcls := fun _ =>
      { pages := [some { NetworkAcls := [some exampleNetworkAcl] }] } }

/-- A static transit gateway route to the block written `2001:0db8::/32`. -/
def exampleTransitGatewayRoute : TransitGatewayRoute :=
  { DestinationCidrBlock := some "2001:0db8::/32", State := some "active",
    Type_ := some "static",
    TransitGatewayAttachments :=
      [some { ResourceId := some "vpc-1", ResourceType := some "vpc",
              TransitGatewayAttachmentId := some "tgw-attach-1" }] }

/-- A service that answers every `SearchTransitGatewayRoutes` request with a nil element,
a route to another block and the example route. -/
def transitRouteService : EC2 :=
  { SearchTransitGatewayRoutes := fun _ =>
      (some { Routes :=
          [none,
           some { DestinationCidrBlock := some "10.0.0.0/8", State := some "active" },
           some exampleTransitGatewayRoute] }, none) }

/-- A service whose managed prefix lists all hold the single entry `2001:db8::/32`. -/
def prefixListService : EC2 :=
  { getManagedPrefixListEntries := fun _ =>
      { pages := [some { Entries :=
          [some { Cidr := some "2001:db8::/32", Description := some "documentation" }] }] } }

/-- A service that answers every `DescribeVpcAttribute` request with DNS hostnames enabled
and DNS support disabled. -/
def vpcAttributeService : EC2 :=
  { DescribeVpcAttribute := fun input =>
      (some { EnableDnsHostnames := some { Value := some true },
              EnableDnsSupport := some { Value := some false },
              VpcId := input.VpcId }, none) }

/-- A carrier gateway with the given identifier. -/
def carrierGatewayWithId (id : String) : CarrierGateway :=
  { CarrierGatewayId := some id, State := some "available", VpcId := some "vpc-1" }

/-- A service that answers every `DescribeCarrierGateways` request with two gateways. -/
def carrierGatewayService : EC2 :=
  { DescribeCarrierGateways := fun _ =>
      (some { CarrierGateways :=
          [some (carrierGatewayWithId "cagw-1"), some (carrierGatewayWithId "cagw-2")] },
        none) }

/-- A service that has no carrier gateway: an output with an empty list. -/
def noCarrierGatewayService : EC2 :=
  { DescribeCarrierGateways := fun _ => (some { CarrierGateways := [] }, none) }

/-- A service whose `DescribeCarrierGateways` call fails with the given error. -/
def failingCarrierGatewayService (e : BaseError) : EC2 :=
  { DescribeCarrierGateways := fun _ => (none, some e) }

/-- The associations of the second example route table: a subnet association, the main
association, a disassociated one, and a repeat of its identifier in state associated. -/
def exampleRouteTableAssociations : List RouteTableAssociation :=
  [{ RouteTableAssociationId := some "rtbassoc-1", RouteTableId := some "rtb-1",
     SubnetId := some "subnet-1", Main := some false,
     AssociationState := some { State := some "associated" } },
   { RouteTableAssociationId := some "rtbassoc-2", RouteTableId := some "rtb-1",
     Main := some true, AssociationState := some { State := some "associated" } },
   { RouteTableAssociationId := some "rtbassoc-3", RouteTableId := some "rtb-1",
     SubnetId := some "subnet-3",
     AssociationState := some { State := some "disassociated" } },
   { RouteTableAssociationId := some "rtbassoc-3", RouteTableId := some "rtb-1",
     SubnetId := some "subnet-4",
     AssociationState := some { State := some "associated" } }]

/-- The second example route table. -/
def associatedRouteTable : RouteTable :=
  { RouteTableId := some "rtb-1", VpcId := some "vpc-1",
    Associations := exampleRouteTableAssociations.map some }

/-- A service that answers every `DescribeRouteTables` request with the second example
route table. -/
def associationService : EC2 :=
  { describeRouteTables := fun _ =>
      { pages := [some { RouteTables := [some associatedRouteTable] }] } }

/-- A Client VPN endpoint with the given identifier and no status. -/
def clientVpnEndpointWithoutStatus (id : String) : ClientVpnEndpoint :=
  { ClientVpnEndpointId := some id, Status := none }

/-- A Client VPN endpoint with the given identifier in status `available`. -/
def clientVpnEndpointWithId (id : String) : ClientVpnEndpoint :=
  { ClientVpnEndpointId := some id, Status := some { Code := some "available" } }

/-- A service that answers every `DescribeClientVpnEndpoints` request with the given
endpoints on one page. -/
def clientVpnService (endpoints : List ClientVpnEndpoint) : EC2 :=
  { describeClientVpnEndpoints := fun _ =>
      { pages := [some { ClientVpnEndpoints := endpoints.map some }] } }

/-- An instance `i-1` whose `State` is nil. -/
def instanceWithoutState : Instance :=
  { InstanceId := some "i-1", InstanceType := some "t3.micro", State := none }

/-- A service that answers every `DescribeInstances` request with one reservation holding
the instance without state. -/
def statelessInstanceService : EC2 :=
  { describeInstances := fun _ =>
      { pages := [some { Reservations :=
          [some { ReservationId := some "r-1", Instances := [some instanceWithoutState] }] }] } }

/-- A service that answers every `SearchTransitGatewayRoutes` request with a deleted route
to `10.0.0.0/8` followed by an active route to the same block. -/
def deletedFirstRouteService : EC2 :=
  { SearchTransitGatewayRoutes := fun _ =>
      (some { Routes :=
          [some { DestinationCidrBlock := some "10.0.0.0/8", State := some "deleted" },
           some { DestinationCidrBlock := some "10.0.0.0/8", State := some "active" }] },
        none) }

/-- A service that answers every `SearchTransitGatewayRoutes` request with an output that
holds no route. -/
def noTransitRouteService : EC2 :=
  { SearchTransitGatewayRoutes := fun _ => (some { Routes := [] }, none) }

/-- A route table whose `Routes` hold the local route and then a nil element. -/
def routeTableWithNilRoute : RouteTable :=
  { RouteTableId := some "rtb-1", VpcId := some "vpc-1",
    Routes :=
      [some { DestinationCidrBlock := some "10.0.0.0/16", GatewayId := some "local",
              State := some "active" },
       none] }

/-- A service that answers every `DescribeRouteTables` request with the route table that
holds a nil route. -/
def nilRouteService : EC2 :=
  { describeRouteTables := fun _ =>
      { pages := [some { RouteTables := [some routeTableWithNilRoute] }] } }

/-- A service that answers every `SearchTransitGatewayRoutes` request with a nil element
followed by an active route to `10.0.0.0/8`. -/
def nilFirstTransitRouteService : EC2 :=
  { SearchTransitGatewayRoutes := fun _ =>
      (some { Routes :=
          [none, some { DestinationCidrBlock := some "10.0.0.0/8", State := some "active" }] },
        none) }

end Ec2Find

/-! # Resource handlers (`internal/service/cloudwatchrum`, `internal/service/dms`)

The handlers work on the plugin SDK's resource data, which is held here as a record of the
resource ID, the new-resource flag and the attribute values; a handler that changes the
resource data returns the changed record.  Log output is not part of the embedding. -/

namespace Schema

/-- A value of a field inside a nested block of the resource state. -/
inductive FieldValue where
  | null
  | string (s : String)
  | bool (b : Bool)
  | stringSet (elements : List String)
  deriving DecidableEq, Repr

/-- A Go `interface{}` value as it occurs in the map of a settings block: nil, a `bool`, a
`string`, an `int` or an `int64`. -/
inductive Any where
  | nil
  | bool (b : Bool)
  | string (s : String)
  | int (n : Int)
  | int64 (n : Int)
  deriving DecidableEq, Repr

/-- A Go `map[string]interface{}`, as the list of its key/value pairs. -/
abbrev TfMap : Type := List (String × Any)

/-- The empty map `map[string]interface{}{}`. -/
def TfMap.empty : TfMap := []

/-- The expression `tfMap[key]`: the value stored under the key, if any. -/
def TfMap.get (tfMap : TfMap) (key : String) : Option Any :=
  tfMap.lookup key

/-- The statement `tfMap[key] = value`. -/
def TfMap.set (tfMap : TfMap) (key : String) (value : Any) : TfMap :=
  (key, value) :: tfMap.filter (fun kv => kv.1 != key)

/-- The statement `if v := pointer; v != nil { tfMap[key] = value }`, `value` being
computed from the pointed-to `v`. -/
def TfMap.setIfSet (tfMap : TfMap) (key : String) (value : Option Any) : TfMap :=
  match value with
  | some v => tfMap.set key v
  | none => tfMap

/-- The value `aws.BoolValue(v)` of a non-nil pointer `v`, as an `interface{}` value. -/
def Any.boolPointer : Option Bool → Option Any
  | some v => some (.bool v)
  | none => none

/-- The value `aws.StringValue(v)` of a non-nil pointer `v`, as an `interface{}` value. -/
def Any.stringPointer : Option String → Option Any
  | some v => some (.string v)
  | none => none

/-- The value `aws.Int64Value(v)` of a non-nil pointer `v`, as an `interface{}` value. -/
def Any.int64Pointer : Option Int → Option Any
  | some v => some (.int64 v)
  | none => none

/-- A sequence of statements `if v := pointer; v != nil { tfMap[key] = value }`, one per
pair of key and value, carried out in the order of the list. -/
def TfMap.setEach (tfMap : TfMap) (statements : List (String × Option Any)) : TfMap :=
  statements.foldl (fun tfMap statement => tfMap.setIfSet statement.1 statement.2) tfMap

/-- The type assertion `v, ok := x.(bool)`: the boolean when `ok`. -/
def Any.asBool : Option Any → Option Bool
  | some (.bool v) => some v
  | _ => none

/-- The type assertion `v, ok := x.(string)`: the string when `ok`. -/
def Any.asString : Option Any → Option String
  | some (.string v) => some v
  | _ => none

/-- The type assertion `v, ok := x.(int)`: the integer when `ok`. -/
def Any.asInt : Option Any → Option Int
  | some (.int v) => some v
  | _ => none

/-- The text `fmt.Sprintf("%v", x)` of a value. -/
def Any.format : Any → String
  | .nil => "<nil>"
  | .bool true => "true"
  | .bool false => "false"
  | .string s => s
  | .int n => toString n
  | .int64 n => toString n

/-- One bit of the Go standard library's CRC-32 of the IEEE polynomial (package
`hash/crc32`): the register moves one place to the right, and the reversed polynomial
`0xedb88320` is added when the bit that leaves it is set. -/
def crc32Shift (crc : Nat) : Nat :=
  if crc % 2 = 1 then (crc / 2) ^^^ 0xEDB88320 else crc / 2

/-- One byte of the CRC-32: the byte is added to the low end of the register, which then
moves eight places. -/
def crc32Update (crc : Nat) (b : Nat) : Nat :=
  crc32Shift (crc32Shift (crc32Shift (crc32Shift
    (crc32Shift (crc32Shift (crc32Shift (crc32Shift (crc ^^^ b))))))))

/-- The Go standard library's `crc32.ChecksumIEEE` of a sequence of bytes: the register
starts with all 32 bits set and is inverted at the end. -/
def ChecksumIEEE (data : List Nat) : Nat :=
  (data.foldl crc32Update 0xFFFFFFFF) ^^^ 0xFFFFFFFF

/-- The bytes of one character in a Go string: its UTF-8 encoding. -/
def utf8Bytes (c : Char) : List Nat :=
  let v := c.toNat
  if v < 0x80 then [v]
  else if v < 0x800 then [0xC0 + v / 0x40, 0x80 + v % 0x40]
  else if v < 0x10000 then [0xE0 + v / 0x1000, 0x80 + v / 0x40 % 0x40, 0x80 + v % 0x40]
  else [0xF0 + v / 0x40000, 0x80 + v / 0x1000 % 0x40, 0x80 + v / 0x40 % 0x40,
    0x80 + v % 0x40]

/-- The plugin SDK's `schema.HashString`: `int(crc32.ChecksumIEEE([]byte(v)))`, which is
not negative where `int` has 64 bits. -/
def HashString (v : String) : Nat :=
  ChecksumIEEE (v.data.flatMap utf8Bytes)

/-- The plugin SDK's `schema.Set` with the hash function `schema.HashString`: the map `m`
from the hash code of an element to the element, as the list of its entries.  The key of
the SDK is the decimal text of the code, which is given here by the code itself; no two
entries of a set have the same key, and the order of the list has no meaning. -/
structure SchemaSet where
  m : List (Nat × String) := []
  deriving DecidableEq, Repr

/-- The method `Add` of `schema.Set`: the item goes into the map under its hash code
unless the map has that key. -/
def SchemaSet.Add (s : SchemaSet) (item : String) : SchemaSet :=
  let code := HashString item
  match s.m.lookup code with
  | some _ => s
  | none => { m := s.m ++ [(code, item)] }

/-- The method `Difference` of `schema.Set`: the entries of `s` whose key is not a key of
`other`. -/
def SchemaSet.Difference (s other : SchemaSet) : SchemaSet :=
  { m := s.m.filter (fun kv => (other.m.lookup kv.1).isNone) }

/-- The method `Len` of `schema.Set`. -/
def SchemaSet.Len (s : SchemaSet) : Nat :=
  s.m.length

/-- The method `Equal` of `schema.Set` with a `*schema.Set` argument:
`reflect.DeepEqual(s.m, other.m)`, that is, the two maps have the same number of entries
and every key of `s` has the same element in `other`.  It reads the fields of its
argument, so that a nil argument is the nil dereference (`none`). -/
def SchemaSet.Equal (s : SchemaSet) (other : Option SchemaSet) : Option Bool :=
  match other with
  | none => none
  | some other =>
    some (s.m.length == other.m.length &&
      s.m.all (fun kv => other.m.lookup kv.1 == some kv.2))

/-- The elements a set holds. -/
def SchemaSet.elements (s : SchemaSet) : List String :=
  s.m.map Prod.snd

/-- The entries of a set are what `Add` makes them: no two have the same key, and the key
of each is the hash code of its element. -/
def SchemaSet.Keyed (s : SchemaSet) : Prop :=
  (s.m.map Prod.fst).Nodup ∧ ∀ kv ∈ s.m, kv.1 = HashString kv.2

/-- A value stored under an attribute name of the resource state. -/
inductive Value where
  | null
  | string (s : String)
  | bool (b : Bool)
  | stringMap (entries : List (String × String))
  | blocks (maps : List (List (String × FieldValue)))
  | list (elements : List (Option TfMap))
  deriving DecidableEq, Repr

/-- The plugin SDK's `schema.ResourceData`, as far as the handlers use it. -/
structure ResourceData where
  id : String := ""
  isNew : Bool := false
  attributes : List (String × Value) := []
  deriving DecidableEq, Repr

/-- The method `d.Id()`. -/
def ResourceData.Id (d : ResourceData) : String := d.id

/-- The method `d.SetId(v)`. -/
def ResourceData.SetId (d : ResourceData) (v : String) : ResourceData := { d with id := v }

/-- The method `d.IsNewResource()`. -/
def ResourceData.IsNewResource (d : ResourceData) : Bool := d.isNew

/-- The call `d.Get(key).(string)` on a string attribute: its value, or the empty string
when it is not set. -/
def ResourceData.GetString (d : ResourceData) (key : String) : String :=
  match d.attributes.lookup key with
  | some (.string s) => s
  | _ => ""

/-- The method `d.Set(key, value)` with a value of the attribute's type: the attribute is
replaced, or added when it was not set. -/
def ResourceData.Set (d : ResourceData) (key : String) (value : Value) : ResourceData :=
  { d with attributes := (key, value) :: d.attributes.filter (fun kv => kv.1 != key) }

/-- The call `d.GetOk(key)` on a list attribute whose elements are settings maps: the list
and whether the attribute is set to a non-zero value, that is, to a non-empty list. -/
def ResourceData.GetOkList (d : ResourceData) (key : String) : List (Option TfMap) × Bool :=
  match d.attributes.lookup key with
  | some (.list l) => (l, !l.isEmpty)
  | _ => ([], false)

/-- The plugin SDK's `schema.ResourceDiff`, as far as `CustomizeDiff` functions read it:
the attribute values of the planned state. -/
structure ResourceDiff where
  attributes : List (String × Value) := []
  deriving DecidableEq, Repr

/-- The call `diff.Get(key).(string)` on a string attribute: its value, or the empty
string when it is not set. -/
def ResourceDiff.GetString (diff : ResourceDiff) (key : String) : String :=
  match diff.attributes.lookup key with
  | some (.string s) => s
  | _ => ""

/-- The call `diff.GetOk(key)` on a list attribute whose elements are settings maps: the
list and whether the attribute is set to a non-zero value, that is, to a non-empty list. -/
def ResourceDiff.GetOkList (diff : ResourceDiff) (key : String) :
    List (Option TfMap) × Bool :=
  match diff.attributes.lookup key with
  | some (.list l) => (l, !l.isEmpty)
  | _ => ([], false)

/-- The plugin SDK's `diag.Severity`. -/
inductive Severity where
  | Error
  | Warning
  deriving DecidableEq, Repr

/-- The plugin SDK's `diag.Diagnostic`. -/
structure Diagnostic where
  Severity : Severity
  Summary : String
  Detail : String := ""
  deriving DecidableEq, Repr

/-- The plugin SDK's `diag.Diagnostics`; nil is the empty list. -/
abbrev Diagnostics : Type := List Diagnostic

/-- The plugin SDK's `diag.Errorf`, applied to the formatted text. -/
def Errorf (summary : String) : Diagnostics :=
  [{ Severity := .Error, Summary := summary }]

/-- The method `HasError` of `diag.Diagnostics`. -/
def HasError (diags : Diagnostics) : Bool :=
  diags.any (fun diagnostic => decide (diagnostic.Severity = .Error))

/-- The text `err.Error()` of an error: `Code: Message` for an SDK error (the request
details the SDK adds to it are not part of `BaseError`), the text itself otherwise. -/
def errorText : Ec2Find.BaseError → String
  | .awsErr code message => code ++ ": " ++ message
  | .errorString text => text

end Schema

namespace Rum

open Ec2Find Schema

/-- The SDK type `cloudwatchrum.AppMonitorConfiguration`; the float `SessionSampleRate` is
held as the text `strconv.FormatFloat(v, 'f', -1, 64)` gives for it. -/
structure AppMonitorConfiguration where
  AllowCookies : Option Bool := none
  EnableXRay : Option Bool := none
  ExcludedPages : List (Option String) := []
  FavoritePages : List (Option String) := []
  GuestRoleArn : Option String := none
  IdentityPoolId : Option String := none
  IncludedPages : List (Option String) := []
  SessionSampleRate : Option String := none
  Telemetries : List (Option String) := []
  deriving DecidableEq, Repr

/-- The SDK type `cloudwatchrum.CwLog`. -/
structure CwLog where
  CwLogEnabled : Option Bool := none
  CwLogGroup : Option String := none
  deriving DecidableEq, Repr

/-- The SDK type `cloudwatchrum.DataStorage`. -/
structure DataStorage where
  CwLog : Option CwLog := none
  deriving DecidableEq, Repr

/-- The SDK type `cloudwatchrum.AppMonitor`. -/
structure AppMonitor where
  AppMonitorConfiguration : Option AppMonitorConfiguration := none
  DataStorage : Option DataStorage := none
  Domain : Option String := none
  Id : Option String := none
  Name : Option String := none
  State : Option String := none
  Tags : List (String × Option String) := []
  deriving DecidableEq, Repr

/-- The SDK type `cloudwatchrum.GetAppMonitorInput`. -/
structure GetAppMonitorInput where
  Name : Option String := none
  deriving DecidableEq, Repr

/-- The SDK type `cloudwatchrum.GetAppMonitorOutput`. -/
structure GetAppMonitorOutput where
  AppMonitor : Option AppMonitor := none
  deriving DecidableEq, Repr

/-- The SDK type `cloudwatchrum.DeleteAppMonitorInput`. -/
structure DeleteAppMonitorInput where
  Name : Option String := none
  deriving DecidableEq, Repr

/-- The SDK constant `cloudwatchrum.ErrCodeResourceNotFoundException`. -/
def ErrCodeResourceNotFoundException : String := "ResourceNotFoundException"

/-- The client handle `*cloudwatchrum.CloudWatchRUM`: for each operation, the answer of the
remote service to a request (of `DeleteAppMonitor`, whose output is empty, the error). -/
structure CloudWatchRUM where
  GetAppMonitorWithContext :
    GetAppMonitorInput → Option GetAppMonitorOutput × Option BaseError := fun _ => (none, none)
  DeleteAppMonitorWithContext : DeleteAppMonitorInput → Option BaseError := fun _ => none

/-- The provider's `conns.AWSClient` as the handlers use it.  `IgnoreTags` is what
`KeyValueTags(tags).IgnoreAWS().IgnoreConfig(IgnoreTagsConfig).Map()` gives for the tags of
a monitor and `RemoveDefaultTags` is what `RemoveDefaultConfig(DefaultTagsConfig).Map()`
gives after it; both are helpers of package `internal/tags`, taken as given. -/
structure AWSClient where
  CloudWatchRUMConn : CloudWatchRUM := {}
  Partition : String := "aws"
  Region : String := "us-east-1"
  IgnoreTags : List (String × Option String) → List (String × String) :=
    fun tags => tags.map (fun kv => (kv.1, StringValue kv.2))
  RemoveDefaultTags : List (String × String) → List (String × String) := fun tags => tags

/-- The finder `FindAppMonitorByName` (cloudwatchrum/find.go, 10–25). -/
def FindAppMonitorByName (conn : CloudWatchRUM) (name : String) :
    Option AppMonitor × Option BaseError :=
  let input : GetAppMonitorInput := { Name := some name }
  let r := conn.GetAppMonitorWithContext input
  match r.2 with
  | some err => (none, some err)
  | none =>
    match r.1 with
    | none => (none, none)
    | some output => (output.AppMonitor, none)

/-- The helper `flex.FlattenStringSet`: the set of the pointed-to strings. -/
def FlattenStringSet (list : List (Option String)) : FieldValue :=
  .stringSet (list.map StringValue)

/-- The function `flattenAppMonitorConfig` (app_monitor.go, 317–369) on a non-nil
configuration; the keys of the map are listed in the order the source sets them. -/
def flattenAppMonitorConfig (config : AppMonitorConfiguration) : List (String × FieldValue) :=
  (match config.AllowCookies with
    | some v => [("allow_cookies", FieldValue.bool v)]
    | none => [])
  ++ (match config.EnableXRay with
    | some v => [("enable_xray", FieldValue.bool v)]
    | none => [])
  ++ [("excluded_pages",
        if config.ExcludedPages.length > 0 then FlattenStringSet config.ExcludedPages
        else .null)]
  ++ [("favorite_pages",
        if config.FavoritePages.length > 0 then FlattenStringSet config.FavoritePages
        else .null)]
  ++ (match config.GuestRoleArn with
    | some v => [("guest_role_arn", FieldValue.string v)]
    | none => [])
  ++ (match config.IdentityPoolId with
    | some v => [("identity_pool_id", FieldValue.string v)]
    | none => [])
  ++ [("included_pages",
        if config.IncludedPages.length > 0 then FlattenStringSet config.IncludedPages
        else .null)]
  ++ [("session_sample_rate",
        match config.SessionSampleRate with
        | none => FieldValue.string ""
        | some v => FieldValue.string v)]
  ++ [("telemetries",
        if config.Telemetries.length > 0 then FlattenStringSet config.Telemetries
        else .null)]

/-- A pointer to a string as an attribute value: null for nil. -/
def stringPointerValue : Option String → Value
  | some s => .string s
  | none => .null

/-- A pointer to a boolean as an attribute value: null for nil. -/
def boolPointerValue : Option Bool → Value
  | some b => .bool b
  | none => .null

/-- The handler `resourceAppMonitorRead` (app_monitor.go, 126–184): the resource data it
leaves and the diagnostics it returns; `none` is the nil dereference of reading
`monitor.DataStorage.CwLog.CwLogEnabled` through a nil pointer.  `d.Set` is given values
of the attributes' types and does not fail. -/
def resourceAppMonitorRead (d : ResourceData) (meta : AWSClient) :
    Option (ResourceData × Diagnostics) :=
  let conn := meta.CloudWatchRUMConn
  let name := d.GetString "name"
  let r := FindAppMonitorByName conn name
  let monitor := r.1
  let err := r.2
  if !d.IsNewResource && ErrCodeEquals err ErrCodeResourceNotFoundException then
    some (d.SetId "", [])
  else
    match err with
    | some e =>
      some (d, Errorf ("error reading CloudWatch RUM App Monitor (" ++ name ++ "): "
        ++ errorText e))
    | none =>
      match monitor with
      | none =>
        if d.IsNewResource then
          some (d, Errorf ("error reading CloudWatch RUM App Monitor (" ++ name
            ++ "): not found"))
        else
          some (d.SetId "", [])
      | some monitor =>
        let d := d.Set "domain" (stringPointerValue monitor.Domain)
        let d := d.Set "name" (stringPointerValue monitor.Name)
        match monitor.DataStorage with
        | none => none
        | some dataStorage =>
          match dataStorage.CwLog with
          | none => none
          | some cwLog =>
            let d := d.Set "cw_log_enabled" (boolPointerValue cwLog.CwLogEnabled)
            let d :=
              match monitor.AppMonitorConfiguration with
              | some config =>
                d.Set "app_monitor_configuration" (.blocks [flattenAppMonitorConfig config])
              | none => d.Set "app_monitor_configuration" .null
            let tags := meta.IgnoreTags monitor.Tags
            let d := d.Set "tags" (.stringMap (meta.RemoveDefaultTags tags))
            let d := d.Set "tags_all" (.stringMap tags)
            let arn := "arn:" ++ meta.Partition ++ ":" ++ "rum" ++ ":" ++ meta.Region
              ++ ":" ++ "" ++ ":" ++ ("/appmonitor/" ++ d.Id)
            let d := d.Set "arn" (.string arn)
            some (d, [])

/-- The handler `resourceAppMonitorDelete` (app_monitor.go, 208–225). -/
def resourceAppMonitorDelete (d : ResourceData) (meta : AWSClient) : Diagnostics :=
  let conn := meta.CloudWatchRUMConn
  let name := d.Id
  let input : DeleteAppMonitorInput := { Name := some name }
  let err := conn.DeleteAppMonitorWithContext input
  match err with
  | some e =>
    if ErrCodeEquals err ErrCodeResourceNotFoundException then
      []
    else
      Errorf ("error deleting CloudWatch RUM App Monitor (" ++ name ++ "): " ++ errorText e)
  | none => []

end Rum

namespace DMS

open Ec2Find Schema

/-- The SDK type `dms.DeleteEndpointInput`. -/
structure DeleteEndpointInput where
  EndpointArn : Option String := none
  deriving DecidableEq, Repr

/-- The SDK constant `dms.ErrCodeResourceNotFoundFault`. -/
def ErrCodeResourceNotFoundFault : String := "ResourceNotFoundFault"

/-- The client handle `*dms.DatabaseMigrationService`: the answer of the remote service to
a `DeleteEndpoint` request (its error; the output is not read). -/
structure DatabaseMigrationService where
  DeleteEndpoint : DeleteEndpointInput → Option BaseError := fun _ => none

/-- The provider's `conns.AWSClient` as the DMS handlers use it. -/
structure AWSClient where
  DMSConn : DatabaseMigrationService := {}

/-- A step a DMS handler takes against the service, in the order taken. -/
inductive Step where
  | DeleteEndpoint (input : DeleteEndpointInput)
  | waitEndpointDeleted (id : String)
  deriving DecidableEq, Repr

/-- An error made by `fmt.Errorf` with `%w`: its text and the error it wraps. -/
structure WrappedError where
  text : String
  cause : BaseError
  deriving DecidableEq, Repr

/-- The handler `resourceEndpointDelete` (endpoint.go, 1013–1036): the steps it takes and
the error it returns.  `waitEndpointDeleted` (package `internal/service/dms`, wait.go) is
taken as given: its error for a connection and an endpoint ID. -/
def resourceEndpointDelete
    (waitEndpointDeleted : DatabaseMigrationService → String → Option BaseError)
    (d : ResourceData) (meta : AWSClient) : List Step × Option WrappedError :=
  let conn := meta.DMSConn
  let input : DeleteEndpointInput := { EndpointArn := some (d.GetString "endpoint_arn") }
  let err := conn.DeleteEndpoint input
  if ErrCodeEquals err ErrCodeResourceNotFoundFault then
    ([.DeleteEndpoint input], none)
  else
    match err with
    | some e =>
      ([.DeleteEndpoint input],
        some { text := "error deleting DMS Endpoint (" ++ d.Id ++ "): " ++ errorText e,
               cause := e })
    | none =>
      match waitEndpointDeleted conn d.Id with
      | some e =>
        ([.DeleteEndpoint input, .waitEndpointDeleted d.Id],
          some { text := "error waiting for DMS Endpoint (" ++ d.Id ++ ") delete: "
                   ++ errorText e,
                 cause := e })
      | none => ([.DeleteEndpoint input, .waitEndpointDeleted d.Id], none)

/-! ## Settings blocks of the endpoint resource (`internal/service/dms/endpoint.go`) -/

/-- Modelled from the spec: the engine name constants of package `internal/service/dms`
that `resourceEndpointCustomizeDiff` switches on. -/
def engineNameElasticsearch : String := "elasticsearch"

/-- Modelled from the spec: the engine name constant for OpenSearch. -/
def engineNameOpenSearch : String := "opensearch"

/-- Modelled from the spec: the engine name constant for Kafka. -/
def engineNameKafka : String := "kafka"

/-- Modelled from the spec: the engine name constant for Kinesis. -/
def engineNameKinesis : String := "kinesis"

/-- Modelled from the spec: the engine name constant for MongoDB. -/
def engineNameMongodb : String := "mongodb"

/-- Modelled from the spec: the engine name constant for S3. -/
def engineNameS3 : String := "s3"

/-- The test `!ok || len(v.([]interface{})) == 0 || v.([]interface{})[0] == nil` on the
result of `diff.GetOk(key)`. -/
def settingsMissing (r : List (Option TfMap) × Bool) : Bool :=
  !r.2 ||
    (match r.1 with
      | [] => true
      | none :: _ => true
      | some _ :: _ => false)

/-- The text `fmt.Sprintf("%q", s)` of a string of plain characters: the string between
double quotes. -/
def quote (s : String) : String :=
  "\"" ++ s ++ "\""

/-- The function `resourceEndpointCustomizeDiff` (endpoint.go, 1038–1063). -/
def resourceEndpointCustomizeDiff (diff : ResourceDiff) : Option BaseError :=
  let engineName := diff.GetString "engine_name"
  if engineName = engineNameElasticsearch ∨ engineName = engineNameOpenSearch then
    if settingsMissing (diff.GetOkList "elasticsearch_settings") then
      some (.errorString
        ("elasticsearch_settings must be set when engine_name = " ++ quote engineName))
    else none
  else if engineName = engineNameKafka then
    if settingsMissing (diff.GetOkList "kafka_settings") then
      some (.errorString ("kafka_settings must be set when engine_name = " ++ quote engineName))
    else none
  else if engineName = engineNameKinesis then
    if settingsMissing (diff.GetOkList "kinesis_settings") then
      some (.errorString
        ("kinesis_settings must be set when engine_name = " ++ quote engineName))
    else none
  else if engineName = engineNameMongodb then
    if settingsMissing (diff.GetOkList "mongodb_settings") then
      some (.errorString
        ("mongodb_settings must be set when engine_name = " ++ quote engineName))
    else none
  else if engineName = engineNameS3 then
    if settingsMissing (diff.GetOkList "s3_settings") then
      some (.errorString ("s3_settings must be set when engine_name = " ++ quote engineName))
    else none
  else none

/-- The test `v, ok := x.(string); ok && v != ""`: the string when the test holds. -/
def nonEmptyString (x : Option Any) : Option String :=
  match Any.asString x with
  | some v => if v ≠ "" then some v else none
  | none => none

/-- The SDK type `dms.KinesisSettings`: the nine fields the provider maps, and
`NoHexPrefix`, which it does not map. -/
structure KinesisSettings where
  IncludeControlDetails : Option Bool := none
  IncludeNullAndEmpty : Option Bool := none
  IncludePartitionValue : Option Bool := none
  IncludeTableAlterOperations : Option Bool := none
  IncludeTransactionDetails : Option Bool := none
  MessageFormat : Option String := none
  NoHexPrefix : Option Bool := none
  PartitionIncludeSchemaTable : Option Bool := none
  ServiceAccessRoleArn : Option String := none
  StreamArn : Option String := none
  deriving DecidableEq, Repr

/-- The function `expandKinesisSettings` (endpoint.go, 1343–1387): `apiObject` starts with
every field nil, and each statement `if v, ok := tfMap[key].(T); ok … { apiObject.F = … }`
gives one field its value. -/
def expandKinesisSettings (tfMap : Option TfMap) : Option KinesisSettings :=
  match tfMap with
  | none => none
  | some tfMap =>
    some
      { IncludeControlDetails := Any.asBool (tfMap.get "include_control_details"),
        IncludeNullAndEmpty := Any.asBool (tfMap.get "include_null_and_empty"),
        IncludePartitionValue := Any.asBool (tfMap.get "include_partition_value"),
        IncludeTableAlterOperations := Any.asBool (tfMap.get "include_table_alter_operations"),
        IncludeTransactionDetails := Any.asBool (tfMap.get "include_transaction_details"),
        MessageFormat := nonEmptyString (tfMap.get "message_format"),
        PartitionIncludeSchemaTable := Any.asBool (tfMap.get "partition_include_schema_table"),
        ServiceAccessRoleArn := nonEmptyString (tfMap.get "service_access_role_arn"),
        StreamArn := nonEmptyString (tfMap.get "stream_arn") }

/-- The function `flattenKinesisSettings` (endpoint.go, 1389–1433): one statement
`if v := apiObject.F; v != nil { tfMap[key] = … }` per pair, in the order of the source. -/
def flattenKinesisSettings (apiObject : Option KinesisSettings) : Option TfMap :=
  match apiObject with
  | none => none
  | some apiObject =>
    let tfMap := TfMap.empty
    let tfMap := TfMap.setEach tfMap
      [("include_control_details", Any.boolPointer apiObject.IncludeControlDetails),
       ("include_null_and_empty", Any.boolPointer apiObject.IncludeNullAndEmpty),
       ("include_partition_value", Any.boolPointer apiObject.IncludePartitionValue),
       ("include_table_alter_operations", Any.boolPointer apiObject.IncludeTableAlterOperations),
       ("include_transaction_details", Any.boolPointer apiObject.IncludeTransactionDetails),
       ("message_format", Any.stringPointer apiObject.MessageFormat),
       ("partition_include_schema_table", Any.boolPointer apiObject.PartitionIncludeSchemaTable),
       ("service_access_role_arn", Any.stringPointer apiObject.ServiceAccessRoleArn),
       ("stream_arn", Any.stringPointer apiObject.StreamArn)]
    some tfMap

/-- The SDK type `dms.S3Settings`, with the fields `expandS3Settings` sets. -/
structure S3Settings where
  AddColumnName : Option Bool := none
  BucketFolder : Option String := none
  BucketName : Option String := none
  CannedAclForObjects : Option String := none
  CdcInsertsAndUpdates : Option Bool := none
  CdcInsertsOnly : Option Bool := none
  CdcMaxBatchInterval : Option Int := none
  CdcMinFileSize : Option Int := none
  CdcPath : Option String := none
  CompressionType : Option String := none
  CsvDelimiter : Option String := none
  CsvNoSupValue : Option String := none
  CsvNullValue : Option String := none
  CsvRowDelimiter : Option String := none
  DataFormat : Option String := none
  DataPageSize : Option Int := none
  DatePartitionDelimiter : Option String := none
  DatePartitionEnabled : Option Bool := none
  DatePartitionSequence : Option String := none
  DictPageSizeLimit : Option Int := none
  EnableStatistics : Option Bool := none
  EncodingType : Option String := none
  EncryptionMode : Option String := none
  ExternalTableDefinition : Option String := none
  IgnoreHeaderRows : Option Int := none
  IncludeOpForFullLoad : Option Bool := none
  MaxFileSize : Option Int := none
  ParquetTimestampInMillisecond : Option Bool := none
  ParquetVersion : Option String := none
  PreserveTransactions : Option Bool := none
  Rfc4180 : Option Bool := none
  RowGroupLength : Option Int := none
  ServerSideEncryptionKmsKeyId : Option String := none
  ServiceAccessRoleArn : Option String := none
  TimestampColumnName : Option String := none
  UseCsvNoSupValue : Option Bool := none
  deriving DecidableEq, Repr

/-- The function `expandS3Settings` (endpoint.go, 1452–1569): `apiObject` starts with every
field nil, and each statement `if v, ok := tfMap[key].(T); ok { apiObject.F = … }` gives
one field its value. -/
def expandS3Settings (tfMap : Option TfMap) : Option S3Settings :=
  match tfMap with
  | none => none
  | some tfMap =>
    some
      { AddColumnName := Any.asBool (tfMap.get "add_column_name"),
        BucketFolder := Any.asString (tfMap.get "bucket_folder"),
        BucketName := Any.asString (tfMap.get "bucket_name"),
        CannedAclForObjects := Any.asString (tfMap.get "canned_acl_for_objects"),
        CdcInsertsAndUpdates := Any.asBool (tfMap.get "cdc_inserts_and_updates"),
        CdcInsertsOnly := Any.asBool (tfMap.get "cdc_inserts_only"),
        CdcMaxBatchInterval := Any.asInt (tfMap.get "cdc_max_batch_interval"),
        CdcMinFileSize := Any.asInt (tfMap.get "cdc_min_file_size"),
        CdcPath := Any.asString (tfMap.get "cdc_path"),
        CompressionType := Any.asString (tfMap.get "compression_type"),
        CsvDelimiter := Any.asString (tfMap.get "csv_delimiter"),
        CsvNoSupValue := Any.asString (tfMap.get "csv_no_sup_value"),
        CsvNullValue := Any.asString (tfMap.get "csv_null_value"),
        CsvRowDelimiter := Any.asString (tfMap.get "csv_row_delimiter"),
        DataFormat := Any.asString (tfMap.get "data_format"),
        DataPageSize := Any.asInt (tfMap.get "data_page_size"),
        DatePartitionDelimiter := Any.asString (tfMap.get "date_partition_delimiter"),
        DatePartitionEnabled := Any.asBool (tfMap.get "date_partition_enabled"),
        DatePartitionSequence := Any.asString (tfMap.get "date_partition_sequence"),
        DictPageSizeLimit := Any.asInt (tfMap.get "dict_page_size_limit"),
        EnableStatistics := Any.asBool (tfMap.get "enable_statistics"),
        EncodingType := Any.asString (tfMap.get "encoding_type"),
        EncryptionMode := Any.asString (tfMap.get "encryption_mode"),
        ExternalTableDefinition := Any.asString (tfMap.get "external_table_definition"),
        IgnoreHeaderRows := Any.asInt (tfMap.get "ignore_header_rows"),
        IncludeOpForFullLoad := Any.asBool (tfMap.get "include_op_for_full_load"),
        MaxFileSize := Any.asInt (tfMap.get "max_file_size"),
        ParquetTimestampInMillisecond := Any.asBool (tfMap.get "parquet_timestamp_in_millisecond"),
        ParquetVersion := Any.asString (tfMap.get "parquet_version"),
        PreserveTransactions := Any.asBool (tfMap.get "preserve_transactions"),
        Rfc4180 := Any.asBool (tfMap.get "rfc_4180"),
        RowGroupLength := Any.asInt (tfMap.get "row_group_length"),
        ServerSideEncryptionKmsKeyId := Any.asString (tfMap.get "server_side_encryption_kms_key_id"),
        ServiceAccessRoleArn := Any.asString (tfMap.get "service_access_role_arn"),
        TimestampColumnName := Any.asString (tfMap.get "timestamp_column_name"),
        UseCsvNoSupValue := Any.asBool (tfMap.get "use_csv_no_sup_value") }

/-- The function `flattenS3Settings` (endpoint.go, 1571–1685): one statement
`if v := apiObject.F; v != nil { tfMap[key] = … }` per pair, in the order of the source. -/
def flattenS3Settings (apiObject : Option S3Settings) : List TfMap :=
  match apiObject with
  | none => []
  | some apiObject =>
    let tfMap := TfMap.empty
    let tfMap := TfMap.setEach tfMap
      [("add_column_name", Any.boolPointer apiObject.AddColumnName),
       ("bucket_folder", Any.stringPointer apiObject.BucketFolder),
       ("bucket_name", Any.stringPointer apiObject.BucketName),
       ("canned_acl_for_objects", Any.stringPointer apiObject.CannedAclForObjects),
       ("cdc_inserts_and_updates", Any.boolPointer apiObject.CdcInsertsAndUpdates),
       ("cdc_inserts_only", Any.boolPointer apiObject.CdcInsertsOnly),
       ("cdc_max_batch_interval", Any.int64Pointer apiObject.CdcMaxBatchInterval),
       ("cdc_min_file_size", Any.int64Pointer apiObject.CdcMinFileSize),
       ("cdc_path", Any.stringPointer apiObject.CdcPath),
       ("compression_type", Any.stringPointer apiObject.CompressionType),
       ("csv_delimiter", Any.stringPointer apiObject.CsvDelimiter),
       ("csv_no_sup_value", Any.stringPointer apiObject.CsvNoSupValue),
       ("csv_null_value", Any.stringPointer apiObject.CsvNullValue),
       ("csv_row_delimiter", Any.stringPointer apiObject.CsvRowDelimiter),
       ("data_format", Any.stringPointer apiObject.DataFormat),
       ("data_page_size", Any.int64Pointer apiObject.DataPageSize),
       ("date_partition_delimiter", Any.stringPointer apiObject.DatePartitionDelimiter),
       ("date_partition_enabled", Any.boolPointer apiObject.DatePartitionEnabled),
       ("date_partition_sequence", Any.stringPointer apiObject.DatePartitionSequence),
       ("dict_page_size_limit", Any.int64Pointer apiObject.DictPageSizeLimit),
       ("enable_statistics", Any.boolPointer apiObject.EnableStatistics),
       ("encoding_type", Any.stringPointer apiObject.EncodingType),
       ("encryption_mode", Any.stringPointer apiObject.EncryptionMode),
       ("external_table_definition", Any.stringPointer apiObject.ExternalTableDefinition),
       ("ignore_header_rows", Any.int64Pointer apiObject.IgnoreHeaderRows),
       ("include_op_for_full_load", Any.boolPointer apiObject.IncludeOpForFullLoad),
       ("max_file_size", Any.int64Pointer apiObject.MaxFileSize),
       ("parquet_timestamp_in_millisecond", Any.boolPointer apiObject.ParquetTimestampInMillisecond),
       ("parquet_version", Any.stringPointer apiObject.ParquetVersion),
       ("rfc_4180", Any.boolPointer apiObject.Rfc4180),
       ("row_group_length", Any.int64Pointer apiObject.RowGroupLength),
       ("server_side_encryption_kms_key_id", Any.stringPointer apiObject.ServerSideEncryptionKmsKeyId),
       ("service_access_role_arn", Any.stringPointer apiObject.ServiceAccessRoleArn),
       ("timestamp_column_name", Any.stringPointer apiObject.TimestampColumnName),
       ("use_csv_no_sup_value", Any.boolPointer apiObject.UseCsvNoSupValue)]
    [tfMap]

/-- The Go standard library's `strings.Split(s, sep)` for a separator of one character, on
the characters of `s`. -/
def splitChars (sep : Char) : List Char → List (List Char)
  | [] => [[]]
  | c :: cs =>
    if c = sep then [] :: splitChars sep cs
    else
      match splitChars sep cs with
      | [] => [[c]]
      | p :: ps => (c :: p) :: ps

/-- The Go standard library's `strings.Split(s, sep)` for a separator of one character. -/
def Split (s : String) (sep : Char) : List String :=
  (splitChars sep s.data).map String.mk

/-- The replacement `regexp.MustCompile("([a-z])([A-Z])").ReplaceAllString(k, "${1}_${2}")`
on the characters of `k`: each match, a lowercase letter followed by an uppercase letter,
found from left to right, is replaced by the two letters with `_` between them. -/
def camelToSnakeChars : List Char → List Char
  | a :: b :: rest =>
    if a.isLower && b.isUpper then a :: '_' :: b :: camelToSnakeChars rest
    else a :: camelToSnakeChars (b :: rest)
  | rest => rest

/-- The value `matchAllCap.ReplaceAllString(k, "${1}_${2}")`. -/
def camelToSnake (k : String) : String :=
  String.mk (camelToSnakeChars k.data)

/-- The value `strings.Replace(s, "-", "_", -1)`. -/
def hyphensToUnderscores (s : String) : String :=
  String.mk (s.data.map (fun c => if c = '-' then '_' else c))

/-- The function `extraConnectionAttributesToSet` (endpoint.go, 1714–1743).  `ToLower` is
the Go standard library's `strings.ToLower`, taken as given. -/
def extraConnectionAttributesToSet (ToLower : String → String) (extra : String) :
    Option SchemaSet :=
  if extra = "" then
    none
  else
    let parts := Split extra ';'
    some (parts.foldl
      (fun (s : SchemaSet) part =>
        match Split part '=' with
        | [k, v] =>
          let key := camelToSnake k
          let normalizedVal := hyphensToUnderscores (ToLower v)
          s.Add (ToLower key ++ "=" ++ normalizedVal)
        | _ => s)
      {})

/-- The function `engineSettingsToSet` (endpoint.go, 1745–1772); the map is ranged over in
the order of its list of pairs. -/
def engineSettingsToSet (ToLower : String → String) (l : List (Option TfMap)) :
    Option SchemaSet :=
  match l with
  | [] => none
  | none :: _ => none
  | some tfMap :: _ =>
    some (tfMap.foldl
      (fun (s : SchemaSet) kv =>
        match kv.2 with
        | .string t =>
          let normalizedVal := hyphensToUnderscores (ToLower t)
          s.Add (kv.1 ++ "=" ++ normalizedVal)
        | t => s.Add (kv.1 ++ "=" ++ Any.format t))
      {})

/-- The function `suppressExtraConnectionAttributesDiffs` (endpoint.go, 1687–1712); `none`
is the nil dereference inside `diff.Equal(n)` for a nil `n`. -/
def suppressExtraConnectionAttributesDiffs (ToLower : String → String) (old new : String)
    (d : ResourceData) : Option Bool :=
  if d.Id ≠ "" then
    let o := extraConnectionAttributesToSet ToLower old
    let n := extraConnectionAttributesToSet ToLower new
    let config : Option SchemaSet :=
      match d.GetOkList "mongodb_settings" with
      | (v, true) => engineSettingsToSet ToLower v
      | (_, false) =>
        match d.GetOkList "s3_settings" with
        | (v, true) => engineSettingsToSet ToLower v
        | (_, false) => none
    match o, config with
    | some o, some config =>
      let diff := o.Difference config
      if diff.Len = 0 then some true else diff.Equal n
    | _, _ => some false
  else
    some false

end DMS

/-! # Example resources -/

namespace Rum

open Ec2Find Schema

/-- A resource in the state, named `monitor-1`, with a domain attribute. -/
def existingMonitorData : ResourceData :=
  { id := "monitor-1", isNew := false,
    attributes := [("name", .string "monitor-1"), ("domain", .string "example.com")] }

/-- The same resource while it is being created. -/
def newMonitorData : ResourceData :=
  { existingMonitorData with isNew := true }

/-- A client whose service answers `GetAppMonitor` and `DeleteAppMonitor` with the given
error. -/
def failingClient (e : BaseError) : AWSClient :=
  { CloudWatchRUMConn :=
      { GetAppMonitorWithContext := fun _ => (none, some e),
        DeleteAppMonitorWithContext := fun _ => some e } }

/-- A client whose service answers `GetAppMonitor` with an output that holds no monitor. -/
def emptyClient : AWSClient :=
  { CloudWatchRUMConn := { GetAppMonitorWithContext := fun _ => (some {}, none) } }

end Rum

namespace DMS

open Ec2Find Schema

/-- A DMS endpoint resource in the state. -/
def endpointData : ResourceData :=
  { id := "endpoint-1",
    attributes := [("endpoint_arn", .string "arn:aws:dms:us-east-1:123456789012:endpoint:E1")] }

/-- A client whose service answers `DeleteEndpoint` with the given error. -/
def failingClient (e : BaseError) : AWSClient :=
  { DMSConn := { DeleteEndpoint := fun _ => some e } }

/-- The element that one part of an extra connection attributes string adds to the set,
if it adds one. -/
def attributeOfPart (ToLower : String → String) (part : String) : Option String :=
  match Split part '=' with
  | [k, v] => some (ToLower (camelToSnake k) ++ "=" ++ hyphensToUnderscores (ToLower v))
  | _ => none

/-- The elements that the parts of an extra connection attributes string give, in the order
of the parts. -/
def attributeElements (ToLower : String → String) (extra : String) : List String :=
  (Split extra ';').filterMap (attributeOfPart ToLower)

/-- An instance of `strings.ToLower` for the examples: the lower case of ASCII letters. -/
def asciiToLower (s : String) : String :=
  String.mk (s.data.map Char.toLower)

/-- Kinesis settings with some fields set and some not. -/
def exampleKinesisSettings : KinesisSettings :=
  { IncludeControlDetails := some true, IncludeNullAndEmpty := some false,
    MessageFormat := some "json", StreamArn := some "arn:aws:kinesis:us-east-1:1:stream/s" }

/-- A DMS endpoint resource in the state whose `s3_settings` block sets a bucket name and a
compression type. -/
def s3EndpointData : ResourceData :=
  { id := "endpoint-1",
    attributes :=
      [("s3_settings", .list [some [("bucket_name", .string "Logs-Bucket"),
                                    ("compression_type", .string "GZIP")]])] }

/-- The same resource before it has an ID. -/
def s3EndpointDataWithoutId : ResourceData :=
  { s3EndpointData with id := "" }

/-- A DMS endpoint resource in the state whose `s3_settings` block sets the bucket name
`buckeroo`. -/
def collidingS3EndpointData : ResourceData :=
  { id := "endpoint-1",
    attributes := [("s3_settings", .list [some [("bucket_name", .string "buckeroo")]])] }

/-- A planned state with engine `kinesis` and no `kinesis_settings` block. -/
def kinesisDiffWithoutSettings : ResourceDiff :=
  { attributes := [("engine_name", .string "kinesis")] }

/-- A planned state with engine `kinesis` and a `kinesis_settings` block. -/
def kinesisDiffWithSettings : ResourceDiff :=
  { attributes :=
      [("engine_name", .string "kinesis"),
       ("kinesis_settings", .list [some [("message_format", .string "json")]])] }

/-- A planned state with engine `mysql` and no settings block. -/
def mysqlDiff : ResourceDiff :=
  { attributes := [("engine_name", .string "mysql")] }

/-- The engine settings of a resource convert to the set `C`: the `mongodb_settings` block
when it is set and otherwise the `s3_settings` block when that one is set. -/
def engineSettingsAre (ToLower : String → String) (d : ResourceData) (C : SchemaSet) : Prop :=
  (∃ v, d.GetOkList "mongodb_settings" = (v, true) ∧ engineSettingsToSet ToLower v = some C) ∨
  ((d.GetOkList "mongodb_settings").2 = false ∧
    ∃ v, d.GetOkList "s3_settings" = (v, true) ∧ engineSettingsToSet ToLower v = some C)

/-- The settings block `key` of a planned state is unset, an empty list, or a list whose
first element is nil. -/
def settingsBlockMissing (diff : ResourceDiff) (key : String) : Prop :=
  (diff.GetOkList key).2 = false ∨ (diff.GetOkList key).1 = [] ∨
    (diff.GetOkList key).1.head? = some none

end DMS

namespace Ec2Find

/-! ## Lemmas on the page iteration -/

theorem foldl_append_nonNil {α : Type} (f : List (Option α) → Option α → List (Option α))
    (hf : ∀ out v, f out v = if v.isSome then out ++ [v] else out)
    (xs acc : List (Option α)) :
    xs.foldl f acc = acc ++ xs.filter Option.isSome := by
  induction xs generalizing acc with
  | nil => simp
  | cons x xs ih =>
    rw [List.foldl_cons, ih, hf]
    cases x <;> simp

theorem eachPage_accumulate {P α : Type} (fn : List α → Option P → Bool → List α × Bool)
    (g : Option P → List α) (hfn : ∀ s p l, fn s p l = (s ++ g p, !l))
    (err : Option BaseError) (pages : List (Option P)) (s : List α) :
    eachPage fn err pages s = (s ++ pages.flatMap g, err) := by
  induction pages generalizing s with
  | nil => simp [eachPage]
  | cons p rest ih =>
    simp only [eachPage, hfn, List.flatMap_cons]
    cases rest with
    | nil => cases err <;> simp [eachPage]
    | cons q rest => simp [ih]

theorem FindVPCs_pages (conn : EC2) (input : DescribeVpcsInput) :
    FindVPCs conn input =
      if ErrCodeEquals (conn.describeVpcs input).err ErrCodeInvalidVpcIDNotFound then
        ([], some (.notFound
          { LastError := (conn.describeVpcs input).err, LastRequest := some input }))
      else
        match (conn.describeVpcs input).err with
        | some e => ([], some (.base e))
        | none => ((deliveredVpcs conn input).filter Option.isSome, none) := by
  unfold FindVPCs EC2.DescribeVpcsPages deliveredVpcs
  rw [eachPage_accumulate _ (fun p => (pageVpcs p).filter Option.isSome)]
  · simp [List.filter_flatMap]
  · intro s p l
    cases p with
    | none => simp [pageVpcs]
    | some page =>
      simp only [pageVpcs]
      rw [foldl_append_nonNil]
      intro out v
      cases v <;> simp

theorem FindVPC_of_FindVPCs_ok (conn : EC2) (input : DescribeVpcsInput)
    (output : List (Option Vpc)) :
    FindVPCs conn input = (output, none) →
    FindVPC conn input =
      match output with
      | [] => (none, some (NewEmptyResultError input))
      | none :: _ => (none, some (NewEmptyResultError input))
      | some v :: _ =>
        if output.length > 1 then
          (none, some (NewTooManyResultsError output.length input))
        else
          (some v, none) := by
  intro h
  unfold FindVPC
  rw [h]

theorem FindVPCs_no_error (conn : EC2) (input : DescribeVpcsInput)
    (herr : (conn.describeVpcs input).err = none) :
    FindVPCs conn input = ((deliveredVpcs conn input).filter Option.isSome, none) := by
  rw [FindVPCs_pages, herr]
  simp [ErrCodeEquals]

theorem FindVPCs_error (conn : EC2) (input : DescribeVpcsInput) (e : BaseError)
    (herr : (conn.describeVpcs input).err = some e)
    (hcode : ∀ msg, e ≠ .awsErr ErrCodeInvalidVpcIDNotFound msg) :
    FindVPCs conn input = ([], some (.base e)) := by
  rw [FindVPCs_pages, herr]
  cases e with
  | awsErr c m =>
    have hc : c ≠ ErrCodeInvalidVpcIDNotFound := fun hc => hcode m (by rw [hc])
    simp [ErrCodeEquals, hc]
  | errorString t => simp [ErrCodeEquals]

/-! ## Properties of the VPC finders -/

/-- C1: for every sequence of pages that the paginated `DescribeVpcs` call delivers without
error, `FindVPCs` returns, with a nil error, exactly the non-nil VPCs of all pages, in page
order and within a page in the order of the page. -/
theorem FindVPCs_returns_delivered_in_order (conn : EC2) (input : DescribeVpcsInput)
    (herr : (conn.describeVpcs input).err = none) :
    FindVPCs conn input = ((deliveredVpcs conn input).filter Option.isSome, none) :=
  FindVPCs_no_error conn input herr

/-- Pages of two, two and one VPCs yield the five VPCs in their original order. -/
theorem FindVPCs_three_pages :
    (threePageService.describeVpcs {}).err = none ∧
    FindVPCs threePageService {} =
      ([some (vpcWithId "vpc-1"), some (vpcWithId "vpc-2"), some (vpcWithId "vpc-3"),
        some (vpcWithId "vpc-4"), some (vpcWithId "vpc-5")], none) :=
  ⟨rfl, (FindVPCs_returns_delivered_in_order threePageService {} rfl).trans (by decide)⟩

/-- C2: when the service delivers no VPC (no pages, nil or empty pages, or only nil
elements) and no error, `FindVPCs` returns the empty sequence with a nil error, and
`FindVPC` returns no object and the empty-result `NotFound` error carrying the query. -/
theorem FindVPC_zero_results (conn : EC2) (input : DescribeVpcsInput)
    (herr : (conn.describeVpcs input).err = none)
    (hzero : ∀ v ∈ deliveredVpcs conn input, v = none) :
    FindVPCs conn input = ([], none) ∧
    FindVPC conn input = (none, some (NewEmptyResultError input)) ∧
    NotFound (FindVPC conn input).2 = true ∧
    (FindVPC conn input).2.bind FindError.lastRequest = some input := by
  have hnil : (deliveredVpcs conn input).filter Option.isSome = [] := by
    rw [List.filter_eq_nil_iff]
    intro v hv
    rw [hzero v hv]
    simp
  have hmany : FindVPCs conn input = ([], none) := by
    rw [FindVPCs_no_error conn input herr, hnil]
  have hone : FindVPC conn input = (none, some (NewEmptyResultError input)) :=
    FindVPC_of_FindVPCs_ok conn input [] hmany
  refine ⟨hmany, hone, ?_, ?_⟩
  · rw [hone]; rfl
  · rw [hone]; rfl

/-- A nil page, an empty page and a page of nil elements: empty sequence, and `NotFound`
from the singular finder. -/
theorem FindVPC_zero_results_example :
    FindVPCs noVpcService {} = ([], none) ∧
    FindVPC noVpcService {} = (none, some (NewEmptyResultError {})) ∧
    NotFound (FindVPC noVpcService {}).2 = true ∧
    (FindVPC noVpcService {}).2.bind FindError.lastRequest = some {} :=
  FindVPC_zero_results noVpcService {} rfl (by decide)

/-- C3: when the service delivers `n > 1` non-nil VPCs and no error, `FindVPC` returns no
object and the `TooManyResults` error whose count is `n` and which carries the query. -/
theorem FindVPC_too_many_results (conn : EC2) (input : DescribeVpcsInput)
    (herr : (conn.describeVpcs input).err = none)
    (hmany : 1 < ((deliveredVpcs conn input).filter Option.isSome).length) :
    FindVPC conn input =
      (none, some (.tooManyResults
        ((deliveredVpcs conn input).filter Option.isSome).length input)) := by
  rw [FindVPC_of_FindVPCs_ok conn input _ (FindVPCs_no_error conn input herr)]
  generalize hout : (deliveredVpcs conn input).filter Option.isSome = output at hmany
  match output, hout with
  | [], _ => simp at hmany
  | none :: rest, hout =>
    have hmem : (none : Option Vpc) ∈ (deliveredVpcs conn input).filter Option.isSome := by
      rw [hout]; simp
    simp at hmem
  | some v :: rest, _ =>
    simp only [NewTooManyResultsError]
    rw [if_pos hmany]

/-- Five delivered VPCs: `TooManyResults` with count 5. -/
theorem FindVPC_too_many_results_example :
    FindVPC threePageService {} = (none, some (.tooManyResults 5 {})) :=
  FindVPC_too_many_results threePageService {} rfl (by decide)

/-- C5: when the service delivers exactly one VPC for the request of `FindVPCByID`, the
finder returns no object and a `NotFound` error if the value of its `VpcId` differs from
the requested id, and returns that VPC with a nil error if it equals the requested id. -/
theorem FindVPCByID_identity_check (conn : EC2) (id : String) (v : Vpc)
    (herr : (conn.describeVpcs { VpcIds := StringSlice [id] }).err = none)
    (hone : (deliveredVpcs conn { VpcIds := StringSlice [id] }).filter Option.isSome
      = [some v]) :
    (StringValue v.VpcId ≠ id →
      FindVPCByID conn id =
        (none, some (.notFound { LastRequest := some { VpcIds := StringSlice [id] } }))) ∧
    (StringValue v.VpcId = id → FindVPCByID conn id = (some v, none)) := by
  have hmany := FindVPCs_no_error conn _ herr
  rw [hone] at hmany
  have hsingle := FindVPC_of_FindVPCs_ok conn _ _ hmany
  simp only [List.length_singleton, gt_iff_lt, lt_self_iff_false, if_false] at hsingle
  constructor
  · intro hne
    unfold FindVPCByID
    simp only [hsingle]
    rw [if_pos hne]
  · intro heq
    unfold FindVPCByID
    simp only [hsingle]
    rw [if_neg (not_not.mpr heq)]

/-- A stale read (`vpc-1` returned for `vpc-9`) is `NotFound`; a matching read is
returned as it is. -/
theorem FindVPCByID_identity_check_example :
    FindVPCByID oneVpcService "vpc-9" =
      (none, some (.notFound { LastRequest := some { VpcIds := StringSlice ["vpc-9"] } })) ∧
    FindVPCByID oneVpcService "vpc-1" = (some (vpcWithId "vpc-1"), none) :=
  ⟨(FindVPCByID_identity_check oneVpcService "vpc-9" (vpcWithId "vpc-1") rfl rfl).1
      (by decide),
    (FindVPCByID_identity_check oneVpcService "vpc-1" (vpcWithId "vpc-1") rfl rfl).2
      (by decide)⟩

/-- C9: when the paginated `DescribeVpcs` call ends with a transport error whose code is
`InvalidVpcID.NotFound`, `FindVPCs` returns no elements and a `NotFound` error whose
`LastError` is exactly that error and whose `LastRequest` is the query. -/
theorem FindVPCs_invalid_id_not_found (conn : EC2) (input : DescribeVpcsInput)
    (msg : String)
    (herr : (conn.describeVpcs input).err = some (.awsErr ErrCodeInvalidVpcIDNotFound msg)) :
    FindVPCs conn input =
      ([], some (.notFound
        { LastError := some (.awsErr ErrCodeInvalidVpcIDNotFound msg),
          LastRequest := some input })) := by
  rw [FindVPCs_pages, herr]
  simp [ErrCodeEquals]

/-- The rewrite of `InvalidVpcID.NotFound`, after one page was already delivered. -/
theorem FindVPCs_invalid_id_not_found_example :
    FindVPCs (failingVpcService (.awsErr "InvalidVpcID.NotFound" "no such VPC")) {} =
      ([], some (.notFound
        { LastError := some (.awsErr "InvalidVpcID.NotFound" "no such VPC"),
          LastRequest := some {} })) :=
  FindVPCs_invalid_id_not_found
    (failingVpcService (.awsErr "InvalidVpcID.NotFound" "no such VPC")) {} "no such VPC" rfl

/-- C10: when the `DescribeVpcs` call ends with an error `e` whose code is not
`InvalidVpcID.NotFound`, each of `FindVPCs`, `FindVPC` and `FindVPCByID` returns no object
and exactly `e`. -/
theorem FindVPC_transport_error_unchanged (conn : EC2) (input : DescribeVpcsInput)
    (e : BaseError)
    (herr : (conn.describeVpcs input).err = some e)
    (hcode : ∀ msg, e ≠ .awsErr ErrCodeInvalidVpcIDNotFound msg) :
    FindVPCs conn input = ([], some (.base e)) ∧
    FindVPC conn input = (none, some (.base e)) ∧
    ∀ id, input = { VpcIds := StringSlice [id] } →
      FindVPCByID conn id = (none, some (.base e)) := by
  have hmany := FindVPCs_error conn input e herr hcode
  have hsingle : FindVPC conn input = (none, some (.base e)) := by
    unfold FindVPC
    rw [hmany]
  refine ⟨hmany, hsingle, ?_⟩
  intro id hid
  unfold FindVPCByID
  simp only [← hid, hsingle]

/-- A throttling error passes through the three finders as it is. -/
theorem FindVPC_transport_error_unchanged_example :
    FindVPCs (failingVpcService (.awsErr "RequestLimitExceeded" "slow down"))
        { VpcIds := StringSlice ["vpc-1"] }
      = ([], some (.base (.awsErr "RequestLimitExceeded" "slow down"))) ∧
    FindVPC (failingVpcService (.awsErr "RequestLimitExceeded" "slow down"))
        { VpcIds := StringSlice ["vpc-1"] }
      = (none, some (.base (.awsErr "RequestLimitExceeded" "slow down"))) ∧
    FindVPCByID (failingVpcService (.awsErr "RequestLimitExceeded" "slow down")) "vpc-1"
      = (none, some (.base (.awsErr "RequestLimitExceeded" "slow down"))) :=
  have h := FindVPC_transport_error_unchanged
    (failingVpcService (.awsErr "RequestLimitExceeded" "slow down"))
    { VpcIds := StringSlice ["vpc-1"] } (.awsErr "RequestLimitExceeded" "slow down") rfl
    (by intro msg h; simp [ErrCodeInvalidVpcIDNotFound] at h)
  ⟨h.1, h.2.1, h.2.2 "vpc-1" rfl⟩

/-! ## Properties of the endpoint, route table, gateway and peering finders -/

/-- C4: evaluation of `FindVPCEndpoint` on a `DescribeVpcEndpoints` response with two
endpoints: it returns the first endpoint with a nil error, not a `TooManyResults` error. -/
theorem FindVPCEndpoint_two_endpoints_returns_first :
    FindVPCEndpoint twoEndpointService { VpcEndpointIds := StringSlice ["vpce-1"] } =
      (some (endpointWithId "vpce-1"), none) := by
  decide

/-- The sibling `FindVPNGateway`, on a response with two gateways, returns the
`TooManyResults` error with count 2. -/
theorem FindVPNGateway_two_gateways_too_many :
    FindVPNGateway twoGatewayService { VpnGatewayIds := StringSlice ["vgw-1"] } =
      (none, some (.tooManyResults 2 { VpnGatewayIds := StringSlice ["vgw-1"] })) := by
  decide

/-- C6: evaluation of `FindRouteTableByID` when the service answers the request for
`rtb-1` with the single route table `rtb-2`: the finder returns `rtb-2` with a nil error,
not a `NotFound` error. -/
theorem FindRouteTableByID_stale_read_returned :
    FindRouteTableByID staleRouteTableService "rtb-1" =
      (some (routeTableWithId "rtb-2"), none) := by
  decide

/-- C7: when `DescribeVpnGateways` returns exactly one gateway and its state is `deleted`,
`FindVPNGatewayByID` returns no object and a `NotFound` error whose `Message` is
`deleted`, whether or not the gateway's `VpnGatewayId` equals the requested id. -/
theorem FindVPNGatewayByID_deleted (conn : EC2) (id : String) (g : VpnGateway)
    (hresp : conn.DescribeVpnGateways { VpnGatewayIds := StringSlice [id] } =
      (some { VpnGateways := [some g] }, none))
    (hstate : StringValue g.State = "deleted") :
    FindVPNGatewayByID conn id =
      (none, some (.notFound
        { Message := "deleted", LastRequest := some { VpnGatewayIds := StringSlice [id] } })) := by
  have hsingle : FindVPNGateway conn { VpnGatewayIds := StringSlice [id] } = (some g, none) := by
    unfold FindVPNGateway
    rw [hresp]
    simp [ErrCodeEquals]
  unfold FindVPNGatewayByID
  simp only [hsingle, hstate, VpnStateDeleted]
  simp

/-- A deleted gateway `vgw-1` is `NotFound` with message `deleted`, asked for as `vgw-1`
and asked for as `vgw-2`. -/
theorem FindVPNGatewayByID_deleted_example :
    FindVPNGatewayByID deletedGatewayService "vgw-1" =
      (none, some (.notFound
        { Message := "deleted",
          LastRequest := some { VpnGatewayIds := StringSlice ["vgw-1"] } })) ∧
    FindVPNGatewayByID deletedGatewayService "vgw-2" =
      (none, some (.notFound
        { Message := "deleted",
          LastRequest := some { VpnGatewayIds := StringSlice ["vgw-2"] } })) :=
  ⟨FindVPNGatewayByID_deleted deletedGatewayService "vgw-1"
      (gatewayWithIdAndState "vgw-1" "deleted") rfl rfl,
    FindVPNGatewayByID_deleted deletedGatewayService "vgw-2"
      (gatewayWithIdAndState "vgw-1" "deleted") rfl rfl⟩

theorem FindVPCPeeringConnection_of_single (conn : EC2)
    (input : DescribeVpcPeeringConnectionsInput) (c : VpcPeeringConnection)
    (st : VpcPeeringConnectionStateReason)
    (hone : FindVPCPeeringConnections conn input = ([some c], none))
    (hst : c.Status = some st) :
    FindVPCPeeringConnection conn input = (some c, none) := by
  unfold FindVPCPeeringConnection
  rw [hone]
  simp [hst]

/-- C8: when the plural finder yields exactly one VPC peering connection, with a non-nil
`Status`, `FindVPCPeeringConnectionByID` returns a `NotFound` error carrying the status
code as its message if and only if the code is one of `deleted`, `expired`, `failed`,
`rejected` (and then the error is the `NotFound` with that message and the query); for
every other code it returns the connection when its `VpcPeeringConnectionId` has the
requested value, and the `NotFound` error without message otherwise. -/
theorem FindVPCPeeringConnectionByID_status (conn : EC2) (id : String)
    (c : VpcPeeringConnection) (st : VpcPeeringConnectionStateReason)
    (hone : FindVPCPeeringConnections conn { VpcPeeringConnectionIds := StringSlice [id] } =
      ([some c], none))
    (hst : c.Status = some st) :
    ((∃ e, FindVPCPeeringConnectionByID conn id = (none, some (.notFound e)) ∧
          e.hasMessage (StringValue st.Code)) ↔
      (StringValue st.Code = "deleted" ∨ StringValue st.Code = "expired" ∨
        StringValue st.Code = "failed" ∨ StringValue st.Code = "rejected")) ∧
    ((StringValue st.Code = "deleted" ∨ StringValue st.Code = "expired" ∨
        StringValue st.Code = "failed" ∨ StringValue st.Code = "rejected") →
      FindVPCPeeringConnectionByID conn id =
        (none, some (.notFound
          { Message := StringValue st.Code,
            LastRequest := some { VpcPeeringConnectionIds := StringSlice [id] } }))) ∧
    (¬ (StringValue st.Code = "deleted" ∨ StringValue st.Code = "expired" ∨
        StringValue st.Code = "failed" ∨ StringValue st.Code = "rejected") →
      StringValue c.VpcPeeringConnectionId = id →
      FindVPCPeeringConnectionByID conn id = (some c, none)) ∧
    (¬ (StringValue st.Code = "deleted" ∨ StringValue st.Code = "expired" ∨
        StringValue st.Code = "failed" ∨ StringValue st.Code = "rejected") →
      StringValue c.VpcPeeringConnectionId ≠ id →
      FindVPCPeeringConnectionByID conn id =
        (none, some (.notFound
          { LastRequest := some { VpcPeeringConnectionIds := StringSlice [id] } }))) := by
  have hsingle := FindVPCPeeringConnection_of_single conn _ c st hone hst
  have hrun : FindVPCPeeringConnectionByID conn id =
      if StringValue st.Code = "deleted" ∨ StringValue st.Code = "expired" ∨
          StringValue st.Code = "failed" ∨ StringValue st.Code = "rejected" then
        (none, some (.notFound
          { Message := StringValue st.Code,
            LastRequest := some { VpcPeeringConnectionIds := StringSlice [id] } }))
      else if StringValue c.VpcPeeringConnectionId ≠ id then
        (none, some (.notFound
          { LastRequest := some { VpcPeeringConnectionIds := StringSlice [id] } }))
      else
        (some c, none) := by
    unfold FindVPCPeeringConnectionByID
    simp only [hsingle, hst]
    rfl
  have hterm : (StringValue st.Code = "deleted" ∨ StringValue st.Code = "expired" ∨
        StringValue st.Code = "failed" ∨ StringValue st.Code = "rejected") →
      StringValue st.Code ≠ "" := by
    intro h hempty
    rw [hempty] at h
    revert h
    decide
  refine ⟨⟨?_, ?_⟩, ?_, ?_, ?_⟩
  · rintro ⟨e, he, hmsg, hnonempty⟩
    by_contra hnot
    rw [hrun, if_neg hnot] at he
    by_cases hid : StringValue c.VpcPeeringConnectionId ≠ id
    · rw [if_pos hid] at he
      have he2 : e = { LastRequest := some { VpcPeeringConnectionIds := StringSlice [id] } } := by
        simpa using he.symm
      rw [he2] at hnonempty
      exact hnonempty rfl
    · rw [if_neg hid] at he
      simp at he
  · intro h
    exact ⟨_, by rw [hrun, if_pos h], rfl, hterm h⟩
  · intro h
    rw [hrun, if_pos h]
  · intro hnot hid
    rw [hrun, if_neg hnot, if_neg (not_not.mpr hid)]
  · intro hnot hid
    rw [hrun, if_neg hnot, if_pos hid]

/-- A rejected connection is `NotFound` with message `rejected`; an active one is returned
when asked for by its own id and is `NotFound` without message when asked for by another. -/
theorem FindVPCPeeringConnectionByID_status_example :
    (∃ e, FindVPCPeeringConnectionByID (onePeeringService "rejected") "pcx-1" =
        (none, some (.notFound e)) ∧ e.hasMessage "rejected") ∧
    FindVPCPeeringConnectionByID (onePeeringService "active") "pcx-1" =
      (some (peeringWithStatus "active"), none) ∧
    FindVPCPeeringConnectionByID (onePeeringService "active") "pcx-9" =
      (none, some (.notFound
        { LastRequest := some { VpcPeeringConnectionIds := StringSlice ["pcx-9"] } })) :=
  ⟨(FindVPCPeeringConnectionByID_status (onePeeringService "rejected") "pcx-1"
      (peeringWithStatus "rejected") { Code := some "rejected" } (by decide) rfl).1.mpr
      (by decide),
    (FindVPCPeeringConnectionByID_status (onePeeringService "active") "pcx-1"
      (peeringWithStatus "active") { Code := some "active" } (by decide) rfl).2.2.1
      (by decide) (by decide),
    (FindVPCPeeringConnectionByID_status (onePeeringService "active") "pcx-9"
      (peeringWithStatus "active") { Code := some "active" } (by decide) rfl).2.2.2
      (by decide) (by decide)⟩

/-! ## Outcomes of the VPC lookup -/

theorem FindVPC_outcome (conn : EC2) (input : DescribeVpcsInput) :
    (∃ v, FindVPC conn input = (some v, none)) ∨
    (∃ e, FindVPC conn input = (none, some e) ∧
      (NotFound (some e) = true ∨ (∃ n, e = .tooManyResults n input) ∨
        (∃ t, (conn.describeVpcs input).err = some t ∧ e = .base t))) := by
  unfold FindVPC
  rw [FindVPCs_pages]
  by_cases hcode : ErrCodeEquals (conn.describeVpcs input).err ErrCodeInvalidVpcIDNotFound = true
  · right
    rw [if_pos hcode]
    exact ⟨_, rfl, Or.inl rfl⟩
  · rw [if_neg hcode]
    cases herr : (conn.describeVpcs input).err with
    | some t =>
      right
      exact ⟨_, rfl, Or.inr (Or.inr ⟨t, rfl, rfl⟩)⟩
    | none =>
      simp only
      cases hout : (deliveredVpcs conn input).filter Option.isSome with
      | nil =>
        right
        exact ⟨_, rfl, Or.inl rfl⟩
      | cons x rest =>
        cases x with
        | none =>
          right
          exact ⟨_, rfl, Or.inl rfl⟩
        | some v =>
          by_cases hlen : (some v :: rest).length > 1
          · right
            simp only [if_pos hlen]
            exact ⟨_, rfl, Or.inr (Or.inl ⟨_, rfl⟩)⟩
          · left
            simp only [if_neg hlen]
            exact ⟨v, rfl⟩

/-- C11: for every behaviour of the service, `FindVPCByID` returns either a VPC with a nil
error, or no VPC with an error that is a `NotFound`, a `TooManyResults` or the error the
`DescribeVpcs` call ended with; it never returns nil with nil, nor a VPC with an error. -/
theorem FindVPCByID_outcomes (conn : EC2) (id : String) :
    ((∃ v, FindVPCByID conn id = (some v, none)) ∨
      (∃ e, FindVPCByID conn id = (none, some e) ∧
        (NotFound (some e) = true ∨
          (∃ n, e = .tooManyResults n { VpcIds := StringSlice [id] }) ∨
          (∃ t, (conn.describeVpcs { VpcIds := StringSlice [id] }).err = some t ∧
            e = .base t)))) ∧
    FindVPCByID conn id ≠ (none, none) ∧
    (∀ v e, FindVPCByID conn id ≠ (some v, some e)) := by
  have key : (∃ v, FindVPCByID conn id = (some v, none)) ∨
      (∃ e, FindVPCByID conn id = (none, some e) ∧
        (NotFound (some e) = true ∨
          (∃ n, e = .tooManyResults n { VpcIds := StringSlice [id] }) ∨
          (∃ t, (conn.describeVpcs { VpcIds := StringSlice [id] }).err = some t ∧
            e = .base t))) := by
    unfold FindVPCByID
    rcases FindVPC_outcome conn { VpcIds := StringSlice [id] } with ⟨v, hv⟩ | ⟨e, he, hkind⟩
    · simp only [hv]
      by_cases hid : StringValue v.VpcId ≠ id
      · right
        rw [if_pos hid]
        exact ⟨_, rfl, Or.inl rfl⟩
      · left
        rw [if_neg hid]
        exact ⟨v, rfl⟩
    · right
      simp only [he]
      exact ⟨e, rfl, hkind⟩
  refine ⟨key, ?_, ?_⟩
  · rcases key with ⟨v, hv⟩ | ⟨e, he, _⟩
    · rw [hv]; simp
    · rw [he]; simp
  · intro v e
    rcases key with ⟨w, hw⟩ | ⟨e2, he, _⟩
    · rw [hw]; simp
    · rw [he]; simp

/-! ## Properties of the sub-object finders -/

/-- The loop of `FindRouteByIPv4Destination` over routes of which none goes to the
destination: it runs to its end when no element is nil and reads through the nil pointer
when one is. -/
theorem FindRouteByIPv4Destination_loop_without_match (verify : Verify)
    (destinationCidr : String) (routes : List (Option Route))
    (hnone : ∀ route, some route ∈ routes →
      verify.CIDRBlocksEqual (StringValue route.DestinationCidrBlock) destinationCidr = false) :
    (none ∉ routes → FindRouteByIPv4Destination.loop verify destinationCidr routes = none) ∧
    (none ∈ routes →
      FindRouteByIPv4Destination.loop verify destinationCidr routes =
        some (none, some .nilDereference)) := by
  induction routes with
  | nil => exact ⟨fun _ => rfl, fun h => absurd h (List.not_mem_nil _)⟩
  | cons r rest ih =>
    have ih2 := ih (fun route hr => hnone route (List.mem_cons_of_mem _ hr))
    cases r with
    | none =>
      exact ⟨fun h => absurd (List.mem_cons_self _ _) h, fun _ => rfl⟩
    | some route =>
      have hroute := hnone route (List.mem_cons_self _ _)
      simp only [FindRouteByIPv4Destination.loop, hroute, Bool.false_eq_true, if_false,
        List.mem_cons, false_or, reduceCtorEq]
      exact ih2

/-- C12, as stated, does not hold: for the route table `rtb-1` that `FindRouteTableByID`
returns and a destination that none of its routes equals, the `NotFound` error of
`FindRouteByIPv4Destination` has a `LastError`. -/
theorem FindRouteByIPv4Destination_not_found_has_last_error :
    FindRouteTableByID routedService "rtb-1" = (some exampleRouteTable, none) ∧
    exampleRouteTable.Routes = exampleRoutes.map some ∧
    (∀ route ∈ exampleRoutes,
      exampleVerify.CIDRBlocksEqual (StringValue route.DestinationCidrBlock) "192.168.0.0/16"
        = false) ∧
    ¬ ∃ e, (FindRouteByIPv4Destination exampleVerify routedService "rtb-1"
        "192.168.0.0/16").2 = some (.notFound e) ∧ e.LastError = none := by
  refine ⟨by decide, rfl, by decide, ?_⟩
  rintro ⟨e, he, hlast⟩
  have hrun : (FindRouteByIPv4Destination exampleVerify routedService "rtb-1"
      "192.168.0.0/16").2 = some (.notFound
        { LastError := some (.errorString
            "Route in Route Table (rtb-1) with IPv4 destination (192.168.0.0/16) not found") }) := by
    decide
  rw [hrun] at he
  simp only [Option.some.injEq, FindError.notFound.injEq] at he
  rw [← he] at hlast
  simp at hlast

/-- C12, amended: for every route table that `FindRouteTableByID` returns and every
destination that none of its routes equals under `CIDRBlocksEqual`: when no element of
`Routes` is nil, `FindRouteByIPv4Destination` returns no route and a `NotFound` error
without request and message whose `LastError` is the error with the text `Route in Route
Table (<id>) with IPv4 destination (<destination>) not found`; when an element of `Routes`
is nil, the loop reads `DestinationCidrBlock` through the nil pointer. -/
theorem FindRouteByIPv4Destination_no_match (verify : Verify) (conn : EC2)
    (routeTableID destinationCidr : String) (routeTable : RouteTable)
    (hfound : FindRouteTableByID conn routeTableID = (some routeTable, none))
    (hnone : ∀ route, some route ∈ routeTable.Routes →
      verify.CIDRBlocksEqual (StringValue route.DestinationCidrBlock) destinationCidr = false) :
    (none ∉ routeTable.Routes →
      FindRouteByIPv4Destination verify conn routeTableID destinationCidr =
        (none, some (.notFound
          { LastError := some (.errorString
              ("Route in Route Table (" ++ routeTableID ++ ") with IPv4 destination ("
                ++ destinationCidr ++ ") not found")),
            LastRequest := none, Message := "" }))) ∧
    (none ∈ routeTable.Routes →
      FindRouteByIPv4Destination verify conn routeTableID destinationCidr =
        (none, some .nilDereference)) := by
  have hloop := FindRouteByIPv4Destination_loop_without_match verify destinationCidr
    routeTable.Routes hnone
  constructor
  · intro hnil
    unfold FindRouteByIPv4Destination
    simp only [hfound, hloop.1 hnil]
  · intro hnil
    unfold FindRouteByIPv4Destination
    simp only [hfound, hloop.2 hnil]

/-- No route of `rtb-1` goes to `192.168.0.0/16`: the `NotFound` error names the route
table and the destination in its `LastError`; with a nil element after the local route the
lookup reads through the nil pointer. -/
theorem FindRouteByIPv4Destination_no_match_example :
    FindRouteByIPv4Destination exampleVerify routedService "rtb-1" "192.168.0.0/16" =
      (none, some (.notFound
        { LastError := some (.errorString
            "Route in Route Table (rtb-1) with IPv4 destination (192.168.0.0/16) not found") })) ∧
    FindRouteByIPv4Destination exampleVerify nilRouteService "rtb-1" "192.168.0.0/16" =
      (none, some .nilDereference) :=
  ⟨(FindRouteByIPv4Destination_no_match exampleVerify routedService "rtb-1" "192.168.0.0/16"
      exampleRouteTable (by decide)
      (by
        intro route h
        simp only [exampleRouteTable, exampleRoutes, List.map_cons, List.map_nil,
          List.mem_cons, Option.some.injEq, List.mem_singleton, List.not_mem_nil,
          or_false] at h
        rcases h with h | h <;> rw [h] <;> decide)).1 (by decide),
    (FindRouteByIPv4Destination_no_match exampleVerify nilRouteService "rtb-1"
      "192.168.0.0/16" routeTableWithNilRoute (by decide)
      (by
        intro route h
        simp only [routeTableWithNilRoute, List.mem_cons, Option.some.injEq,
          List.mem_singleton, List.not_mem_nil, or_false, reduceCtorEq] at h
        rw [h]
        decide)).2 (by decide)⟩

theorem FindNetworkACLAssociationByID_loop_eq (associationID : String)
    (assocs : List NetworkAclAssociation) :
    FindNetworkACLAssociationByID.loop associationID (assocs.map some) =
      (assocs.find? (fun a => decide (StringValue a.NetworkAclAssociationId = associationID))).map
        (fun a => (some a, none)) := by
  induction assocs with
  | nil => rfl
  | cons a rest ih =>
    simp only [List.map_cons, FindNetworkACLAssociationByID.loop, List.find?_cons]
    by_cases h : StringValue a.NetworkAclAssociationId = associationID
    · simp [h]
    · simp [h, ih]

/-- What `FindNetworkACLAssociationByID` does when no element of the ACL's `Associations`
is nil: it returns the first association in collection order whose
`NetworkAclAssociationId` is the requested string, and it returns the `NotFound` error
without wrapped error, request and message if and only if no association has that ID. -/
theorem FindNetworkACLAssociationByID_first_match
    (BuildAttributeFilterList : AttributeFilterBuilder) (conn : EC2) (associationID : String)
    (acl : NetworkAcl) (assocs : List NetworkAclAssociation)
    (hfound : FindNetworkACL conn
      { Filters := BuildAttributeFilterList [("association.association-id", associationID)] }
      = (some acl, none))
    (hassocs : acl.Associations = assocs.map some) :
    (∀ a, assocs.find? (fun a => decide (StringValue a.NetworkAclAssociationId = associationID))
        = some a →
      FindNetworkACLAssociationByID BuildAttributeFilterList conn associationID
        = (some a, none)) ∧
    (FindNetworkACLAssociationByID BuildAttributeFilterList conn associationID
        = (none, some (.notFound { LastError := none, LastRequest := none, Message := "" })) ↔
      ∀ a ∈ assocs, StringValue a.NetworkAclAssociationId ≠ associationID) := by
  have hrun : FindNetworkACLAssociationByID BuildAttributeFilterList conn associationID =
      match (assocs.find?
          (fun a => decide (StringValue a.NetworkAclAssociationId = associationID))).map
          (fun a => ((some a : Option NetworkAclAssociation),
            (none : Option (FindError DescribeNetworkAclsInput)))) with
      | some result => result
      | none => (none, some (.notFound {})) := by
    unfold FindNetworkACLAssociationByID
    simp only [hfound, hassocs, FindNetworkACLAssociationByID_loop_eq]
  constructor
  · intro a ha
    rw [hrun, ha]
    rfl
  · rw [hrun]
    cases hfind : assocs.find?
        (fun a => decide (StringValue a.NetworkAclAssociationId = associationID)) with
    | none =>
      simp only [Option.map_none', true_iff]
      intro a ha
      have := List.find?_eq_none.mp hfind a ha
      simpa using this
    | some a =>
      simp only [Option.map_some']
      constructor
      · intro h
        simp at h
      · intro h
        have hmem := List.mem_of_find?_eq_some hfind
        have hp := List.find?_some hfind
        exact absurd (by simpa using hp) (h a hmem)

/-- In the example ACL, `aclassoc-2` is found at its first occurrence (subnet-2), and
`aclassoc-9` is `NotFound`. -/
theorem FindNetworkACLAssociationByID_first_match_example :
    FindNetworkACLAssociationByID exampleFilterList aclService "aclassoc-2" =
      (some { NetworkAclAssociationId := some "aclassoc-2", NetworkAclId := some "acl-1",
              SubnetId := some "subnet-2" }, none) ∧
    FindNetworkACLAssociationByID exampleFilterList aclService "aclassoc-9" =
      (none, some (.notFound {})) :=
  ⟨(FindNetworkACLAssociationByID_first_match exampleFilterList aclService "aclassoc-2"
      exampleNetworkAcl exampleAssociations (by decide) rfl).1 _ (by decide),
    (FindNetworkACLAssociationByID_first_match exampleFilterList aclService "aclassoc-9"
      exampleNetworkAcl exampleAssociations (by decide) rfl).2.mpr (by decide)⟩

/-- The sibling loop of `FindTransitGatewayRoute` tests each element before reading it: a
nil element before the matching route is passed over. -/
theorem FindTransitGatewayRoute_skips_nil_route :
    FindTransitGatewayRoute exampleVerify exampleFilterList nilFirstTransitRouteService
        "tgw-rtb-1" "10.0.0.0/8" =
      (some { DestinationCidrBlock := some "10.0.0.0/8", State := some "active" }, none) := by
  decide

theorem FindTransitGatewayRoute_loop_eq (verify : Verify)
    (input : SearchTransitGatewayRoutesInput) (destination : String)
    (routes : List (Option TransitGatewayRoute)) :
    FindTransitGatewayRoute.loop verify input destination routes =
      ((routes.filterMap id).find? (fun route =>
          verify.CIDRBlocksEqual (StringValue route.DestinationCidrBlock) destination)).map
        (fun route =>
          if StringValue route.State = TransitGatewayRouteStateDeleted then
            (none, some (.notFound
              { Message := StringValue route.State, LastRequest := some input }))
          else
            (some { route with
                DestinationCidrBlock :=
                  some (verify.CanonicalCIDRBlock (StringValue route.DestinationCidrBlock)) },
              none)) := by
  induction routes with
  | nil => rfl
  | cons r rest ih =>
    cases r with
    | none => simpa [FindTransitGatewayRoute.loop] using ih
    | some route =>
      simp only [FindTransitGatewayRoute.loop, List.filterMap_cons, id, List.find?_cons]
      by_cases h : verify.CIDRBlocksEqual (StringValue route.DestinationCidrBlock) destination
          = true
      · by_cases hs : StringValue route.State = TransitGatewayRouteStateDeleted <;>
          simp [h, hs]
      · simp [h, ih]

/-- C14: for every successful `SearchTransitGatewayRoutes` response and destination, when
the first non-nil route whose `DestinationCidrBlock` is equal to the destination under
`CIDRBlocksEqual` is not in state `deleted`, `FindTransitGatewayRoute` returns that route
with `DestinationCidrBlock` replaced by the canonical form of its stored text and every
other field unchanged. -/
theorem FindTransitGatewayRoute_returns_canonical (verify : Verify)
    (BuildAttributeFilterList : AttributeFilterBuilder) (conn : EC2)
    (transitGatewayRouteTableID destination : String)
    (output : SearchTransitGatewayRoutesOutput) (route : TransitGatewayRoute)
    (hresp : conn.SearchTransitGatewayRoutes
      { Filters := BuildAttributeFilterList [("type", "static")],
        TransitGatewayRouteTableId := some transitGatewayRouteTableID } = (some output, none))
    (hfirst : (output.Routes.filterMap id).find? (fun r =>
      verify.CIDRBlocksEqual (StringValue r.DestinationCidrBlock) destination) = some route)
    (hstate : StringValue route.State ≠ "deleted") :
    FindTransitGatewayRoute verify BuildAttributeFilterList conn transitGatewayRouteTableID
        destination =
      (some { DestinationCidrBlock :=
                some (verify.CanonicalCIDRBlock (StringValue route.DestinationCidrBlock)),
              PrefixListId := route.PrefixListId,
              State := route.State,
              TransitGatewayAttachments := route.TransitGatewayAttachments,
              Type_ := route.Type_ }, none) := by
  have hne : output.Routes.length ≠ 0 := by
    intro h0
    have hnil : output.Routes = [] := List.length_eq_zero.mp h0
    rw [hnil] at hfirst
    simp at hfirst
  unfold FindTransitGatewayRoute
  simp only [TransitGatewayRouteTypeStatic, hresp, ErrCodeEquals, Bool.false_eq_true,
    if_false, if_neg hne, FindTransitGatewayRoute_loop_eq, hfirst, Option.map_some',
    TransitGatewayRouteStateDeleted, if_neg hstate]

/-- The route stored as `2001:0db8::/32` is found for the destination `2001:db8::/32` and
returned with the canonical text, its other fields as stored. -/
theorem FindTransitGatewayRoute_returns_canonical_example :
    FindTransitGatewayRoute exampleVerify exampleFilterList transitRouteService "tgw-rtb-1"
        "2001:db8::/32" =
      (some { exampleTransitGatewayRoute with DestinationCidrBlock := some "2001:db8::/32" },
        none) :=
  FindTransitGatewayRoute_returns_canonical exampleVerify exampleFilterList
    transitRouteService "tgw-rtb-1" "2001:db8::/32" _ exampleTransitGatewayRoute rfl
    (by decide) (by decide)

/-- C15: evaluation of `FindManagedPrefixListEntryByIDAndCIDR` on a prefix list whose only
entry is `2001:db8::/32`, queried with the other notation `2001:0db8::/32` of the same
block: the plural finder delivers the entry, and the lookup returns `NotFound`. -/
theorem FindManagedPrefixListEntryByIDAndCIDR_other_notation_not_found :
    exampleVerify.CIDRBlocksEqual "2001:db8::/32" "2001:0db8::/32" = true ∧
    FindManagedPrefixListEntriesByID prefixListService "pl-1" =
      ([some { Cidr := some "2001:db8::/32", Description := some "documentation" }], none) ∧
    FindManagedPrefixListEntryByIDAndCIDR prefixListService "pl-1" "2001:0db8::/32" =
      (none, some (.notFound {})) := by
  decide

/-- The sibling `FindRouteByIPv4Destination` compares with `CIDRBlocksEqual`: a route
stored in one notation is found when asked for in the other. -/
theorem FindRouteByIPv4Destination_other_notation_found :
    FindRouteByIPv4Destination exampleVerify
        { describeRouteTables := fun _ =>
            { pages := [some { RouteTables :=
                [some { Routes := [some { DestinationCidrBlock := some "2001:db8::/32" }] }] }] } }
        "rtb-1" "2001:0db8::/32" =
      (some { DestinationCidrBlock := some "2001:db8::/32" }, none) := by
  decide

/-! ## Properties of the attribute finder and of the carrier gateway finder -/

/-- C16: when `DescribeVpcAttribute` succeeds with a non-nil output, `FindVPCAttribute`
returns, for `enableDnsHostnames`, the boolean of the output's `EnableDnsHostnames` and,
for `enableDnsSupport`, that of `EnableDnsSupport` (false for a nil inner value); when the
selected field is nil it returns false and the empty-result `NotFound` error.  The result
is a function of the selected field alone. -/
theorem FindVPCAttribute_selected_field (conn : EC2) (vpcID attributeName : String)
    (output : DescribeVpcAttributeOutput)
    (hattr : attributeName = "enableDnsHostnames" ∨ attributeName = "enableDnsSupport")
    (hresp : conn.DescribeVpcAttribute
      { Attribute := some attributeName, VpcId := some vpcID } = (some output, none)) :
    FindVPCAttribute conn vpcID attributeName =
      (match (if attributeName = "enableDnsHostnames" then output.EnableDnsHostnames
              else output.EnableDnsSupport) with
        | some v => (v.Value.getD false, none)
        | none =>
          (false,
            some (.emptyResult { Attribute := some attributeName, VpcId := some vpcID }))) ∧
    NotFound (some (FindError.emptyResult
      ({ Attribute := some attributeName, VpcId := some vpcID } : DescribeVpcAttributeInput)))
      = true := by
  refine ⟨?_, rfl⟩
  unfold FindVPCAttribute
  simp only [hresp, ErrCodeEquals, Bool.false_eq_true, if_false,
    VpcAttributeNameEnableDnsHostnames, VpcAttributeNameEnableDnsSupport,
    NewEmptyResultError]
  rcases hattr with h | h
  · subst h
    simp only [if_true]
    cases output.EnableDnsHostnames with
    | none => rfl
    | some v => cases v with
      | mk val => cases val <;> rfl
  · subst h
    have hne : ¬ ("enableDnsSupport" = "enableDnsHostnames") := by decide
    simp only [if_neg hne, if_true]
    cases output.EnableDnsSupport with
    | none => rfl
    | some v => cases v with
      | mk val => cases val <;> rfl

/-- DNS hostnames enabled and DNS support disabled are read from their own fields. -/
theorem FindVPCAttribute_selected_field_example :
    FindVPCAttribute vpcAttributeService "vpc-1" "enableDnsHostnames" = (true, none) ∧
    FindVPCAttribute vpcAttributeService "vpc-1" "enableDnsSupport" = (false, none) :=
  ⟨(FindVPCAttribute_selected_field vpcAttributeService "vpc-1" "enableDnsHostnames" _
      (Or.inl rfl) rfl).1,
    (FindVPCAttribute_selected_field vpcAttributeService "vpc-1" "enableDnsSupport" _
      (Or.inr rfl) rfl).1⟩

/-- C17: for every attribute name other than `enableDnsHostnames` and `enableDnsSupport`,
when the describe call succeeds with a non-nil output, `FindVPCAttribute` returns false and
the error `unsupported VPC attribute: <name>`, which is not a `NotFound` error. -/
theorem FindVPCAttribute_unsupported (conn : EC2) (vpcID attributeName : String)
    (output : DescribeVpcAttributeOutput)
    (hhost : attributeName ≠ "enableDnsHostnames")
    (hsupport : attributeName ≠ "enableDnsSupport")
    (hresp : conn.DescribeVpcAttribute
      { Attribute := some attributeName, VpcId := some vpcID } = (some output, none)) :
    FindVPCAttribute conn vpcID attributeName =
      (false, some (.base (.errorString ("unsupported VPC attribute: " ++ attributeName)))) ∧
    NotFound (FindVPCAttribute conn vpcID attributeName).2 = false := by
  have hrun : FindVPCAttribute conn vpcID attributeName =
      (false, some (.base (.errorString ("unsupported VPC attribute: " ++ attributeName)))) := by
    unfold FindVPCAttribute
    simp only [hresp, ErrCodeEquals, Bool.false_eq_true, if_false,
      VpcAttributeNameEnableDnsHostnames, VpcAttributeNameEnableDnsSupport,
      if_neg hhost, if_neg hsupport]
  exact ⟨hrun, by rw [hrun]; rfl⟩

/-- The attribute `enableClassicLink` is not supported by `FindVPCAttribute`. -/
theorem FindVPCAttribute_unsupported_example :
    FindVPCAttribute vpcAttributeService "vpc-1" "enableClassicLink" =
      (false, some (.base (.errorString "unsupported VPC attribute: enableClassicLink"))) ∧
    NotFound (FindVPCAttribute vpcAttributeService "vpc-1" "enableClassicLink").2 = false :=
  FindVPCAttribute_unsupported vpcAttributeService "vpc-1" "enableClassicLink" _
    (by decide) (by decide) rfl

/-- C18: `FindCarrierGatewayByID` returns the first carrier gateway of a non-empty
response with a nil error; it returns nil with a nil error when the call succeeds with a
nil output or with no carrier gateway; and it returns nil with exactly the call's error
when the call fails. -/
theorem FindCarrierGatewayByID_results (conn : EC2) (id : String) :
    (∀ output first rest,
      conn.DescribeCarrierGateways { CarrierGatewayIds := StringSlice [id] }
        = (some output, none) →
      output.CarrierGateways = first :: rest →
      FindCarrierGatewayByID conn id = (first, none)) ∧
    (conn.DescribeCarrierGateways { CarrierGatewayIds := StringSlice [id] } = (none, none) →
      FindCarrierGatewayByID conn id = (none, none)) ∧
    (∀ output,
      conn.DescribeCarrierGateways { CarrierGatewayIds := StringSlice [id] }
        = (some output, none) →
      output.CarrierGateways = [] →
      FindCarrierGatewayByID conn id = (none, none)) ∧
    (∀ output e,
      conn.DescribeCarrierGateways { CarrierGatewayIds := StringSlice [id] }
        = (output, some e) →
      FindCarrierGatewayByID conn id = (none, some (.base e))) := by
  refine ⟨?_, ?_, ?_, ?_⟩
  · intro output first rest hresp hlist
    unfold FindCarrierGatewayByID
    simp only [hresp, hlist]
  · intro hresp
    unfold FindCarrierGatewayByID
    simp only [hresp]
  · intro output hresp hlist
    unfold FindCarrierGatewayByID
    simp only [hresp, hlist]
  · intro output e hresp
    unfold FindCarrierGatewayByID
    simp only [hresp]

/-- Two gateways: the first is returned; no gateway: nil and nil; a failing call: its
error. -/
theorem FindCarrierGatewayByID_results_example :
    FindCarrierGatewayByID carrierGatewayService "cagw-1" =
      (some (carrierGatewayWithId "cagw-1"), none) ∧
    FindCarrierGatewayByID {} "cagw-1" = (none, none) ∧
    FindCarrierGatewayByID noCarrierGatewayService "cagw-1" = (none, none) ∧
    FindCarrierGatewayByID
        (failingCarrierGatewayService (.awsErr "UnauthorizedOperation" "denied")) "cagw-1" =
      (none, some (.base (.awsErr "UnauthorizedOperation" "denied"))) :=
  ⟨(FindCarrierGatewayByID_results carrierGatewayService "cagw-1").1 _ _ _ rfl rfl,
    (FindCarrierGatewayByID_results {} "cagw-1").2.1 rfl,
    (FindCarrierGatewayByID_results noCarrierGatewayService "cagw-1").2.2.1 _ rfl rfl,
    (FindCarrierGatewayByID_results
      (failingCarrierGatewayService (.awsErr "UnauthorizedOperation" "denied"))
      "cagw-1").2.2.2 _ _ rfl⟩

end Ec2Find

/-! # Properties of the resource handlers -/

namespace Rum

open Ec2Find Schema

theorem ErrCodeEquals_other_code (e : BaseError) (code : String)
    (hcode : ∀ msg, e ≠ .awsErr code msg) : ErrCodeEquals (some e) code = false := by
  cases e with
  | awsErr c m =>
    have hc : c ≠ code := fun hc => hcode m (by rw [hc])
    simp [ErrCodeEquals, hc]
  | errorString t => rfl

/-- C19: `resourceAppMonitorDelete` returns no diagnostics when `DeleteAppMonitor`
succeeds or fails with the code `ResourceNotFoundException`, and an error diagnostic for
every other error of the call; `resourceEndpointDelete` returns nil when `DeleteEndpoint`
fails with `ResourceNotFoundFault`, having taken no step after the `DeleteEndpoint` call
(it does not wait for the deletion). -/
theorem delete_handlers_not_found_is_success :
    (∀ (d : ResourceData) (meta : AWSClient),
      (meta.CloudWatchRUMConn.DeleteAppMonitorWithContext { Name := some d.Id } = none →
        resourceAppMonitorDelete d meta = []) ∧
      (∀ msg,
        meta.CloudWatchRUMConn.DeleteAppMonitorWithContext { Name := some d.Id }
          = some (.awsErr "ResourceNotFoundException" msg) →
        resourceAppMonitorDelete d meta = []) ∧
      (∀ e,
        meta.CloudWatchRUMConn.DeleteAppMonitorWithContext { Name := some d.Id } = some e →
        (∀ msg, e ≠ .awsErr "ResourceNotFoundException" msg) →
        resourceAppMonitorDelete d meta =
          [{ Severity := .Error,
             Summary := "error deleting CloudWatch RUM App Monitor (" ++ d.Id ++ "): "
               ++ errorText e }] ∧
        HasError (resourceAppMonitorDelete d meta) = true)) ∧
    (∀ (waitEndpointDeleted : DMS.DatabaseMigrationService → String → Option BaseError)
        (d : ResourceData) (meta : DMS.AWSClient) (msg : String),
      meta.DMSConn.DeleteEndpoint { EndpointArn := some (d.GetString "endpoint_arn") }
        = some (.awsErr "ResourceNotFoundFault" msg) →
      DMS.resourceEndpointDelete waitEndpointDeleted d meta =
        ([.DeleteEndpoint { EndpointArn := some (d.GetString "endpoint_arn") }], none)) := by
  constructor
  · intro d meta
    refine ⟨?_, ?_, ?_⟩
    · intro h
      unfold resourceAppMonitorDelete
      simp only [h]
    · intro msg h
      unfold resourceAppMonitorDelete
      simp [h, ErrCodeEquals, ErrCodeResourceNotFoundException]
    · intro e h hcode
      have hrun : resourceAppMonitorDelete d meta =
          [{ Severity := .Error,
             Summary := "error deleting CloudWatch RUM App Monitor (" ++ d.Id ++ "): "
               ++ errorText e }] := by
        unfold resourceAppMonitorDelete
        simp only [h, ErrCodeResourceNotFoundException,
          ErrCodeEquals_other_code e _ hcode, Bool.false_eq_true, if_false]
        rfl
      exact ⟨hrun, by rw [hrun]; rfl⟩
  · intro wait d meta msg h
    unfold DMS.resourceEndpointDelete
    simp [h, ErrCodeEquals, DMS.ErrCodeResourceNotFoundFault]

/-- Deleting a monitor that is already gone succeeds, a denied deletion is an error
diagnostic, and deleting a DMS endpoint that is already gone returns nil after the single
`DeleteEndpoint` step, whatever the wait would have returned. -/
theorem delete_handlers_not_found_is_success_example :
    resourceAppMonitorDelete existingMonitorData
        (failingClient (.awsErr "ResourceNotFoundException" "gone")) = [] ∧
    resourceAppMonitorDelete existingMonitorData {} = [] ∧
    HasError (resourceAppMonitorDelete existingMonitorData
        (failingClient (.awsErr "AccessDeniedException" "denied"))) = true ∧
    DMS.resourceEndpointDelete (fun _ _ => some (.errorString "timeout")) DMS.endpointData
        (DMS.failingClient (.awsErr "ResourceNotFoundFault" "gone")) =
      ([.DeleteEndpoint
          { EndpointArn := some "arn:aws:dms:us-east-1:123456789012:endpoint:E1" }], none) :=
  ⟨(delete_handlers_not_found_is_success.1 existingMonitorData
      (failingClient (.awsErr "ResourceNotFoundException" "gone"))).2.1 "gone" rfl,
    (delete_handlers_not_found_is_success.1 existingMonitorData {}).1 rfl,
    ((delete_handlers_not_found_is_success.1 existingMonitorData
      (failingClient (.awsErr "AccessDeniedException" "denied"))).2.2 _ rfl
      (by intro msg h; simp at h)).2,
    delete_handlers_not_found_is_success.2 (fun _ _ => some (.errorString "timeout"))
      DMS.endpointData (DMS.failingClient (.awsErr "ResourceNotFoundFault" "gone")) "gone" rfl⟩

/-- C20: when the lookup of the app monitor fails with `ResourceNotFoundException` or
returns a nil monitor with no error, `resourceAppMonitorRead` on a resource that is not new
sets the resource ID to the empty string, leaves the attributes as they were and returns no
diagnostics; on a new resource it returns an error diagnostic and leaves the resource data,
the ID included, as it was; and every other lookup error gives an error diagnostic. -/
theorem resourceAppMonitorRead_not_found (d : ResourceData) (meta : AWSClient) :
    (d.IsNewResource = false →
      ((∃ msg, (FindAppMonitorByName meta.CloudWatchRUMConn (d.GetString "name")).2
          = some (.awsErr "ResourceNotFoundException" msg)) ∨
        FindAppMonitorByName meta.CloudWatchRUMConn (d.GetString "name") = (none, none)) →
      resourceAppMonitorRead d meta =
        some ({ id := "", isNew := d.isNew, attributes := d.attributes }, [])) ∧
    (d.IsNewResource = true →
      ((∃ msg, (FindAppMonitorByName meta.CloudWatchRUMConn (d.GetString "name")).2
          = some (.awsErr "ResourceNotFoundException" msg)) ∨
        FindAppMonitorByName meta.CloudWatchRUMConn (d.GetString "name") = (none, none)) →
      ∃ diags, resourceAppMonitorRead d meta = some (d, diags) ∧ HasError diags = true) ∧
    (∀ e, (FindAppMonitorByName meta.CloudWatchRUMConn (d.GetString "name")).2 = some e →
      (∀ msg, e ≠ .awsErr "ResourceNotFoundException" msg) →
      ∃ diags, resourceAppMonitorRead d meta = some (d, diags) ∧ HasError diags = true) := by
  refine ⟨?_, ?_, ?_⟩
  · intro hold hlookup
    unfold resourceAppMonitorRead
    rcases hlookup with ⟨msg, h⟩ | h
    · simp [h, hold, ErrCodeEquals, ErrCodeResourceNotFoundException, ResourceData.SetId]
    · simp [h, hold, ErrCodeEquals, ResourceData.SetId]
  · intro hnew hlookup
    unfold resourceAppMonitorRead
    rcases hlookup with ⟨msg, h⟩ | h
    · refine ⟨Errorf ("error reading CloudWatch RUM App Monitor (" ++ d.GetString "name"
        ++ "): " ++ errorText (.awsErr "ResourceNotFoundException" msg)), ?_, rfl⟩
      simp only [h, hnew]
      rfl
    · refine ⟨Errorf ("error reading CloudWatch RUM App Monitor (" ++ d.GetString "name"
        ++ "): not found"), ?_, rfl⟩
      simp only [h, hnew]
      rfl
  · intro e h hcode
    unfold resourceAppMonitorRead
    refine ⟨Errorf ("error reading CloudWatch RUM App Monitor (" ++ d.GetString "name"
      ++ "): " ++ errorText e), ?_, rfl⟩
    simp only [h, ErrCodeResourceNotFoundException, ErrCodeEquals_other_code e _ hcode,
      Bool.and_false, Bool.false_eq_true, if_false]

/-- A monitor that has disappeared: the existing resource loses its ID and keeps its
attributes, the new resource gets an error diagnostic and keeps its ID, and a denied
lookup is an error diagnostic. -/
theorem resourceAppMonitorRead_not_found_example :
    resourceAppMonitorRead existingMonitorData
        (failingClient (.awsErr "ResourceNotFoundException" "gone")) =
      some ({ id := "", isNew := false,
              attributes := [("name", .string "monitor-1"),
                             ("domain", .string "example.com")] }, []) ∧
    resourceAppMonitorRead existingMonitorData emptyClient =
      some ({ id := "", isNew := false,
              attributes := [("name", .string "monitor-1"),
                             ("domain", .string "example.com")] }, []) ∧
    (∃ diags, resourceAppMonitorRead newMonitorData emptyClient = some (newMonitorData, diags) ∧
      HasError diags = true) ∧
    (∃ diags, resourceAppMonitorRead existingMonitorData
        (failingClient (.awsErr "AccessDeniedException" "denied"))
        = some (existingMonitorData, diags) ∧ HasError diags = true) :=
  ⟨(resourceAppMonitorRead_not_found existingMonitorData
      (failingClient (.awsErr "ResourceNotFoundException" "gone"))).1 rfl
      (Or.inl ⟨"gone", rfl⟩),
    (resourceAppMonitorRead_not_found existingMonitorData emptyClient).1 rfl (Or.inr rfl),
    (resourceAppMonitorRead_not_found newMonitorData emptyClient).2.1 rfl (Or.inr rfl),
    (resourceAppMonitorRead_not_found existingMonitorData
      (failingClient (.awsErr "AccessDeniedException" "denied"))).2.2 _ rfl
      (by intro msg h; simp at h)⟩

end Rum

/-! # Further properties of the finders -/

namespace Ec2Find

theorem FindRouteTableAssociationByID_loop_eq (associationID : String)
    (assocs : List RouteTableAssociation) :
    FindRouteTableAssociationByID.loop associationID (assocs.map some) =
      (assocs.find? (fun a => decide (StringValue a.RouteTableAssociationId = associationID))).map
        (fun a =>
          match a.AssociationState with
          | some associationState =>
            if StringValue associationState.State = RouteTableAssociationStateCodeDisassociated
            then (none, some (.notFound { Message := StringValue associationState.State }))
            else (some a, none)
          | none => (some a, none)) := by
  induction assocs with
  | nil => rfl
  | cons a rest ih =>
    simp only [List.map_cons, FindRouteTableAssociationByID.loop, List.find?_cons]
    by_cases h : StringValue a.RouteTableAssociationId = associationID
    · simp only [h, if_true, decide_True, Option.map_some']
      cases a.AssociationState with
      | none => rfl
      | some st =>
        by_cases hs : StringValue st.State = RouteTableAssociationStateCodeDisassociated <;>
          simp [hs]
    · simp [h, ih]

/-- What the two association lookups do when no element of the route table's
`Associations` is nil: `FindRouteTableAssociationByID` decides on the first association
whose `RouteTableAssociationId` is the requested ID: it returns `NotFound` with the message
`disassociated` when that association is in state `disassociated`, returns the association
otherwise, and returns the bare `NotFound` when no association has the ID.
`FindMainRouteTableAssociationByID` returns the same association when its `Main` flag is
true and otherwise `NotFound` with the message `<associationID> is not the association
with the main route table`. -/
theorem FindRouteTableAssociationByID_first_match
    (BuildAttributeFilterList : AttributeFilterBuilder) (conn : EC2) (associationID : String)
    (routeTable : RouteTable) (assocs : List RouteTableAssociation)
    (hfound : FindRouteTable conn
      { Filters := BuildAttributeFilterList
          [("association.route-table-association-id", associationID)] }
      = (some routeTable, none))
    (hassocs : routeTable.Associations = assocs.map some) :
    ((∀ a ∈ assocs, StringValue a.RouteTableAssociationId ≠ associationID) →
      FindRouteTableAssociationByID BuildAttributeFilterList conn associationID
        = (none, some (.notFound { LastError := none, LastRequest := none, Message := "" }))) ∧
    (∀ a st,
      assocs.find? (fun a => decide (StringValue a.RouteTableAssociationId = associationID))
        = some a →
      a.AssociationState = some st → StringValue st.State = "disassociated" →
      FindRouteTableAssociationByID BuildAttributeFilterList conn associationID
        = (none, some (.notFound { Message := "disassociated" }))) ∧
    (∀ a,
      assocs.find? (fun a => decide (StringValue a.RouteTableAssociationId = associationID))
        = some a →
      (∀ st, a.AssociationState = some st → StringValue st.State ≠ "disassociated") →
      FindRouteTableAssociationByID BuildAttributeFilterList conn associationID
        = (some a, none) ∧
      (a.Main = some true →
        FindMainRouteTableAssociationByID BuildAttributeFilterList conn associationID
          = (some a, none)) ∧
      (a.Main ≠ some true →
        FindMainRouteTableAssociationByID BuildAttributeFilterList conn associationID
          = (none, some (.notFound
              { Message := associationID
                  ++ " is not the association with the main route table" })))) := by
  have hrun : FindRouteTableAssociationByID BuildAttributeFilterList conn associationID =
      match FindRouteTableAssociationByID.loop associationID (assocs.map some) with
      | some result => result
      | none => (none, some (.notFound {})) := by
    unfold FindRouteTableAssociationByID
    simp only [hfound, hassocs]
  rw [FindRouteTableAssociationByID_loop_eq] at hrun
  refine ⟨?_, ?_, ?_⟩
  · intro hnone
    have hfind : assocs.find?
        (fun a => decide (StringValue a.RouteTableAssociationId = associationID)) = none := by
      rw [List.find?_eq_none]
      intro a ha
      simpa using hnone a ha
    rw [hrun, hfind]
    rfl
  · intro a st hfind hstate hdis
    rw [hrun, hfind]
    simp [hstate, hdis, RouteTableAssociationStateCodeDisassociated]
  · intro a hfind hstate
    have hbyid : FindRouteTableAssociationByID BuildAttributeFilterList conn associationID
        = (some a, none) := by
      rw [hrun, hfind]
      cases hst : a.AssociationState with
      | none => simp [hst]
      | some st =>
        simp [hst, RouteTableAssociationStateCodeDisassociated, hstate st hst]
    refine ⟨hbyid, ?_, ?_⟩
    · intro hmain
      unfold FindMainRouteTableAssociationByID
      simp [hbyid, hmain, BoolValue]
    · intro hmain
      unfold FindMainRouteTableAssociationByID
      simp only [hbyid]
      have hfalse : BoolValue a.Main = false := by
        cases hm : a.Main with
        | none => rfl
        | some b =>
          cases b with
          | false => rfl
          | true => exact absurd hm hmain
      simp [hfalse]

/-- In the example route table: `rtbassoc-9` is unknown, `rtbassoc-3` is decided by its
first, disassociated occurrence, `rtbassoc-2` is the main association and `rtbassoc-1` is
an association that is not the main one. -/
theorem FindRouteTableAssociationByID_first_match_example :
    FindRouteTableAssociationByID exampleFilterList associationService "rtbassoc-9"
      = (none, some (.notFound {})) ∧
    FindRouteTableAssociationByID exampleFilterList associationService "rtbassoc-3"
      = (none, some (.notFound { Message := "disassociated" })) ∧
    FindMainRouteTableAssociationByID exampleFilterList associationService "rtbassoc-2"
      = (some { RouteTableAssociationId := some "rtbassoc-2", RouteTableId := some "rtb-1",
                Main := some true,
                AssociationState := some { State := some "associated" } }, none) ∧
    FindMainRouteTableAssociationByID exampleFilterList associationService "rtbassoc-1"
      = (none, some (.notFound
          { Message := "rtbassoc-1 is not the association with the main route table" })) :=
  ⟨(FindRouteTableAssociationByID_first_match exampleFilterList associationService
      "rtbassoc-9" associatedRouteTable exampleRouteTableAssociations (by decide) rfl).1
      (by decide),
    (FindRouteTableAssociationByID_first_match exampleFilterList associationService
      "rtbassoc-3" associatedRouteTable exampleRouteTableAssociations (by decide) rfl).2.1
      { RouteTableAssociationId := some "rtbassoc-3", RouteTableId := some "rtb-1",
        SubnetId := some "subnet-3",
        AssociationState := some { State := some "disassociated" } }
      { State := some "disassociated" } (by decide) rfl (by decide),
    ((FindRouteTableAssociationByID_first_match exampleFilterList associationService
      "rtbassoc-2" associatedRouteTable exampleRouteTableAssociations (by decide) rfl).2.2
      { RouteTableAssociationId := some "rtbassoc-2", RouteTableId := some "rtb-1",
        Main := some true, AssociationState := some { State := some "associated" } }
      (by decide) (by intro st hst; cases hst; decide)).2.1 rfl,
    ((FindRouteTableAssociationByID_first_match exampleFilterList associationService
      "rtbassoc-1" associatedRouteTable exampleRouteTableAssociations (by decide) rfl).2.2
      { RouteTableAssociationId := some "rtbassoc-1", RouteTableId := some "rtb-1",
        SubnetId := some "subnet-1", Main := some false,
        AssociationState := some { State := some "associated" } }
      (by decide) (by intro st hst; cases hst; decide)).2.2 (by decide)⟩

/-- C27: when the paginated `DescribeVpcs` call ends with an error, `FindVPCs` returns no
elements, whatever pages were delivered before, together with that error or the `NotFound`
that wraps it; it returns elements only when the call ended without error. -/
theorem FindVPCs_error_discards_pages (conn : EC2) (input : DescribeVpcsInput) :
    (∀ e, (conn.describeVpcs input).err = some e →
      (FindVPCs conn input).1 = [] ∧
      ((FindVPCs conn input).2 = some (.base e) ∨
        (FindVPCs conn input).2 = some (.notFound
          { LastError := some e, LastRequest := some input }))) ∧
    ((FindVPCs conn input).1 ≠ [] →
      (conn.describeVpcs input).err = none ∧ (FindVPCs conn input).2 = none) := by
  have herr : ∀ e, (conn.describeVpcs input).err = some e →
      (FindVPCs conn input).1 = [] ∧
      ((FindVPCs conn input).2 = some (.base e) ∨
        (FindVPCs conn input).2 = some (.notFound
          { LastError := some e, LastRequest := some input })) := by
    intro e he
    rw [FindVPCs_pages, he]
    by_cases hcode : ErrCodeEquals (some e) ErrCodeInvalidVpcIDNotFound = true
    · rw [if_pos hcode]
      exact ⟨rfl, Or.inr rfl⟩
    · rw [if_neg hcode]
      exact ⟨rfl, Or.inl rfl⟩
  refine ⟨herr, ?_⟩
  intro hne
  cases he : (conn.describeVpcs input).err with
  | some e => exact absurd (herr e he).1 hne
  | none =>
    refine ⟨rfl, ?_⟩
    rw [FindVPCs_no_error conn input he]

/-- A page was delivered before the call failed: the result holds no element, for a
throttling error and for `InvalidVpcID.NotFound`. -/
theorem FindVPCs_error_discards_pages_example :
    (failingVpcService (.awsErr "RequestLimitExceeded" "slow down")).describeVpcs {} =
      { pages := [some { Vpcs := [some (vpcWithId "vpc-1")] }],
        err := some (.awsErr "RequestLimitExceeded" "slow down") } ∧
    (FindVPCs (failingVpcService (.awsErr "RequestLimitExceeded" "slow down")) {}).1 = [] ∧
    (FindVPCs (failingVpcService (.awsErr "InvalidVpcID.NotFound" "unknown")) {}).1 = [] :=
  ⟨rfl,
    ((FindVPCs_error_discards_pages
      (failingVpcService (.awsErr "RequestLimitExceeded" "slow down")) {}).1 _ rfl).1,
    ((FindVPCs_error_discards_pages
      (failingVpcService (.awsErr "InvalidVpcID.NotFound" "unknown")) {}).1 _ rfl).1⟩

theorem FindClientVPNEndpoints_error_kind (conn : EC2)
    (input : DescribeClientVpnEndpointsInput) :
    (FindClientVPNEndpoints conn input).2 ≠ some .nilDereference := by
  unfold FindClientVPNEndpoints
  simp only
  split
  · simp
  · split <;> simp

theorem FindClientVPNEndpoint_of_plural (conn : EC2) (input : DescribeClientVpnEndpointsInput)
    (output : List (Option ClientVpnEndpoint)) :
    FindClientVPNEndpoints conn input = (output, none) →
    FindClientVPNEndpoint conn input =
      match output with
      | [] => (none, some (NewEmptyResultError input))
      | none :: _ => (none, some (NewEmptyResultError input))
      | some v :: _ =>
        match v.Status with
        | none => (none, some (NewEmptyResultError input))
        | some _ =>
          if output.length > 1 then
            (none, some (NewTooManyResultsError output.length input))
          else
            (some v, none) := by
  intro h
  unfold FindClientVPNEndpoint
  rw [h]

theorem FindClientVPNEndpoint_cases (conn : EC2) (input : DescribeClientVpnEndpointsInput) :
    (∃ e, FindClientVPNEndpoint conn input = (none, some e) ∧ e ≠ .nilDereference) ∨
    (∃ v st, FindClientVPNEndpoint conn input = (some v, none) ∧ v.Status = some st) := by
  cases hplural : FindClientVPNEndpoints conn input with
  | mk output err =>
    cases err with
    | some e =>
      left
      refine ⟨e, ?_, ?_⟩
      · unfold FindClientVPNEndpoint
        rw [hplural]
      · intro he
        have := FindClientVPNEndpoints_error_kind conn input
        rw [hplural, he] at this
        exact this rfl
    | none =>
      rw [FindClientVPNEndpoint_of_plural conn input output hplural]
      match output with
      | [] => exact Or.inl ⟨_, rfl, by simp [NewEmptyResultError]⟩
      | none :: _ => exact Or.inl ⟨_, rfl, by simp [NewEmptyResultError]⟩
      | some v :: rest =>
        cases hst : v.Status with
        | none =>
          left
          refine ⟨NewEmptyResultError input, ?_, by simp [NewEmptyResultError]⟩
          simp only [hst]
        | some st =>
          by_cases hlen : (some v :: rest).length > 1
          · left
            refine ⟨NewTooManyResultsError (some v :: rest).length input, ?_,
              by simp [NewTooManyResultsError]⟩
            simp only [hst, if_pos hlen]
          · right
            refine ⟨v, st, ?_, hst⟩
            simp only [hst, if_neg hlen]

/-- C28: in `FindClientVPNEndpoint` the empty-result test comes before the count: when the
first accumulated endpoint has a nil `Status` the result is the empty-result `NotFound`
whatever the number of endpoints, and the result is `TooManyResults` exactly when there are
at least two endpoints and the first has a `Status`; every endpoint it returns has a
`Status`, and `FindClientVPNEndpointByID` never reads `Status.Code` through a nil
pointer. -/
theorem FindClientVPNEndpoint_empty_result_first :
    (∀ (conn : EC2) (input : DescribeClientVpnEndpointsInput)
        (output : List (Option ClientVpnEndpoint)),
      FindClientVPNEndpoints conn input = (output, none) →
      (∀ first rest, output = some first :: rest → first.Status = none →
        FindClientVPNEndpoint conn input = (none, some (NewEmptyResultError input))) ∧
      ((∃ n, FindClientVPNEndpoint conn input = (none, some (.tooManyResults n input))) ↔
        (2 ≤ output.length ∧
          ∃ first rest st, output = some first :: rest ∧ first.Status = some st))) ∧
    (∀ (conn : EC2) (input : DescribeClientVpnEndpointsInput) (v : ClientVpnEndpoint),
      FindClientVPNEndpoint conn input = (some v, none) → v.Status ≠ none) ∧
    (∀ (conn : EC2) (id : String),
      (FindClientVPNEndpointByID conn id).2 ≠ some .nilDereference) := by
  refine ⟨?_, ?_, ?_⟩
  · intro conn input output hplural
    have hrun := FindClientVPNEndpoint_of_plural conn input output hplural
    constructor
    · intro first rest hout hstatus
      rw [hrun, hout]
      simp [hstatus]
    · constructor
      · rintro ⟨n, hn⟩
        rw [hrun] at hn
        match output, hn with
        | [], hn => simp [NewEmptyResultError] at hn
        | none :: _, hn => simp [NewEmptyResultError] at hn
        | some v :: rest, hn =>
          cases hst : v.Status with
          | none => simp [hst, NewEmptyResultError] at hn
          | some st =>
            by_cases hlen : (some v :: rest).length > 1
            · exact ⟨hlen, v, rest, st, rfl, hst⟩
            · simp only [hst, if_neg hlen] at hn
              simp at hn
      · rintro ⟨hlen, first, rest, st, hout, hst⟩
        refine ⟨output.length, ?_⟩
        rw [hrun]
        subst hout
        have hgt : (some first :: rest).length > 1 := hlen
        simp only [hst, if_pos hgt, NewTooManyResultsError]
  · intro conn input v hv
    rcases FindClientVPNEndpoint_cases conn input with ⟨e, he, _⟩ | ⟨w, st, hw, hst⟩
    · rw [he] at hv
      simp at hv
    · rw [hw] at hv
      simp only [Prod.mk.injEq, Option.some.injEq, and_true] at hv
      rw [← hv, hst]
      simp
  · intro conn id
    unfold FindClientVPNEndpointByID
    rcases FindClientVPNEndpoint_cases conn { ClientVpnEndpointIds := StringSlice [id] }
      with ⟨e, he, hne⟩ | ⟨w, st, hw, hst⟩
    · simp only [he]
      intro h
      exact hne (by simpa using h)
    · simp only [hw, hst]
      split
      · simp
      · split <;> simp

/-- Two endpoints of which the first has no status: empty result; two endpoints with
status: `TooManyResults` with count 2; a single endpoint with status is returned. -/
theorem FindClientVPNEndpoint_empty_result_first_example :
    FindClientVPNEndpoint
        (clientVpnService [clientVpnEndpointWithoutStatus "cvpn-1",
          clientVpnEndpointWithId "cvpn-2"]) {} = (none, some (NewEmptyResultError {})) ∧
    (∃ n, FindClientVPNEndpoint
        (clientVpnService [clientVpnEndpointWithId "cvpn-1",
          clientVpnEndpointWithId "cvpn-2"]) {} = (none, some (.tooManyResults n {}))) ∧
    (clientVpnEndpointWithId "cvpn-1").Status ≠ none ∧
    (FindClientVPNEndpointByID (clientVpnService [clientVpnEndpointWithoutStatus "cvpn-1"])
      "cvpn-1").2 ≠ some .nilDereference :=
  ⟨(FindClientVPNEndpoint_empty_result_first.1
      (clientVpnService [clientVpnEndpointWithoutStatus "cvpn-1",
        clientVpnEndpointWithId "cvpn-2"]) {} _ rfl).1 _ _ rfl rfl,
    (FindClientVPNEndpoint_empty_result_first.1
      (clientVpnService [clientVpnEndpointWithId "cvpn-1",
        clientVpnEndpointWithId "cvpn-2"]) {} _ rfl).2.mpr
      ⟨by decide, _, _, _, rfl, rfl⟩,
    FindClientVPNEndpoint_empty_result_first.2.1
      (clientVpnService [clientVpnEndpointWithId "cvpn-1"]) {} _ rfl,
    FindClientVPNEndpoint_empty_result_first.2.2
      (clientVpnService [clientVpnEndpointWithoutStatus "cvpn-1"]) "cvpn-1"⟩

/-- C29: evaluation of `FindInstanceByID` when the service delivers the single instance
`i-1` with a nil `State`: `FindInstance` returns that instance with a nil error, and
`FindInstanceByID` reads `State.Name` through the nil pointer. -/
theorem FindInstanceByID_nil_state_dereference :
    FindInstance statelessInstanceService { InstanceIds := StringSlice ["i-1"] }
      = (some instanceWithoutState, none) ∧
    instanceWithoutState.State = none ∧
    FindInstanceByID statelessInstanceService "i-1" = (none, some .nilDereference) := by
  decide

/-- The sibling `FindClientVPNEndpoint` tests the pointer before its caller reads through
it: an endpoint with a nil `Status` is the empty-result `NotFound`. -/
theorem FindClientVPNEndpointByID_nil_status_not_found :
    FindClientVPNEndpointByID (clientVpnService [clientVpnEndpointWithoutStatus "cvpn-1"])
        "cvpn-1" =
      (none, some (.emptyResult { ClientVpnEndpointIds := StringSlice ["cvpn-1"] })) := by
  decide

/-- C30: `FindTransitGatewayRoute` decides on the first non-nil route whose
`DestinationCidrBlock` equals the destination under `CIDRBlocksEqual`: when that route is
in state `deleted` the result is `NotFound` with the message `deleted`, whatever routes
follow it; the result is the empty-result `NotFound` when the response is nil or holds no
route, and the bare `NotFound` when it holds routes of which none matches. -/
theorem FindTransitGatewayRoute_first_match_decides (verify : Verify)
    (BuildAttributeFilterList : AttributeFilterBuilder) (conn : EC2)
    (transitGatewayRouteTableID destination : String) :
    (∀ output route,
      conn.SearchTransitGatewayRoutes
        { Filters := BuildAttributeFilterList [("type", "static")],
          TransitGatewayRouteTableId := some transitGatewayRouteTableID }
        = (some output, none) →
      (output.Routes.filterMap id).find? (fun r =>
        verify.CIDRBlocksEqual (StringValue r.DestinationCidrBlock) destination) = some route →
      StringValue route.State = "deleted" →
      FindTransitGatewayRoute verify BuildAttributeFilterList conn transitGatewayRouteTableID
          destination =
        (none, some (.notFound
          { Message := "deleted",
            LastRequest := some
              { Filters := BuildAttributeFilterList [("type", "static")],
                TransitGatewayRouteTableId := some transitGatewayRouteTableID } }))) ∧
    (∀ output,
      conn.SearchTransitGatewayRoutes
        { Filters := BuildAttributeFilterList [("type", "static")],
          TransitGatewayRouteTableId := some transitGatewayRouteTableID }
        = (output, none) →
      (output = none ∨ ∃ o, output = some o ∧ o.Routes = []) →
      FindTransitGatewayRoute verify BuildAttributeFilterList conn transitGatewayRouteTableID
          destination =
        (none, some (.emptyResult
          { Filters := BuildAttributeFilterList [("type", "static")],
            TransitGatewayRouteTableId := some transitGatewayRouteTableID }))) ∧
    (∀ output,
      conn.SearchTransitGatewayRoutes
        { Filters := BuildAttributeFilterList [("type", "static")],
          TransitGatewayRouteTableId := some transitGatewayRouteTableID }
        = (some output, none) →
      output.Routes ≠ [] →
      (∀ r ∈ output.Routes.filterMap id,
        verify.CIDRBlocksEqual (StringValue r.DestinationCidrBlock) destination = false) →
      FindTransitGatewayRoute verify BuildAttributeFilterList conn transitGatewayRouteTableID
          destination =
        (none, some (.notFound { LastError := none, LastRequest := none, Message := "" }))) := by
  refine ⟨?_, ?_, ?_⟩
  · intro output route hresp hfirst hstate
    have hne : output.Routes.length ≠ 0 := by
      intro h0
      have hnil : output.Routes = [] := List.length_eq_zero.mp h0
      rw [hnil] at hfirst
      simp at hfirst
    unfold FindTransitGatewayRoute
    simp only [TransitGatewayRouteTypeStatic, hresp, ErrCodeEquals, Bool.false_eq_true,
      if_false, if_neg hne, FindTransitGatewayRoute_loop_eq, hfirst, Option.map_some',
      TransitGatewayRouteStateDeleted, hstate, if_true]
  · intro output hresp hempty
    unfold FindTransitGatewayRoute
    rcases hempty with h | ⟨o, ho, hroutes⟩
    · subst h
      simp only [TransitGatewayRouteTypeStatic, hresp, ErrCodeEquals, Bool.false_eq_true,
        if_false, NewEmptyResultError]
    · subst ho
      simp only [TransitGatewayRouteTypeStatic, hresp, ErrCodeEquals, Bool.false_eq_true,
        if_false, hroutes, List.length_nil, if_true, NewEmptyResultError]
  · intro output hresp hne hnone
    have hlen : output.Routes.length ≠ 0 := fun h0 => hne (List.length_eq_zero.mp h0)
    have hfind : (output.Routes.filterMap id).find? (fun r =>
        verify.CIDRBlocksEqual (StringValue r.DestinationCidrBlock) destination) = none := by
      rw [List.find?_eq_none]
      intro r hr
      rw [hnone r hr]
      simp
    unfold FindTransitGatewayRoute
    simp only [TransitGatewayRouteTypeStatic, hresp, ErrCodeEquals, Bool.false_eq_true,
      if_false, if_neg hlen, FindTransitGatewayRoute_loop_eq, hfind, Option.map_none']

/-- A deleted route to `10.0.0.0/8` before an active one to the same block is `NotFound`
with message `deleted`; a response without routes is the empty result; routes of which
none goes to `192.168.0.0/16` give the bare `NotFound`. -/
theorem FindTransitGatewayRoute_first_match_decides_example :
    FindTransitGatewayRoute exampleVerify exampleFilterList deletedFirstRouteService
        "tgw-rtb-1" "10.0.0.0/8" =
      (none, some (.notFound
        { Message := "deleted",
          LastRequest := some
            { Filters := exampleFilterList [("type", "static")],
              TransitGatewayRouteTableId := some "tgw-rtb-1" } })) ∧
    FindTransitGatewayRoute exampleVerify exampleFilterList noTransitRouteService
        "tgw-rtb-1" "10.0.0.0/8" =
      (none, some (.emptyResult
        { Filters := exampleFilterList [("type", "static")],
          TransitGatewayRouteTableId := some "tgw-rtb-1" })) ∧
    FindTransitGatewayRoute exampleVerify exampleFilterList deletedFirstRouteService
        "tgw-rtb-1" "192.168.0.0/16" = (none, some (.notFound {})) :=
  ⟨(FindTransitGatewayRoute_first_match_decides exampleVerify exampleFilterList
      deletedFirstRouteService "tgw-rtb-1" "10.0.0.0/8").1 _
      { DestinationCidrBlock := some "10.0.0.0/8", State := some "deleted" } rfl
      (by decide) rfl,
    (FindTransitGatewayRoute_first_match_decides exampleVerify exampleFilterList
      noTransitRouteService "tgw-rtb-1" "10.0.0.0/8").2.1 _ rfl (Or.inr ⟨_, rfl, rfl⟩),
    (FindTransitGatewayRoute_first_match_decides exampleVerify exampleFilterList
      deletedFirstRouteService "tgw-rtb-1" "192.168.0.0/16").2.2 _ rfl (by decide)
      (by decide)⟩

end Ec2Find

/-! # Properties of the DMS endpoint settings -/

namespace DMS

open Ec2Find Schema

theorem TfMap_get_filter_ne (m : TfMap) (k k' : String) (h : k' ≠ k) :
    TfMap.get (m.filter (fun kv => kv.1 != k)) k' = TfMap.get m k' := by
  induction m with
  | nil => rfl
  | cons kv rest ih =>
    obtain ⟨a, v⟩ := kv
    simp only [TfMap.get] at ih ⊢
    by_cases ha : a = k
    · subst ha
      have hne : (k' == a) = false := by simpa using h
      simp [List.filter_cons, List.lookup_cons, hne, ih]
    · have hak : (a != k) = true := by simpa using ha
      simp only [List.filter_cons, hak, if_true, List.lookup_cons, ih]

theorem TfMap_get_set (m : TfMap) (k : String) (v : Any) (k' : String) :
    (m.set k v).get k' = if k' = k then some v else m.get k' := by
  by_cases h : k' = k
  · subst h
    simp [TfMap.set, TfMap.get, List.lookup_cons]
  · have hne : (k' == k) = false := by simpa using h
    rw [if_neg h]
    have := TfMap_get_filter_ne m k k' h
    simp only [TfMap.get] at this
    simp only [TfMap.set, TfMap.get, List.lookup_cons, hne, this]

theorem TfMap_get_setIfSet (m : TfMap) (k : String) (v : Option Any) (k' : String) :
    (m.setIfSet k v).get k' =
      if k' = k then (match v with | some a => some a | none => m.get k') else m.get k' := by
  cases v with
  | none => simp [TfMap.setIfSet]
  | some a => simp only [TfMap.setIfSet, TfMap_get_set]

theorem TfMap_get_empty (k : String) : TfMap.empty.get k = none := rfl

theorem asBool_boolPointer (p : Option Bool) :
    Any.asBool (match Any.boolPointer p with | some a => some a | none => none) = p := by
  cases p <;> rfl

theorem asString_stringPointer (p : Option String) :
    Any.asString (match Any.stringPointer p with | some a => some a | none => none) = p := by
  cases p <;> rfl

theorem nonEmptyString_stringPointer (p : Option String) (h : p ≠ some "") :
    nonEmptyString (match Any.stringPointer p with | some a => some a | none => none) = p := by
  cases p with
  | none => rfl
  | some v =>
    have hv : v ≠ "" := fun hv => h (by rw [hv])
    simp [nonEmptyString, Any.stringPointer, Any.asString, hv]

/-- C22: for every Kinesis settings object in which no string field is set to the empty
string, expanding the flattened form gives the object back on the nine mapped fields, set
and unset alike (the unmapped `NoHexPrefix` comes back nil); and both functions map nil to
nil. -/
theorem expandKinesisSettings_flattenKinesisSettings (x : KinesisSettings)
    (hformat : x.MessageFormat ≠ some "")
    (hrole : x.ServiceAccessRoleArn ≠ some "")
    (hstream : x.StreamArn ≠ some "") :
    expandKinesisSettings (flattenKinesisSettings (some x)) =
      some { IncludeControlDetails := x.IncludeControlDetails,
             IncludeNullAndEmpty := x.IncludeNullAndEmpty,
             IncludePartitionValue := x.IncludePartitionValue,
             IncludeTableAlterOperations := x.IncludeTableAlterOperations,
             IncludeTransactionDetails := x.IncludeTransactionDetails,
             MessageFormat := x.MessageFormat,
             NoHexPrefix := none,
             PartitionIncludeSchemaTable := x.PartitionIncludeSchemaTable,
             ServiceAccessRoleArn := x.ServiceAccessRoleArn,
             StreamArn := x.StreamArn } ∧
    flattenKinesisSettings none = none ∧
    expandKinesisSettings none = none := by
  refine ⟨?_, rfl, rfl⟩
  simp only [flattenKinesisSettings, expandKinesisSettings, TfMap.setEach, List.foldl_cons,
    List.foldl_nil, TfMap_get_setIfSet, TfMap_get_empty]
  simp only [String.reduceEq, if_true, if_false, asBool_boolPointer,
    nonEmptyString_stringPointer _ hformat, nonEmptyString_stringPointer _ hrole,
    nonEmptyString_stringPointer _ hstream]

/-- The example settings come back from the flattened map as they were. -/
theorem expandKinesisSettings_flattenKinesisSettings_example :
    expandKinesisSettings (flattenKinesisSettings (some exampleKinesisSettings)) =
      some exampleKinesisSettings :=
  (expandKinesisSettings_flattenKinesisSettings exampleKinesisSettings
    (by decide) (by decide) (by decide)).1

theorem asInt_int64Pointer (p : Option Int) :
    Any.asInt (match Any.int64Pointer p with | some a => some a | none => none) = none := by
  cases p <;> rfl

theorem asBool_none : Any.asBool none = none := rfl

/-- C23: evaluation of the two-way mapping on S3 settings that set `PreserveTransactions`:
the single map that `flattenS3Settings` produces has no key `preserve_transactions`, and
`expandS3Settings` of that map leaves `PreserveTransactions` nil. -/
theorem flattenS3Settings_drops_PreserveTransactions :
    flattenS3Settings (some { BucketName := some "logs", PreserveTransactions := some true })
      = [[("bucket_name", .string "logs")]] ∧
    expandS3Settings (some [("bucket_name", .string "logs")])
      = some { BucketName := some "logs", PreserveTransactions := none } := by
  decide

/-- What the two-way mapping does on every S3 settings object: `flattenS3Settings` gives
one map, and `expandS3Settings` of it restores every boolean and string field except
`PreserveTransactions`, which comes back nil, as do the integer fields (stored as `int64`,
read as `int`). -/
theorem expandS3Settings_flattenS3Settings (x : S3Settings) :
    ∃ tfMap, flattenS3Settings (some x) = [tfMap] ∧
      expandS3Settings (some tfMap) =
        some { AddColumnName := x.AddColumnName,
               BucketFolder := x.BucketFolder,
               BucketName := x.BucketName,
               CannedAclForObjects := x.CannedAclForObjects,
               CdcInsertsAndUpdates := x.CdcInsertsAndUpdates,
               CdcInsertsOnly := x.CdcInsertsOnly,
               CdcMaxBatchInterval := none,
               CdcMinFileSize := none,
               CdcPath := x.CdcPath,
               CompressionType := x.CompressionType,
               CsvDelimiter := x.CsvDelimiter,
               CsvNoSupValue := x.CsvNoSupValue,
               CsvNullValue := x.CsvNullValue,
               CsvRowDelimiter := x.CsvRowDelimiter,
               DataFormat := x.DataFormat,
               DataPageSize := none,
               DatePartitionDelimiter := x.DatePartitionDelimiter,
               DatePartitionEnabled := x.DatePartitionEnabled,
               DatePartitionSequence := x.DatePartitionSequence,
               DictPageSizeLimit := none,
               EnableStatistics := x.EnableStatistics,
               EncodingType := x.EncodingType,
               EncryptionMode := x.EncryptionMode,
               ExternalTableDefinition := x.ExternalTableDefinition,
               IgnoreHeaderRows := none,
               IncludeOpForFullLoad := x.IncludeOpForFullLoad,
               MaxFileSize := none,
               ParquetTimestampInMillisecond := x.ParquetTimestampInMillisecond,
               ParquetVersion := x.ParquetVersion,
               PreserveTransactions := none,
               Rfc4180 := x.Rfc4180,
               RowGroupLength := none,
               ServerSideEncryptionKmsKeyId := x.ServerSideEncryptionKmsKeyId,
               ServiceAccessRoleArn := x.ServiceAccessRoleArn,
               TimestampColumnName := x.TimestampColumnName,
               UseCsvNoSupValue := x.UseCsvNoSupValue } := by
  refine ⟨_, rfl, ?_⟩
  simp only [expandS3Settings, TfMap.setEach, List.foldl_cons, List.foldl_nil,
    TfMap_get_setIfSet, TfMap_get_empty]
  simp only [String.reduceEq, if_true, if_false, asBool_boolPointer, asString_stringPointer,
    asInt_int64Pointer, asBool_none]

/-! ## Extra connection attributes -/

set_option maxRecDepth 100000

/-- A key is absent from a list of entries exactly when no entry has it. -/
theorem lookup_eq_none_iff_keys (l : List (Nat × String)) (k : Nat) :
    l.lookup k = none ↔ ∀ kv ∈ l, kv.1 ≠ k := by
  induction l with
  | nil => simp
  | cons a rest ih =>
    obtain ⟨k2, v2⟩ := a
    by_cases h : k = k2
    · subst h
      simp [List.lookup]
    · have h2 : (k == k2) = false := by simpa using h
      simp only [List.lookup, h2, ih, List.mem_cons, forall_eq_or_imp, ne_eq]
      constructor
      · intro hr
        exact ⟨fun e => h e.symm, hr⟩
      · intro hr
        exact hr.2

/-- The entry that a lookup finds is in the list. -/
theorem mem_of_lookup_eq_some (l : List (Nat × String)) (k : Nat) (v : String)
    (h : l.lookup k = some v) : (k, v) ∈ l := by
  induction l with
  | nil => simp at h
  | cons a rest ih =>
    obtain ⟨k2, v2⟩ := a
    by_cases hk : k = k2
    · subst hk
      simp only [List.lookup, beq_self_eq_true, Option.some.injEq] at h
      rw [h]
      exact List.mem_cons_self _ _
    · have h2 : (k == k2) = false := by simpa using hk
      simp only [List.lookup, h2] at h
      exact List.mem_cons_of_mem _ (ih h)

/-- In a list without repeated keys the lookup of a key finds the entry that has it. -/
theorem lookup_eq_some_of_mem (l : List (Nat × String)) (k : Nat) (v : String)
    (hnodup : (l.map Prod.fst).Nodup) (h : (k, v) ∈ l) : l.lookup k = some v := by
  induction l with
  | nil => simp at h
  | cons a rest ih =>
    obtain ⟨k2, v2⟩ := a
    simp only [List.map_cons, List.nodup_cons, List.mem_map, not_exists, not_and] at hnodup
    by_cases hk : k = k2
    · subst hk
      simp only [List.lookup, beq_self_eq_true, Option.some.injEq]
      rcases List.mem_cons.mp h with h1 | h1
      · simp only [Prod.mk.injEq, true_and] at h1
        exact h1.symm
      · exact absurd rfl (hnodup.1 (k, v) h1)
    · have h2 : (k == k2) = false := by simpa using hk
      simp only [List.lookup, h2]
      rcases List.mem_cons.mp h with h1 | h1
      · simp only [Prod.mk.injEq] at h1
        exact absurd h1.1 hk
      · exact ih hnodup.2 h1

/-- An element of a set is stored under its hash code. -/
theorem SchemaSet_mem_elements (s : SchemaSet) (x : String) (hs : s.Keyed) :
    x ∈ s.elements ↔ (HashString x, x) ∈ s.m := by
  unfold SchemaSet.elements
  constructor
  · intro h
    obtain ⟨kv, hkv, hx⟩ := List.mem_map.mp h
    have hk := hs.2 kv hkv
    obtain ⟨k, v⟩ := kv
    simp only at hx hk
    subst hx
    rw [← hk]
    exact hkv
  · intro h
    exact List.mem_map.mpr ⟨_, h, rfl⟩

/-- A set has no entry under a code exactly when none of its elements has that code. -/
theorem SchemaSet_lookup_eq_none (s : SchemaSet) (k : Nat) (hs : s.Keyed) :
    s.m.lookup k = none ↔ ∀ y ∈ s.elements, HashString y ≠ k := by
  rw [lookup_eq_none_iff_keys]
  constructor
  · intro h y hy
    exact h _ ((SchemaSet_mem_elements s y hs).mp hy)
  · intro h kv hkv
    have hk := hs.2 kv hkv
    rw [hk]
    exact h kv.2 (List.mem_map.mpr ⟨kv, hkv, rfl⟩)

/-- The empty set has well-formed entries. -/
theorem SchemaSet_Keyed_empty : SchemaSet.Keyed {} := by
  constructor
  · exact List.nodup_nil
  · intro kv h
    exact absurd h (List.not_mem_nil _)

/-- The method `Add` keeps the entries well formed. -/
theorem SchemaSet_Keyed_Add (s : SchemaSet) (y : String) (hs : s.Keyed) :
    (s.Add y).Keyed := by
  unfold SchemaSet.Add
  simp only []
  cases hl : s.m.lookup (HashString y) with
  | some v => exact hs
  | none =>
    have hnone := (lookup_eq_none_iff_keys s.m (HashString y)).mp hl
    constructor
    · simp only [List.map_append, List.map_cons, List.map_nil]
      rw [List.nodup_append]
      refine ⟨hs.1, List.nodup_singleton _, ?_⟩
      intro k hk hk2
      simp only [List.mem_singleton] at hk2
      obtain ⟨kv, hkv, hkk⟩ := List.mem_map.mp hk
      exact hnone kv hkv (hkk.trans hk2)
    · intro kv hkv
      rcases List.mem_append.mp hkv with h | h
      · exact hs.2 kv h
      · simp only [List.mem_singleton] at h
        rw [h]

/-- The elements after `Add`: those before, and the item when no element had its hash
code. -/
theorem SchemaSet_mem_Add (s : SchemaSet) (x y : String) (hs : s.Keyed) :
    x ∈ (s.Add y).elements ↔
      x ∈ s.elements ∨ (x = y ∧ ∀ z ∈ s.elements, HashString z ≠ HashString y) := by
  unfold SchemaSet.Add
  simp only []
  cases hl : s.m.lookup (HashString y) with
  | some v =>
    simp only []
    constructor
    · exact Or.inl
    · rintro (h | ⟨_, h⟩)
      · exact h
      · have := (SchemaSet_lookup_eq_none s (HashString y) hs).mpr h
        rw [hl] at this
        exact absurd this (by simp)
  | none =>
    have hnone := (SchemaSet_lookup_eq_none s (HashString y) hs).mp hl
    simp only [SchemaSet.elements, List.map_append, List.map_cons, List.map_nil,
      List.mem_append, List.mem_singleton]
    constructor
    · rintro (h | h)
      · exact Or.inl h
      · exact Or.inr ⟨h, hnone⟩
    · rintro (h | ⟨h, _⟩)
      · exact Or.inl h
      · exact Or.inr h

/-- The set that a loop of conditional `Add` calls builds: besides the elements it started
with, it holds `x` exactly when some part gives `x`, no element at the start has the hash
code of `x`, and no earlier part gives an element with that code. -/
theorem foldl_Add_spec (g : String → Option String) (f : SchemaSet → String → SchemaSet)
    (hf : ∀ s part, f s part = match g part with | some e => SchemaSet.Add s e | none => s)
    (parts : List String) (init : SchemaSet) (hinit : init.Keyed) :
    (parts.foldl f init).Keyed ∧
    ∀ x, x ∈ (parts.foldl f init).elements ↔
      x ∈ init.elements ∨
      ((∀ z ∈ init.elements, HashString z ≠ HashString x) ∧
        ∃ pre part post, parts = pre ++ part :: post ∧ g part = some x ∧
          ∀ p ∈ pre, ∀ e, g p = some e → HashString e ≠ HashString x) := by
  induction parts generalizing init with
  | nil =>
    refine ⟨hinit, ?_⟩
    intro x
    simp only [List.foldl_nil]
    constructor
    · exact Or.inl
    · rintro (h | ⟨_, pre, part, post, heq, _⟩)
      · exact h
      · exact absurd heq (by simp)
  | cons p ps ih =>
    simp only [List.foldl_cons]
    cases hg : g p with
    | none =>
      have hstep : f init p = init := by rw [hf, hg]
      rw [hstep]
      refine ⟨(ih init hinit).1, ?_⟩
      intro x
      rw [(ih init hinit).2 x]
      constructor
      · rintro (h | ⟨hno, pre, part, post, heq, hpart, hpre⟩)
        · exact Or.inl h
        · refine Or.inr ⟨hno, p :: pre, part, post, by rw [heq]; rfl, hpart, ?_⟩
          intro q hq e he
          rcases List.mem_cons.mp hq with hq | hq
          · rw [hq, hg] at he
            exact absurd he (by simp)
          · exact hpre q hq e he
      · rintro (h | ⟨hno, pre, part, post, heq, hpart, hpre⟩)
        · exact Or.inl h
        · cases pre with
          | nil =>
            simp only [List.nil_append, List.cons.injEq] at heq
            rw [← heq.1, hg] at hpart
            exact absurd hpart (by simp)
          | cons q pre2 =>
            simp only [List.cons_append, List.cons.injEq] at heq
            exact Or.inr ⟨hno, pre2, part, post, heq.2, hpart,
              fun r hr e he => hpre r (List.mem_cons_of_mem _ hr) e he⟩
    | some e =>
      have hstep : f init p = init.Add e := by rw [hf, hg]
      rw [hstep]
      have hkeyed := SchemaSet_Keyed_Add init e hinit
      refine ⟨(ih _ hkeyed).1, ?_⟩
      intro x
      rw [(ih _ hkeyed).2 x]
      constructor
      · rintro (h | ⟨hno, pre, part, post, heq, hpart, hpre⟩)
        · rcases (SchemaSet_mem_Add init x e hinit).mp h with h1 | ⟨h1, h2⟩
          · exact Or.inl h1
          · refine Or.inr ⟨by rw [h1]; exact h2, [], p, ps, rfl, by rw [hg, h1], ?_⟩
            intro q hq
            exact absurd hq (List.not_mem_nil _)
        · have hno1 : ∀ z ∈ init.elements, HashString z ≠ HashString x := fun z hz =>
            hno z ((SchemaSet_mem_Add init z e hinit).mpr (Or.inl hz))
          refine Or.inr ⟨hno1, p :: pre, part, post, by rw [heq]; rfl, hpart, ?_⟩
          intro q hq e2 he2
          rcases List.mem_cons.mp hq with hq | hq
          · rw [hq, hg] at he2
            simp only [Option.some.injEq] at he2
            rw [← he2]
            by_cases hfree : ∀ z ∈ init.elements, HashString z ≠ HashString e
            · exact hno e ((SchemaSet_mem_Add init e e hinit).mpr (Or.inr ⟨rfl, hfree⟩))
            · simp only [not_forall, not_not] at hfree
              obtain ⟨z, hz, hze⟩ := hfree
              rw [← hze]
              exact hno1 z hz
          · exact hpre q hq e2 he2
      · rintro (h | ⟨hno, pre, part, post, heq, hpart, hpre⟩)
        · exact Or.inl ((SchemaSet_mem_Add init x e hinit).mpr (Or.inl h))
        · cases pre with
          | nil =>
            simp only [List.nil_append, List.cons.injEq] at heq
            rw [← heq.1, hg] at hpart
            simp only [Option.some.injEq] at hpart
            exact Or.inl ((SchemaSet_mem_Add init x e hinit).mpr
              (Or.inr ⟨hpart.symm, by rw [hpart]; exact hno⟩))
          | cons q pre2 =>
            simp only [List.cons_append, List.cons.injEq] at heq
            have hqe : HashString e ≠ HashString x := by
              apply hpre q (List.mem_cons_self _ _) e
              rw [← heq.1]
              exact hg
            refine Or.inr ⟨?_, pre2, part, post, heq.2, hpart,
              fun r hr e2 he2 => hpre r (List.mem_cons_of_mem _ hr) e2 he2⟩
            intro z hz
            rcases (SchemaSet_mem_Add init z e hinit).mp hz with h1 | ⟨h1, _⟩
            · exact hno z h1
            · rw [h1]
              exact hqe

/-- The element a part gives, in terms of the split of the part on `=`. -/
theorem attributeOfPart_eq_some (ToLower : String → String) (part x : String) :
    attributeOfPart ToLower part = some x ↔
      ∃ k v, Split part '=' = [k, v] ∧
        x = ToLower (camelToSnake k) ++ "=" ++ hyphensToUnderscores (ToLower v) := by
  unfold attributeOfPart
  match h : Split part '=' with
  | [] => simp
  | [a] => simp
  | [k, v] =>
    simp only [Option.some.injEq, List.cons.injEq, and_true]
    constructor
    · intro hx
      exact ⟨k, v, ⟨rfl, rfl⟩, hx.symm⟩
    · rintro ⟨k2, v2, ⟨hk, hv⟩, hx⟩
      rw [hx, hk, hv]
  | a :: b :: c :: rest => simp

/-- The loop of `extraConnectionAttributesToSet`, with the element of a part named. -/
theorem extraConnectionAttributesToSet_eq (ToLower : String → String) (extra : String)
    (h : extra ≠ "") :
    extraConnectionAttributesToSet ToLower extra =
      some ((Split extra ';').foldl
        (fun (s : SchemaSet) part =>
          match attributeOfPart ToLower part with
          | some e => SchemaSet.Add s e
          | none => s) {}) := by
  unfold extraConnectionAttributesToSet
  rw [if_neg h]
  simp only [Option.some.injEq]
  congr 1
  funext s part
  unfold attributeOfPart
  match Split part '=' with
  | [] => rfl
  | [a] => rfl
  | [k, v] => rfl
  | a :: b :: c :: rest => rfl

/-- A string for which `extraConnectionAttributesToSet` returns a set is not empty. -/
theorem extraConnectionAttributesToSet_ne_empty (ToLower : String → String) (extra : String)
    (S : SchemaSet) (h : extraConnectionAttributesToSet ToLower extra = some S) :
    extra ≠ "" := by
  intro he
  rw [he] at h
  exact absurd h (by simp [extraConnectionAttributesToSet])

/-- A list with an element that has a property has a first such element. -/
theorem exists_first_of_exists_mem {α : Type} (P : α → Prop) (l : List α)
    (h : ∃ a ∈ l, P a) :
    ∃ pre a post, l = pre ++ a :: post ∧ P a ∧ ∀ b ∈ pre, ¬ P b := by
  induction l with
  | nil =>
    obtain ⟨a, ha, _⟩ := h
    exact absurd ha (List.not_mem_nil _)
  | cons c rest ih =>
    by_cases hc : P c
    · exact ⟨[], c, rest, rfl, hc, fun b hb => absurd hb (List.not_mem_nil _)⟩
    · obtain ⟨a, ha, hPa⟩ := h
      rcases List.mem_cons.mp ha with ha | ha
      · rw [ha] at hPa
        exact absurd hPa hc
      · obtain ⟨pre, a2, post, heq, hP, hpre⟩ := ih ⟨a, ha, hPa⟩
        refine ⟨c :: pre, a2, post, by rw [heq]; rfl, hP, ?_⟩
        intro b hb
        rcases List.mem_cons.mp hb with hb | hb
        · rw [hb]; exact hc
        · exact hpre b hb

/-- The call `s.Equal(other)` on a non-nil `other` is true exactly when the two sets have
the same elements. -/
theorem SchemaSet_Equal_true (s N : SchemaSet) (hs : s.Keyed) (hN : N.Keyed) :
    s.Equal (some N) = some true ↔ ∀ x, x ∈ s.elements ↔ x ∈ N.elements := by
  have hsnd : s.m.Nodup := List.Nodup.of_map _ hs.1
  have hNnd : N.m.Nodup := List.Nodup.of_map _ hN.1
  simp only [SchemaSet.Equal, Option.some.injEq, Bool.and_eq_true, beq_iff_eq,
    List.all_eq_true]
  constructor
  · rintro ⟨hlen, hall⟩
    have hsub : s.m ⊆ N.m := by
      intro kv hkv
      exact mem_of_lookup_eq_some N.m kv.1 kv.2 (hall kv hkv)
    have hperm : s.m.Perm N.m :=
      (List.subperm_of_subset hsnd hsub).perm_of_length_le (le_of_eq hlen.symm)
    intro x
    rw [SchemaSet_mem_elements s x hs, SchemaSet_mem_elements N x hN]
    exact hperm.mem_iff
  · intro h
    have hmem : ∀ kv, kv ∈ s.m ↔ kv ∈ N.m := by
      intro kv
      constructor
      · intro hkv
        have hk := hs.2 kv hkv
        have hx : kv.2 ∈ N.elements := (h kv.2).mp (List.mem_map.mpr ⟨kv, hkv, rfl⟩)
        have := (SchemaSet_mem_elements N kv.2 hN).mp hx
        rw [← hk] at this
        exact this
      · intro hkv
        have hk := hN.2 kv hkv
        have hx : kv.2 ∈ s.elements := (h kv.2).mpr (List.mem_map.mpr ⟨kv, hkv, rfl⟩)
        have := (SchemaSet_mem_elements s kv.2 hs).mp hx
        rw [← hk] at this
        exact this
    have hperm : s.m.Perm N.m := (List.perm_ext_iff_of_nodup hsnd hNnd).mpr hmem
    refine ⟨hperm.length_eq, ?_⟩
    intro kv hkv
    exact lookup_eq_some_of_mem N.m kv.1 kv.2 hN.1 ((hmem kv).mp hkv)

/-- A loop of conditional `Add` calls over the parts is the loop of `Add` calls over the
elements the parts give. -/
theorem foldl_Add_filterMap (g : String → Option String) (parts : List String)
    (init : SchemaSet) :
    parts.foldl
        (fun (s : SchemaSet) part =>
          match g part with
          | some e => SchemaSet.Add s e
          | none => s) init =
      (parts.filterMap g).foldl SchemaSet.Add init := by
  induction parts generalizing init with
  | nil => rfl
  | cons p ps ih =>
    simp only [List.foldl_cons, List.filterMap_cons]
    cases hg : g p with
    | none => exact ih init
    | some e => exact ih (init.Add e)

/-- The set that a loop of `Add` calls builds from a list of elements: for each hash code,
the first element of the list with that code. -/
theorem foldl_Add_elements (E : List String) (init : SchemaSet) (hinit : init.Keyed) :
    (E.foldl SchemaSet.Add init).Keyed ∧
    ∀ x, x ∈ (E.foldl SchemaSet.Add init).elements ↔
      x ∈ init.elements ∨
      ((∀ z ∈ init.elements, HashString z ≠ HashString x) ∧
        ∃ pre post, E = pre ++ x :: post ∧ ∀ y ∈ pre, HashString y ≠ HashString x) := by
  have h := foldl_Add_spec some SchemaSet.Add (fun _ _ => rfl) E init hinit
  refine ⟨h.1, ?_⟩
  intro x
  rw [h.2 x]
  constructor
  · rintro (h1 | ⟨h1, pre, part, post, heq, hpart, hpre⟩)
    · exact Or.inl h1
    · simp only [Option.some.injEq] at hpart
      subst hpart
      exact Or.inr ⟨h1, pre, post, heq, fun y hy => hpre y hy y rfl⟩
  · rintro (h1 | ⟨h1, pre, post, heq, hpre⟩)
    · exact Or.inl h1
    · refine Or.inr ⟨h1, pre, x, post, heq, rfl, ?_⟩
      intro p hp e he
      simp only [Option.some.injEq] at he
      subst he
      exact hpre p hp

/-- The set of `extraConnectionAttributesToSet` is built from the elements of the parts in
their order. -/
theorem extraConnectionAttributesToSet_eq_foldl (ToLower : String → String) (extra : String)
    (h : extra ≠ "") :
    extraConnectionAttributesToSet ToLower extra =
      some ((attributeElements ToLower extra).foldl SchemaSet.Add {}) := by
  rw [extraConnectionAttributesToSet_eq ToLower extra h, attributeElements]
  exact congrArg some (foldl_Add_filterMap (attributeOfPart ToLower) _ _)

/-- The set of `extraConnectionAttributesToSet` holds, for each hash code, the first element
of the parts with that code. -/
theorem extraConnectionAttributesToSet_first_per_code (ToLower : String → String)
    (extra : String) (hne : extra ≠ "") :
    ∃ S, extraConnectionAttributesToSet ToLower extra = some S ∧ S.Keyed ∧
      ∀ x, x ∈ S.elements ↔
        ∃ pre post, attributeElements ToLower extra = pre ++ x :: post ∧
          ∀ y ∈ pre, HashString y ≠ HashString x := by
  have hspec := foldl_Add_elements (attributeElements ToLower extra) {} SchemaSet_Keyed_empty
  refine ⟨_, extraConnectionAttributesToSet_eq_foldl ToLower extra hne, hspec.1, ?_⟩
  intro x
  rw [hspec.2 x]
  constructor
  · rintro (h | ⟨_, h⟩)
    · exact absurd h (by simp [SchemaSet.elements])
    · exact h
  · intro h
    refine Or.inr ⟨?_, h⟩
    intro z hz
    exact absurd hz (by simp [SchemaSet.elements])

/-- The elements the parts of a string give. -/
theorem mem_attributeElements (ToLower : String → String) (extra x : String) :
    x ∈ attributeElements ToLower extra ↔
      ∃ part ∈ Split extra ';', ∃ k v, Split part '=' = [k, v] ∧
        x = ToLower (camelToSnake k) ++ "=" ++ hyphensToUnderscores (ToLower v) := by
  simp only [attributeElements, List.mem_filterMap, attributeOfPart_eq_some]

/-- When no two different elements of the parts share a hash code, the set holds exactly the
elements of the parts. -/
theorem extraConnectionAttributesToSet_without_collision (ToLower : String → String)
    (extra : String) (S : SchemaSet)
    (hS : extraConnectionAttributesToSet ToLower extra = some S)
    (hfree : ∀ e1 ∈ attributeElements ToLower extra, ∀ e2 ∈ attributeElements ToLower extra,
      HashString e1 = HashString e2 → e1 = e2) :
    ∀ x, x ∈ S.elements ↔ x ∈ attributeElements ToLower extra := by
  have hne := extraConnectionAttributesToSet_ne_empty ToLower extra S hS
  obtain ⟨S2, hS2, _, hmem⟩ := extraConnectionAttributesToSet_first_per_code ToLower extra hne
  rw [hS] at hS2
  cases hS2
  intro x
  rw [hmem x]
  constructor
  · rintro ⟨pre, post, heq, _⟩
    rw [heq]
    simp
  · intro hx
    obtain ⟨pre, a, post, heq, hhash, hpre⟩ :=
      exists_first_of_exists_mem (fun e => HashString e = HashString x)
        (attributeElements ToLower extra) ⟨x, hx, rfl⟩
    have hamem : a ∈ attributeElements ToLower extra := by rw [heq]; simp
    have hax : a = x := hfree a hamem x hx hhash
    rw [hax] at heq
    exact ⟨pre, post, heq, hpre⟩

/-- Parts in another order give the same elements in another order. -/
theorem attributeElements_perm (ToLower : String → String) (extra1 extra2 : String)
    (hperm : (Split extra1 ';').Perm (Split extra2 ';')) :
    (attributeElements ToLower extra1).Perm (attributeElements ToLower extra2) :=
  hperm.filterMap _

/-- The call `strings.Split` gives one piece more than there are separators. -/
theorem length_splitChars (sep : Char) (cs : List Char) :
    (splitChars sep cs).length = cs.count sep + 1 := by
  induction cs with
  | nil => rfl
  | cons c rest ih =>
    unfold splitChars
    by_cases h : c = sep
    · subst h
      simp [ih]
    · rw [if_neg h]
      have hcount : (c :: rest).count sep = rest.count sep := by
        rw [List.count_cons]
        have : (c == sep) = false := by simpa using h
        simp [this]
      rw [hcount, ← ih]
      cases hsp : splitChars sep rest with
      | nil => rw [hsp] at ih; simp at ih
      | cons p ps => simp

/-- An upper-case ASCII letter is not a lower-case one. -/
theorem isUpper_not_isLower (c : Char) (h : c.isUpper = true) : c.isLower = false := by
  simp only [Char.isUpper, Char.isLower, Bool.and_eq_true, decide_eq_true_eq, ge_iff_le] at *
  simp only [Bool.and_eq_false_iff, decide_eq_false_iff_not]
  obtain ⟨h1, h2⟩ := h
  rw [UInt32.le_def, BitVec.le_def] at h1 h2
  left
  rw [UInt32.le_def, BitVec.le_def]
  have e1 : (UInt32.toBitVec 97).toNat = 97 := rfl
  have e2 : (UInt32.toBitVec 90).toNat = 90 := rfl
  omega

/-- One step of the snake-case conversion: an underscore goes between a lower-case letter
and an upper-case letter that follows it, and nothing else changes. -/
theorem camelToSnakeChars_step (a b : Char) (rest : List Char) :
    camelToSnakeChars (a :: b :: rest) =
      if a.isLower && b.isUpper then a :: '_' :: camelToSnakeChars (b :: rest)
      else a :: camelToSnakeChars (b :: rest) := by
  by_cases h : (a.isLower && b.isUpper) = true
  · have hb : b.isUpper = true := by
      simp only [Bool.and_eq_true] at h
      exact h.2
    have hbl := isUpper_not_isLower b hb
    rw [if_pos h]
    rw [camelToSnakeChars, if_pos h]
    cases rest with
    | nil => simp [camelToSnakeChars]
    | cons c r =>
      conv_rhs => rw [camelToSnakeChars]
      simp [hbl]
  · rw [if_neg h]
    rw [camelToSnakeChars, if_neg h]


/-- C24, amended: `extraConnectionAttributesToSet` returns nil for the empty string; for
every other string it returns a set keyed by the `HashString` code of its elements that
holds an element `x` exactly when `x` is among the elements of the parts and no element
before its first occurrence has the hash code of `x`.  The elements of the parts are the
strings `lower(snake(k)) + "=" + lower(v)` with `-` replaced by `_`, one for each
`;`-separated part that splits on `=` into exactly two pieces `k` and `v`, in the order of
the parts, where `snake` puts `_` between a lower-case letter and an upper-case letter that
follows it; a part whose number of `=` is not one (the empty part after a trailing `;`
among them) splits into no such pair.  When no two different elements of the parts have the
same hash code, the set holds exactly the elements of the parts, and a string with the same
parts in another order gives an equal set. -/
theorem extraConnectionAttributesToSet_elements (ToLower : String → String) :
    extraConnectionAttributesToSet ToLower "" = none ∧
    (∀ extra, extra ≠ "" →
      ∃ S, extraConnectionAttributesToSet ToLower extra = some S ∧ S.Keyed ∧
        ∀ x, x ∈ S.elements ↔
          ∃ pre post, attributeElements ToLower extra = pre ++ x :: post ∧
            ∀ y ∈ pre, HashString y ≠ HashString x) ∧
    (∀ extra x, x ∈ attributeElements ToLower extra ↔
      ∃ part ∈ Split extra ';', ∃ k v, Split part '=' = [k, v] ∧
        x = ToLower (camelToSnake k) ++ "=" ++ hyphensToUnderscores (ToLower v)) ∧
    (∀ a b rest,
      camelToSnakeChars (a :: b :: rest) =
        if a.isLower && b.isUpper then a :: '_' :: camelToSnakeChars (b :: rest)
        else a :: camelToSnakeChars (b :: rest)) ∧
    (∀ part, part.data.count '=' ≠ 1 → ∀ k v, Split part '=' ≠ [k, v]) ∧
    (∀ extra S, extraConnectionAttributesToSet ToLower extra = some S →
      (∀ e1 ∈ attributeElements ToLower extra, ∀ e2 ∈ attributeElements ToLower extra,
        HashString e1 = HashString e2 → e1 = e2) →
      ∀ x, x ∈ S.elements ↔ x ∈ attributeElements ToLower extra) ∧
    (∀ extra1 extra2 S1 S2, (Split extra1 ';').Perm (Split extra2 ';') →
      extraConnectionAttributesToSet ToLower extra1 = some S1 →
      extraConnectionAttributesToSet ToLower extra2 = some S2 →
      (∀ e1 ∈ attributeElements ToLower extra1, ∀ e2 ∈ attributeElements ToLower extra1,
        HashString e1 = HashString e2 → e1 = e2) →
      S1.Equal (some S2) = some true ∧ ∀ x, x ∈ S1.elements ↔ x ∈ S2.elements) := by
  refine ⟨rfl, extraConnectionAttributesToSet_first_per_code ToLower,
    mem_attributeElements ToLower, camelToSnakeChars_step, ?_,
    extraConnectionAttributesToSet_without_collision ToLower, ?_⟩
  · intro part hcount k v hsplit
    have hlen := length_splitChars '=' part.data
    have h2 : (Split part '=').length = 2 := by rw [hsplit]; rfl
    simp only [Split, List.length_map] at h2
    omega
  · intro extra1 extra2 S1 S2 hperm h1 h2 hfree
    have hE := attributeElements_perm ToLower extra1 extra2 hperm
    have hfree2 : ∀ e1 ∈ attributeElements ToLower extra2,
        ∀ e2 ∈ attributeElements ToLower extra2, HashString e1 = HashString e2 → e1 = e2 :=
      fun e1 he1 e2 he2 hh => hfree e1 (hE.mem_iff.mpr he1) e2 (hE.mem_iff.mpr he2) hh
    have hm1 := extraConnectionAttributesToSet_without_collision ToLower extra1 S1 h1 hfree
    have hm2 := extraConnectionAttributesToSet_without_collision ToLower extra2 S2 h2 hfree2
    have hsame : ∀ x, x ∈ S1.elements ↔ x ∈ S2.elements := by
      intro x
      rw [hm1 x, hm2 x]
      exact hE.mem_iff
    obtain ⟨T1, ht1, hk1, _⟩ := extraConnectionAttributesToSet_first_per_code ToLower extra1
      (extraConnectionAttributesToSet_ne_empty ToLower extra1 S1 h1)
    obtain ⟨T2, ht2, hk2, _⟩ := extraConnectionAttributesToSet_first_per_code ToLower extra2
      (extraConnectionAttributesToSet_ne_empty ToLower extra2 S2 h2)
    rw [h1] at ht1
    rw [h2] at ht2
    cases ht1
    cases ht2
    exact ⟨(SchemaSet_Equal_true S1 S2 hk1 hk2).mpr hsame, hsame⟩

/-- C24, amended, at a string with two well-formed parts, a part without `=`, a part with
two `=` and a trailing `;`, and at the same parts in another order. -/
theorem extraConnectionAttributesToSet_elements_example :
    extraConnectionAttributesToSet asciiToLower
        "dataFormat=Parquet;bucketName=my-bucket;bad;a=b=c;" =
      some { m := [(3950493280, "data_format=parquet"),
                   (2775156373, "bucket_name=my_bucket")] } ∧
    extraConnectionAttributesToSet asciiToLower
        "bucketName=my-bucket;dataFormat=Parquet;;bad;a=b=c" =
      some { m := [(2775156373, "bucket_name=my_bucket"),
                   (3950493280, "data_format=parquet")] } ∧
    SchemaSet.Equal
        { m := [(3950493280, "data_format=parquet"), (2775156373, "bucket_name=my_bucket")] }
        (some { m := [(2775156373, "bucket_name=my_bucket"),
                      (3950493280, "data_format=parquet")] }) = some true :=
  ⟨by decide, by decide,
    ((extraConnectionAttributesToSet_elements asciiToLower).2.2.2.2.2.2
      "dataFormat=Parquet;bucketName=my-bucket;bad;a=b=c;"
      "bucketName=my-bucket;dataFormat=Parquet;;bad;a=b=c"
      { m := [(3950493280, "data_format=parquet"), (2775156373, "bucket_name=my_bucket")] }
      { m := [(2775156373, "bucket_name=my_bucket"), (3950493280, "data_format=parquet")] }
      (by decide) (by decide) (by decide) (by decide)).1⟩

/-- C24, as stated, does not hold: the elements `k=plumless` and `k=buckeroo` have the same
hash code, so the set of `k=plumless;k=buckeroo;` does not hold the element of the part
`k=buckeroo`, which splits on `=` into exactly two pieces, and the same parts in the other
order give another set. -/
theorem extraConnectionAttributesToSet_collision_keeps_first :
    Split "k=plumless;k=buckeroo;" ';' = ["k=plumless", "k=buckeroo", ""] ∧
    Split "k=buckeroo" '=' = ["k", "buckeroo"] ∧
    asciiToLower (camelToSnake "k") ++ "=" ++ hyphensToUnderscores (asciiToLower "buckeroo")
      = "k=buckeroo" ∧
    HashString "k=plumless" = 1024090936 ∧
    HashString "k=buckeroo" = 1024090936 ∧
    extraConnectionAttributesToSet asciiToLower "k=plumless;k=buckeroo;" =
      some { m := [(1024090936, "k=plumless")] } ∧
    (Split "k=plumless;k=buckeroo;" ';').Perm (Split "k=buckeroo;k=plumless;" ';') ∧
    extraConnectionAttributesToSet asciiToLower "k=buckeroo;k=plumless;" =
      some { m := [(1024090936, "k=buckeroo")] } := by
  decide

/-! ## Suppression of differences in the extra connection attributes -/

/-- The method `Difference` keeps the entries well formed. -/
theorem SchemaSet_Keyed_Difference (s other : SchemaSet) (hs : s.Keyed) :
    (s.Difference other).Keyed := by
  unfold SchemaSet.Difference
  constructor
  · exact List.Nodup.sublist (List.Sublist.map _ (List.filter_sublist _)) hs.1
  · intro kv hkv
    exact hs.2 kv (List.mem_of_mem_filter hkv)

/-- The elements of `s.Difference(other)`: those of `s` whose hash code no element of
`other` has. -/
theorem SchemaSet_mem_Difference (s other : SchemaSet) (x : String) (hs : s.Keyed)
    (ho : other.Keyed) :
    x ∈ (s.Difference other).elements ↔
      x ∈ s.elements ∧ ∀ y ∈ other.elements, HashString y ≠ HashString x := by
  rw [SchemaSet_mem_elements _ x (SchemaSet_Keyed_Difference s other hs),
    SchemaSet_mem_elements s x hs, ← SchemaSet_lookup_eq_none other (HashString x) ho]
  simp only [SchemaSet.Difference, List.mem_filter, Option.isNone_iff_eq_none]

/-- The difference is empty exactly when every element of `s` has the hash code of an
element of `other`. -/
theorem SchemaSet_Len_Difference (s other : SchemaSet) (hs : s.Keyed) (ho : other.Keyed) :
    (s.Difference other).Len = 0 ↔
      ∀ x ∈ s.elements, ∃ y ∈ other.elements, HashString y = HashString x := by
  have hnil : (s.Difference other).Len = 0 ↔ ∀ x, x ∉ (s.Difference other).elements := by
    simp only [SchemaSet.Len, SchemaSet.elements, List.length_eq_zero, List.mem_map,
      not_exists, not_and]
    constructor
    · intro h x kv hkv
      rw [h] at hkv
      exact absurd hkv (List.not_mem_nil _)
    · intro h
      apply List.eq_nil_iff_forall_not_mem.mpr
      intro kv hkv
      exact h kv.2 kv hkv rfl
  rw [hnil]
  constructor
  · intro h x hx
    by_contra hcon
    simp only [not_exists, not_and] at hcon
    exact h x ((SchemaSet_mem_Difference s other x hs ho).mpr ⟨hx, hcon⟩)
  · intro h x hx
    obtain ⟨hx1, hx2⟩ := (SchemaSet_mem_Difference s other x hs ho).mp hx
    obtain ⟨y, hy, hyx⟩ := h x hx1
    exact hx2 y hy hyx

/-- A loop whose steps keep the entries well formed keeps them well formed. -/
theorem foldl_Keyed {α : Type} (f : SchemaSet → α → SchemaSet)
    (hf : ∀ s a, s.Keyed → (f s a).Keyed) (l : List α) (init : SchemaSet)
    (hinit : init.Keyed) : (l.foldl f init).Keyed := by
  induction l generalizing init with
  | nil => exact hinit
  | cons a rest ih => exact ih (f init a) (hf init a hinit)

/-- The set that `engineSettingsToSet` returns has well-formed entries. -/
theorem engineSettingsToSet_Keyed (ToLower : String → String) (l : List (Option TfMap))
    (C : SchemaSet) (h : engineSettingsToSet ToLower l = some C) : C.Keyed := by
  unfold engineSettingsToSet at h
  match l, h with
  | some tfMap :: _, h =>
    simp only [Option.some.injEq] at h
    rw [← h]
    apply foldl_Keyed
    · intro s kv hs
      dsimp only
      split <;> exact SchemaSet_Keyed_Add _ _ hs
    · exact SchemaSet_Keyed_empty

/-- The set that `extraConnectionAttributesToSet` returns has well-formed entries. -/
theorem extraConnectionAttributesToSet_Keyed (ToLower : String → String) (extra : String)
    (S : SchemaSet) (h : extraConnectionAttributesToSet ToLower extra = some S) :
    S.Keyed := by
  obtain ⟨T, hT, hk, _⟩ := extraConnectionAttributesToSet_first_per_code ToLower extra
    (extraConnectionAttributesToSet_ne_empty ToLower extra S h)
  rw [h] at hT
  cases hT
  exact hk

/-- The set of the engine settings has well-formed entries. -/
theorem engineSettingsAre_Keyed (ToLower : String → String) (d : ResourceData)
    (C : SchemaSet) (h : engineSettingsAre ToLower d C) : C.Keyed := by
  rcases h with ⟨v, _, hv⟩ | ⟨_, v, _, hv⟩
  · exact engineSettingsToSet_Keyed ToLower v C hv
  · exact engineSettingsToSet_Keyed ToLower v C hv

/-- The set `config` that `suppressExtraConnectionAttributesDiffs` builds from the settings
blocks. -/
theorem engineSettings_config (ToLower : String → String) (d : ResourceData)
    (C : SchemaSet) :
    (match d.GetOkList "mongodb_settings" with
      | (v, true) => engineSettingsToSet ToLower v
      | (_, false) =>
        match d.GetOkList "s3_settings" with
        | (v, true) => engineSettingsToSet ToLower v
        | (_, false) => none) = some C ↔ engineSettingsAre ToLower d C := by
  unfold engineSettingsAre
  rcases hm : d.GetOkList "mongodb_settings" with ⟨vm, bm⟩
  rcases hs : d.GetOkList "s3_settings" with ⟨vs, bs⟩
  cases bm <;> cases bs <;> simp

/-- When `suppressExtraConnectionAttributesDiffs` returns true, in terms of the sets it
builds. -/
theorem suppressExtraConnectionAttributesDiffs_run (ToLower : String → String)
    (old new : String) (d : ResourceData) :
    suppressExtraConnectionAttributesDiffs ToLower old new d = some true ↔
      d.Id ≠ "" ∧ ∃ O C, extraConnectionAttributesToSet ToLower old = some O ∧
        engineSettingsAre ToLower d C ∧
        ((∀ x ∈ O.elements, ∃ y ∈ C.elements, HashString y = HashString x) ∨
          ∃ N, extraConnectionAttributesToSet ToLower new = some N ∧
            ∀ x, x ∈ N.elements ↔
              (x ∈ O.elements ∧ ∀ y ∈ C.elements, HashString y ≠ HashString x)) := by
  unfold suppressExtraConnectionAttributesDiffs
  by_cases hid : d.Id ≠ ""
  · rw [if_pos hid]
    simp only []
    split
    · rename_i O C ho hc
      have hare : engineSettingsAre ToLower d C := (engineSettings_config ToLower d C).mp hc
      have hO := extraConnectionAttributesToSet_Keyed ToLower old O ho
      have hC := engineSettingsAre_Keyed ToLower d C hare
      have hD := SchemaSet_Keyed_Difference O C hO
      have huniq : ∀ C2, engineSettingsAre ToLower d C2 → C2 = C := by
        intro C2 h2
        have h3 := ((engineSettings_config ToLower d C2).mpr h2).symm.trans hc
        exact Option.some.inj h3
      by_cases hlen : (SchemaSet.Difference O C).Len = 0
      · rw [if_pos hlen]
        simp only [true_iff]
        exact ⟨hid, O, C, ho, hare, Or.inl ((SchemaSet_Len_Difference O C hO hC).mp hlen)⟩
      · rw [if_neg hlen]
        have hnot : ¬ ∀ x ∈ O.elements, ∃ y ∈ C.elements, HashString y = HashString x :=
          fun h => hlen ((SchemaSet_Len_Difference O C hO hC).mpr h)
        constructor
        · intro heq
          cases hn : extraConnectionAttributesToSet ToLower new with
          | none =>
            rw [hn] at heq
            simp [SchemaSet.Equal] at heq
          | some N =>
            rw [hn] at heq
            have hN := extraConnectionAttributesToSet_Keyed ToLower new N hn
            have hx := (SchemaSet_Equal_true _ N hD hN).mp heq
            refine ⟨hid, O, C, ho, hare, Or.inr ⟨N, rfl, ?_⟩⟩
            intro x
            rw [← hx x, SchemaSet_mem_Difference O C x hO hC]
        · rintro ⟨_, O2, C2, ho2, hare2, hor⟩
          have hOeq : O2 = O := Option.some.inj (ho2.symm.trans ho)
          have hCeq : C2 = C := huniq C2 hare2
          subst hOeq
          subst hCeq
          rcases hor with hall | ⟨N, hN, hx⟩
          · exact absurd hall hnot
          · rw [hN]
            have hNk := extraConnectionAttributesToSet_Keyed ToLower new N hN
            apply (SchemaSet_Equal_true _ N hD hNk).mpr
            intro x
            rw [SchemaSet_mem_Difference O2 C2 x hO hC, hx x]
    · rename_i hnone
      simp only [Option.some.injEq, Bool.false_eq_true, false_iff, not_and, not_exists]
      intro _ O C ho hare
      exact absurd ((engineSettings_config ToLower d C).mpr hare) (hnone O C ho)
  · rw [if_neg hid]
    simp only [Option.some.injEq, Bool.false_eq_true, false_iff, not_and]
    intro h
    exact absurd h hid

/-- C25, amended: `suppressExtraConnectionAttributesDiffs` returns true if and only if the
resource ID is not empty, the old attribute string is not empty, the `mongodb_settings`
block or, when that is not set, the `s3_settings` block is set and converts to a set `C`,
and the difference taken by hash code, the elements of the set of the old string whose
`HashString` code no element of `C` has, is empty or has the same elements as the set of
the new string; it returns false for a resource without an ID; and when `C` holds every
old attribute it returns true whatever the new string is. -/
theorem suppressExtraConnectionAttributesDiffs_true_iff (ToLower : String → String)
    (old new : String) (d : ResourceData) :
    (suppressExtraConnectionAttributesDiffs ToLower old new d = some true ↔
      d.Id ≠ "" ∧ old ≠ "" ∧
        ∃ O C, extraConnectionAttributesToSet ToLower old = some O ∧
          engineSettingsAre ToLower d C ∧
          ((∀ x ∈ O.elements, ∃ y ∈ C.elements, HashString y = HashString x) ∨
            ∃ N, extraConnectionAttributesToSet ToLower new = some N ∧
              ∀ x, x ∈ N.elements ↔
                (x ∈ O.elements ∧ ∀ y ∈ C.elements, HashString y ≠ HashString x))) ∧
    (d.Id = "" → suppressExtraConnectionAttributesDiffs ToLower old new d = some false) ∧
    (∀ O C, d.Id ≠ "" → extraConnectionAttributesToSet ToLower old = some O →
      engineSettingsAre ToLower d C → (∀ x ∈ O.elements, x ∈ C.elements) →
      ∀ new2, suppressExtraConnectionAttributesDiffs ToLower old new2 d = some true) := by
  refine ⟨?_, ?_, ?_⟩
  · rw [suppressExtraConnectionAttributesDiffs_run]
    constructor
    · rintro ⟨hid, O, C, ho, hrest⟩
      exact ⟨hid, extraConnectionAttributesToSet_ne_empty ToLower old O ho, O, C, ho, hrest⟩
    · rintro ⟨hid, _, hrest⟩
      exact ⟨hid, hrest⟩
  · intro hid
    unfold suppressExtraConnectionAttributesDiffs
    rw [if_neg (by simp [hid])]
  · intro O C hid ho hare hall new2
    exact (suppressExtraConnectionAttributesDiffs_run ToLower old new2 d).mpr
      ⟨hid, O, C, ho, hare, Or.inl (fun x hx => ⟨x, hall x hx, rfl⟩)⟩

/-- C25, amended, at an S3 endpoint whose settings cover the old attribute, at the same
endpoint without an ID, and at old attributes of which one is not covered. -/
theorem suppressExtraConnectionAttributesDiffs_true_iff_example :
    suppressExtraConnectionAttributesDiffs asciiToLower "bucketName=Logs-Bucket;"
        "compressionType=NONE;" s3EndpointData = some true ∧
    suppressExtraConnectionAttributesDiffs asciiToLower "bucketName=Logs-Bucket;" ""
        s3EndpointDataWithoutId = some false ∧
    suppressExtraConnectionAttributesDiffs asciiToLower "bucketName=Logs-Bucket;maxFileSize=5;"
        "maxFileSize=5;" s3EndpointData = some true ∧
    suppressExtraConnectionAttributesDiffs asciiToLower "bucketName=Logs-Bucket;maxFileSize=5;"
        "maxFileSize=6;" s3EndpointData = some false :=
  ⟨(suppressExtraConnectionAttributesDiffs_true_iff asciiToLower "bucketName=Logs-Bucket;" ""
      s3EndpointData).2.2 { m := [(2235604750, "bucket_name=logs_bucket")] }
      { m := [(2235604750, "bucket_name=logs_bucket"), (2631463701, "compression_type=gzip")] }
      (by decide) (by decide)
      (Or.inr ⟨by decide,
        [some [("bucket_name", .string "Logs-Bucket"), ("compression_type", .string "GZIP")]],
        by decide, by decide⟩)
      (by decide) "compressionType=NONE;",
    (suppressExtraConnectionAttributesDiffs_true_iff asciiToLower "bucketName=Logs-Bucket;" ""
      s3EndpointDataWithoutId).2.1 (by decide),
    by decide, by decide⟩

/-- C25, as stated, does not hold: the old attribute `bucket_name=plumless` is not among the
engine settings `bucket_name=buckeroo` and the set of the new string holds another
element, so that the difference of the sets of strings is neither empty nor the set of the
new string; the two strings have the same hash code, the difference by hash code is empty,
and the function returns true. -/
theorem suppressExtraConnectionAttributesDiffs_collision_suppresses :
    extraConnectionAttributesToSet asciiToLower "bucketName=plumless;" =
      some { m := [(3308642760, "bucket_name=plumless")] } ∧
    collidingS3EndpointData.GetOkList "s3_settings" =
      ([some [("bucket_name", .string "buckeroo")]], true) ∧
    (collidingS3EndpointData.GetOkList "mongodb_settings").2 = false ∧
    engineSettingsToSet asciiToLower [some [("bucket_name", .string "buckeroo")]] =
      some { m := [(3308642760, "bucket_name=buckeroo")] } ∧
    extraConnectionAttributesToSet asciiToLower "maxFileSize=5;" =
      some { m := [(3677006286, "max_file_size=5")] } ∧
    suppressExtraConnectionAttributesDiffs asciiToLower "bucketName=plumless;"
        "maxFileSize=5;" collidingS3EndpointData = some true := by
  decide

/-! ## Validation of the planned settings -/

/-- The test of `resourceEndpointCustomizeDiff` on a settings block, in words. -/
theorem settingsMissing_iff (diff : ResourceDiff) (key : String) :
    settingsMissing (diff.GetOkList key) = true ↔ settingsBlockMissing diff key := by
  unfold settingsBlockMissing settingsMissing
  rcases diff.GetOkList key with ⟨l, b⟩
  cases b <;> rcases l with _ | ⟨⟨⟩ | m, rest⟩ <;> simp

/-- A branch that returns an error under a condition returns one exactly under it. -/
theorem isSome_ite_error (c : Bool) (e : BaseError) :
    (if c = true then some e else none).isSome = true ↔ c = true := by
  cases c <;> simp

/-- C26: `resourceEndpointCustomizeDiff` returns an error if and only if `engine_name` is
`elasticsearch` or `opensearch` and `elasticsearch_settings` is missing, or is `kafka`,
`kinesis`, `mongodb` or `s3` and the settings block of that name is missing, where missing
means unset, an empty list, or a list with a nil first element; for every other engine name
it returns nil. -/
theorem resourceEndpointCustomizeDiff_error_iff (diff : ResourceDiff) :
    ((resourceEndpointCustomizeDiff diff).isSome = true ↔
      ((diff.GetString "engine_name" = "elasticsearch" ∨
          diff.GetString "engine_name" = "opensearch") ∧
        settingsBlockMissing diff "elasticsearch_settings") ∨
      (diff.GetString "engine_name" = "kafka" ∧ settingsBlockMissing diff "kafka_settings") ∨
      (diff.GetString "engine_name" = "kinesis" ∧
        settingsBlockMissing diff "kinesis_settings") ∨
      (diff.GetString "engine_name" = "mongodb" ∧
        settingsBlockMissing diff "mongodb_settings") ∨
      (diff.GetString "engine_name" = "s3" ∧ settingsBlockMissing diff "s3_settings")) ∧
    (diff.GetString "engine_name" ∉
        ["elasticsearch", "opensearch", "kafka", "kinesis", "mongodb", "s3"] →
      resourceEndpointCustomizeDiff diff = none) := by
  unfold resourceEndpointCustomizeDiff
  simp only [engineNameElasticsearch, engineNameOpenSearch, engineNameKafka, engineNameKinesis,
    engineNameMongodb, engineNameS3, ← settingsMissing_iff]
  generalize diff.GetString "engine_name" = engine
  constructor
  · by_cases h1 : engine = "elasticsearch" ∨ engine = "opensearch"
    · rw [if_pos h1, isSome_ite_error]
      rcases h1 with h1 | h1 <;> subst h1 <;> simp
    · rw [if_neg h1]
      simp only [h1, false_and, false_or]
      by_cases h2 : engine = "kafka"
      · rw [if_pos h2, isSome_ite_error]
        subst h2
        simp
      · rw [if_neg h2]
        simp only [h2, false_and, false_or]
        by_cases h3 : engine = "kinesis"
        · rw [if_pos h3, isSome_ite_error]
          subst h3
          simp
        · rw [if_neg h3]
          simp only [h3, false_and, false_or]
          by_cases h4 : engine = "mongodb"
          · rw [if_pos h4, isSome_ite_error]
            subst h4
            simp
          · rw [if_neg h4]
            simp only [h4, false_and, false_or]
            by_cases h5 : engine = "s3"
            · rw [if_pos h5, isSome_ite_error]
              subst h5
              simp
            · rw [if_neg h5]
              simp [h5]
  · intro hnot
    simp only [List.mem_cons, List.mem_singleton, List.not_mem_nil, or_false, not_or] at hnot
    obtain ⟨h1, h2, h3, h4, h5, h6⟩ := hnot
    simp [h1, h2, h3, h4, h5, h6]

/-- C26 at engine `kinesis` without and with its settings block, and at engine `mysql`. -/
theorem resourceEndpointCustomizeDiff_error_iff_example :
    (resourceEndpointCustomizeDiff kinesisDiffWithoutSettings).isSome = true ∧
    (resourceEndpointCustomizeDiff kinesisDiffWithSettings).isSome = false ∧
    resourceEndpointCustomizeDiff mysqlDiff = none :=
  ⟨(resourceEndpointCustomizeDiff_error_iff kinesisDiffWithoutSettings).1.mpr
      (Or.inr (Or.inr (Or.inl ⟨by decide, Or.inl (by decide)⟩))),
    by decide,
    (resourceEndpointCustomizeDiff_error_iff mysqlDiff).2 (by decide)⟩

end DMS
